import Mathlib

/-!
Verification of the js-zrim-netfilter-manager policy compilation engine.

This file gives a shallow embedding of the four job variants
(`prepare-netfilter`, the generic service job, the docker DNS service job,
`sync-blacklist-ips`) and proves or refutes the frozen claims about them.

Modelling conventions, uniform across the file:
* A `SecurityCommand` mirrors the JS object `{type, value}` produced by
  `_asIptables4Command` / `_asIpSetCommand`.
* Each job's `execute` is embedded as a pure function from the relevant parts
  of the execution context (the `jobCommand.type` string, the job's raw
  configuration, and for some jobs extra context fields) to the pair of the
  promise outcome (`Except JobError JobResult`) and the final
  `context.commands` state.  JS promise rejection becomes `Except.error`.
* Joi schema validation is embedded structurally: raw configurations have
  `Option` fields for everything Joi does not mark `.required()`, and the
  validator fails exactly when a required field is absent.  The string-shape
  refinements of Joi (`.ip({cidr})`, `.uri({scheme})`) are not modelled; no
  claim under consideration depends on them, and every string is treated as
  shape-valid.
* JS `String.prototype.toLowerCase` is embedded as a per-character lowercase
  map (`strToLower`), and `x || dflt` on an optional string field as
  `jsStringOr` (the empty string is falsy in JS).
* The external blacklist data source (a SQL query) is embedded as an input
  list of row values, one per returned row, in query-result order.
-/

/-- Mirrors the JS `SecurityCommand` objects `{type, value}`. -/
structure SecurityCommand where
  type : String
  value : String
deriving DecidableEq, Repr

/-- An ordered command list, the transcript a job execution returns. -/
abbrev Transcript := List SecurityCommand

/-- Mirrors `_asIptables4Command` (identical in all job files). -/
def asIptables4Command (command : String) : SecurityCommand :=
  { type := "iptables-4", value := command }

/-- Mirrors `_asIpSetCommand` from prepare-netfilter.js. -/
def asIpSetCommand (command : String) : SecurityCommand :=
  { type := "ipset", value := command }

/-- The `context.commands` object each execute initialises to empty lists and
the generator steps append to. -/
structure CommandsState where
  install : Transcript
  unInstall : Transcript
deriving DecidableEq, Repr

/-- The errors an execution can reject with.  The JS code rejects with
`commonErrors.IllegalArgumentError` in both cases, distinguished by message:
`Invalid command <type>` for a bad direction token and
`Invalid configuration: <joi message>` for a schema violation.  The spec's
taxonomy names these `InvalidDirectionError` and `ValidationError`; the two
constructors keep that distinction. -/
inductive JobError where
  | invalidDirection (token : String)
  | validation (message : String)
deriving DecidableEq, Repr

/-- Mirrors `BaseJob~ExecutionOnResolve`: `{securityCommands}`. -/
structure JobResult where
  securityCommands : Transcript
deriving DecidableEq, Repr

/-- The observable outcome of one `execute` call: the promise result plus the
final `context.commands` state. -/
abbrev ExecutionOutcome := Except JobError JobResult × CommandsState

/-- Per-character lowercase map, the embedding of JS `toLowerCase()` (which
lowercases each character of the string). -/
def strToLower (s : String) : String := ⟨s.data.map Char.toLower⟩

/-- Embedding of the JS idiom `optionalString || dflt`: `undefined`, `null`
and the empty string are falsy. -/
def jsStringOr (o : Option String) (dflt : String) : String :=
  match o with
  | none => dflt
  | some s => if s = "" then dflt else s

/-- Mirrors the JS accumulation `context.commands.install = _.concat(...)` /
`context.commands.unInstall = _.concat(...)` done once per generator step:
folding a list of per-step (install, unInstall) pairs over the initially
empty state. -/
def runSteps (steps : List (Transcript × Transcript)) : CommandsState :=
  steps.foldl (fun st p => ⟨st.install ++ p.1, st.unInstall ++ p.2⟩) ⟨[], []⟩

/-- Mirrors the final response selection shared by every job:
`if (context.jobCommand.type === 'install') { install } else { unInstall }`.
Note the exact (case sensitive) string comparison. -/
def selectTranscript (jobCommandType : String) (st : CommandsState) : Transcript :=
  if jobCommandType = "install" then st.install else st.unInstall

namespace PrepareNetfilterJob

/-- An item of `trustedItems` / `networks`: `{value, description}` with only
`value` required by the schema. -/
structure NetworkItem where
  value : String
  description : Option String
deriving DecidableEq, Repr

/-- One side of an interface's `rules`: `{defaultAction}` (required). -/
structure DirectionRules where
  defaultAction : String
deriving DecidableEq, Repr

/-- An interface's `rules` object: `input` and `output`, both required. -/
structure InterfaceRules where
  input : DirectionRules
  output : DirectionRules
deriving DecidableEq, Repr

/-- A validated `primaryInterfaces` entry. -/
structure PrimaryInterface where
  name : String
  networks : List NetworkItem
  rules : InterfaceRules
deriving DecidableEq, Repr

/-- The validated `network` subtree of the job configuration.  `trustedItems`
is not `.required()` in the schema, hence `Option`. -/
structure JobNetwork where
  trustedItems : Option (List NetworkItem)
  primaryInterfaces : List PrimaryInterface
deriving DecidableEq, Repr

/-- The validated job configuration for prepare-netfilter. -/
structure JobConfiguration where
  network : JobNetwork
deriving DecidableEq, Repr

/-- Raw (pre-validation) counterpart of `NetworkItem`: `value` may be
missing. -/
structure RawNetworkItem where
  value : Option String
  description : Option String
deriving DecidableEq, Repr

/-- Raw counterpart of `DirectionRules`. -/
structure RawDirectionRules where
  defaultAction : Option String
deriving DecidableEq, Repr

/-- Raw counterpart of `InterfaceRules`. -/
structure RawInterfaceRules where
  input : Option RawDirectionRules
  output : Option RawDirectionRules
deriving DecidableEq, Repr

/-- Raw counterpart of `PrimaryInterface`. -/
structure RawPrimaryInterface where
  name : Option String
  networks : Option (List RawNetworkItem)
  rules : Option RawInterfaceRules
deriving DecidableEq, Repr

/-- Raw counterpart of `JobNetwork`. -/
structure RawJobNetwork where
  trustedItems : Option (List RawNetworkItem)
  primaryInterfaces : Option (List RawPrimaryInterface)
deriving DecidableEq, Repr

/-- Raw counterpart of `JobConfiguration`: the whole `network` subtree may be
missing. -/
structure RawJobConfiguration where
  network : Option RawJobNetwork
deriving DecidableEq, Repr

/-- Validates one raw network item (the schema requires `value`). -/
def validateNetworkItem (it : RawNetworkItem) : Except String NetworkItem :=
  match it.value with
  | none => .error "child \"value\" fails because [\"value\" is required]"
  | some v => .ok ⟨v, it.description⟩

/-- Validates a list of raw network items, first failure wins. -/
def validateNetworkItems : List RawNetworkItem → Except String (List NetworkItem)
  | [] => .ok []
  | it :: rest => do
    let v ← validateNetworkItem it
    let vs ← validateNetworkItems rest
    .ok (v :: vs)

/-- Validates one side of an interface's rules (`defaultAction` required). -/
def validateDirectionRules (o : Option RawDirectionRules) : Except String DirectionRules :=
  match o with
  | none => .error "child \"rules\" fails because [direction rules are required]"
  | some r =>
    match r.defaultAction with
    | none => .error "child \"defaultAction\" fails because [\"defaultAction\" is required]"
    | some a => .ok ⟨a⟩

/-- Validates one raw primary interface. -/
def validatePrimaryInterface (pi : RawPrimaryInterface) : Except String PrimaryInterface :=
  match pi.name with
  | none => .error "child \"name\" fails because [\"name\" is required]"
  | some n =>
    match pi.networks with
    | none => .error "child \"networks\" fails because [\"networks\" is required]"
    | some rawNets => do
      let nets ← validateNetworkItems rawNets
      match pi.rules with
      | none => .error "child \"rules\" fails because [\"rules\" is required]"
      | some rr => do
        let rin ← validateDirectionRules rr.input
        let rout ← validateDirectionRules rr.output
        .ok ⟨n, nets, ⟨rin, rout⟩⟩

/-- Validates a list of raw primary interfaces. -/
def validatePrimaryInterfaces : List RawPrimaryInterface → Except String (List PrimaryInterface)
  | [] => .ok []
  | pi :: rest => do
    let v ← validatePrimaryInterface pi
    let vs ← validatePrimaryInterfaces rest
    .ok (v :: vs)

/-- Embedding of the Joi schema of `execute.Steps.validateConfiguration`:
`network` is required, `network.primaryInterfaces` is required,
`network.trustedItems` is optional. -/
def validateConfiguration (raw : RawJobConfiguration) : Except String JobConfiguration :=
  match raw.network with
  | none => .error "child \"network\" fails because [\"network\" is required]"
  | some net => do
    let trusted ← match net.trustedItems with
      | none => .ok none
      | some items => (validateNetworkItems items).map some
    match net.primaryInterfaces with
    | none => .error "child \"primaryInterfaces\" fails because [\"primaryInterfaces\" is required]"
    | some pis => do
      let vpis ← validatePrimaryInterfaces pis
      .ok ⟨⟨trusted, vpis⟩⟩

/-- Install commands of `execute.Steps.generateVitalAccessChain`, in push
order: chain creation, then per interface the DHCP / DNS client / ICMP /
NTP / root / established rules plus per-network loopback exceptions, then the
loopback tail rules and the terminal RETURNs. -/
def generateVitalAccessChainInstall (cfg : JobConfiguration) : Transcript :=
  [asIptables4Command "-N IN_vital_access_0",
   asIptables4Command "-N OUT_vital_access_0"]
  ++ cfg.network.primaryInterfaces.flatMap (fun pi =>
    [asIptables4Command ("-A IN_vital_access_0 --in-interface " ++ pi.name ++ " -p udp --dport 67:68 --sport 67:68 -j ACCEPT"),
     asIptables4Command ("-A OUT_vital_access_0 --out-interface " ++ pi.name ++ " -p udp --dport 67:68 --sport 67:68 -j ACCEPT"),
     asIptables4Command ("-A OUT_vital_access_0 --out-interface " ++ pi.name ++ " -p udp --sport 1024:65535 --dport 53 -m state --state NEW,ESTABLISHED,RELATED -j ACCEPT"),
     asIptables4Command ("-A IN_vital_access_0 --in-interface " ++ pi.name ++ " -p udp --sport 53 --dport 1024:65535 -m state --state ESTABLISHED,RELATED -j ACCEPT"),
     asIptables4Command ("-A OUT_vital_access_0 --out-interface " ++ pi.name ++ " -p tcp --sport 1024:65535 --dport 53 -m state --state NEW,ESTABLISHED,RELATED -j ACCEPT"),
     asIptables4Command ("-A IN_vital_access_0 --in-interface " ++ pi.name ++ " -p tcp --sport 53 --dport 1024:65535 -m state --state ESTABLISHED,RELATED -j ACCEPT"),
     asIptables4Command ("-A OUT_vital_access_0 -p icmp --in-interface " ++ pi.name ++ " -d 0.0.0.0/0 -m state --state NEW,ESTABLISHED,RELATED -j ACCEPT"),
     asIptables4Command ("-A IN_vital_access_0 -p icmp --out-interface " ++ pi.name ++ " -s 0.0.0.0/0 -m state --state ESTABLISHED,RELATED -j ACCEPT"),
     asIptables4Command ("-A IN_vital_access_0 -p icmp --icmp-type 8 --in-interface " ++ pi.name ++ " -s 0.0.0.0/0 -m state --state NEW,ESTABLISHED,RELATED -j ACCEPT"),
     asIptables4Command ("-A OUT_vital_access_0 -p icmp --out-interface " ++ pi.name ++ " -d 0.0.0.0/0 -m state --state ESTABLISHED,RELATED -j ACCEPT"),
     asIptables4Command ("-A OUT_vital_access_0 --out-interface " ++ pi.name ++ " -p udp --sport 1024:65535 --dport 123 -j ACCEPT"),
     asIptables4Command ("-A IN_vital_access_0 --in-interface " ++ pi.name ++ " -p udp --sport 123 --dport 1024:65535 -m state --state ESTABLISHED,RELATED -j ACCEPT"),
     asIptables4Command ("-A OUT_vital_access_0 --out-interface " ++ pi.name ++ " -m owner --uid-owner 0 -j ACCEPT"),
     asIptables4Command ("-A IN_vital_access_0 --in-interface " ++ pi.name ++ " -m state --state ESTABLISHED,RELATED -j ACCEPT")]
    ++ pi.networks.flatMap (fun nw =>
      [asIptables4Command ("-A IN_vital_access_0 --in-interface lo -s " ++ nw.value ++ " -d " ++ nw.value ++ " -j ACCEPT"),
       asIptables4Command ("-A IN_vital_access_0 --in-interface lo -s " ++ nw.value ++ " -d 127.0.0.0/8 -j ACCEPT"),
       asIptables4Command ("-A OUT_vital_access_0 --out-interface lo -s " ++ nw.value ++ " -d " ++ nw.value ++ " -j ACCEPT"),
       asIptables4Command ("-A OUT_vital_access_0 --out-interface lo -s " ++ nw.value ++ " -d 127.0.0.0/8 -j ACCEPT")]))
  ++ [asIptables4Command "-A IN_vital_access_0 ! --in-interface lo -d 127.0.0.0/8 -j REJECT",
      asIptables4Command "-A OUT_vital_access_0 --out-interface lo -d 127.0.0.0/8 -j ACCEPT",
      asIptables4Command "-A IN_vital_access_0 -j RETURN",
      asIptables4Command "-A OUT_vital_access_0 -j RETURN"]

/-- Uninstall commands of `generateVitalAccessChain` (flush and destroy both
chains, pushed right after each creation). -/
def generateVitalAccessChainUnInstall : Transcript :=
  [asIptables4Command "-F IN_vital_access_0",
   asIptables4Command "-X IN_vital_access_0",
   asIptables4Command "-F OUT_vital_access_0",
   asIptables4Command "-X OUT_vital_access_0"]

/-- Install commands of `execute.Steps.generateBlockNetworkChain`. -/
def generateBlockNetworkChainInstall : Transcript :=
  [asIptables4Command "-N IN_block_access_0",
   asIpSetCommand "-! create block_net hash:net",
   asIptables4Command "-A IN_block_access_0 -j DROP"]

/-- Uninstall commands of `generateBlockNetworkChain`. -/
def generateBlockNetworkChainUnInstall : Transcript :=
  [asIptables4Command "-F IN_block_access_0",
   asIptables4Command "-X IN_block_access_0",
   asIpSetCommand "-! destroy block_net"]

/-- Install commands of `execute.Steps.generateServiceAccessChain`. -/
def generateServiceAccessChainInstall : Transcript :=
  [asIptables4Command "-N IN_services_access_0",
   asIptables4Command "-A IN_services_access_0 -j RETURN",
   asIptables4Command "-N OUT_services_access_0",
   asIptables4Command "-A OUT_services_access_0 -j RETURN"]

/-- Uninstall commands of `generateServiceAccessChain`. -/
def generateServiceAccessChainUnInstall : Transcript :=
  [asIptables4Command "-F IN_services_access_0",
   asIptables4Command "-X IN_services_access_0",
   asIptables4Command "-F OUT_services_access_0",
   asIptables4Command "-X OUT_services_access_0"]

/-- Install commands of `execute.Steps.generateTrustedNetworkChain`.
`globalTrustedItems` embeds `context.configuration.global.network.trustedItems`
(default `[]`), and the job's own `trustedItems` (default `[]`) are
concatenated after it, exactly as `_.concat([], global, job)` does. -/
def generateTrustedNetworkChainInstall (globalTrustedItems : List NetworkItem)
    (cfg : JobConfiguration) : Transcript :=
  [asIpSetCommand "-! create trusted_net hash:net"]
  ++ (globalTrustedItems ++ cfg.network.trustedItems.getD []).map
      (fun network => asIpSetCommand ("-! add trusted_net " ++ network.value))
  ++ [asIptables4Command "-N IN_trusted_access_0",
      asIptables4Command "-A IN_trusted_access_0 -m set --match-set trusted_net src -j ACCEPT",
      asIptables4Command "-A IN_trusted_access_0 -j RETURN",
      asIptables4Command "-N OUT_trusted_access_0",
      asIptables4Command "-A OUT_trusted_access_0 -m set --match-set trusted_net dst -j ACCEPT",
      asIptables4Command "-A OUT_trusted_access_0 -j RETURN"]

/-- Uninstall commands of `generateTrustedNetworkChain`. -/
def generateTrustedNetworkChainUnInstall : Transcript :=
  [asIptables4Command "-F IN_trusted_access_0",
   asIptables4Command "-X IN_trusted_access_0",
   asIptables4Command "-F OUT_trusted_access_0",
   asIptables4Command "-X OUT_trusted_access_0",
   asIpSetCommand "-! destroy trusted_net"]

/-- Install commands of `execute.Steps.generateRootAccessChains`: the INPUT
activation inserts at priorities 1..4, the per-interface default-action
appends, then the OUTPUT activation inserts. -/
def generateRootAccessChainsInstall (cfg : JobConfiguration) : Transcript :=
  [asIptables4Command "-I INPUT 1 -j IN_trusted_access_0",
   asIptables4Command "-I INPUT 2 -j IN_vital_access_0",
   asIptables4Command "-I INPUT 3 -m set --match-set block_net src -j IN_block_access_0",
   asIptables4Command "-I INPUT 4 -j IN_services_access_0"]
  ++ cfg.network.primaryInterfaces.map (fun pi =>
      asIptables4Command ("-A INPUT --in-interface " ++ pi.name ++ " -j " ++ pi.rules.input.defaultAction))
  ++ [asIptables4Command "-I OUTPUT 1 -j OUT_trusted_access_0",
      asIptables4Command "-I OUTPUT 2 -j OUT_vital_access_0",
      asIptables4Command "-I OUTPUT 3 -j OUT_services_access_0"]

/-- Uninstall commands of `generateRootAccessChains`, pushed in the same pass
as the corresponding install commands, hence in the same relative order. -/
def generateRootAccessChainsUnInstall (cfg : JobConfiguration) : Transcript :=
  [asIptables4Command "-D INPUT -j IN_trusted_access_0",
   asIptables4Command "-D INPUT -j IN_vital_access_0",
   asIptables4Command "-D INPUT -m set --match-set block_net src -j IN_block_access_0",
   asIptables4Command "-D INPUT -j IN_services_access_0"]
  ++ cfg.network.primaryInterfaces.map (fun pi =>
      asIptables4Command ("-D INPUT --in-interface " ++ pi.name ++ " -j " ++ pi.rules.input.defaultAction))
  ++ [asIptables4Command "-D OUTPUT -j OUT_trusted_access_0",
      asIptables4Command "-D OUTPUT -j OUT_vital_access_0",
      asIptables4Command "-D OUTPUT -j OUT_services_access_0"]

/-- The five generator steps in the order `execute` pushes them for the
install direction. -/
def installOrderSteps (globalTrustedItems : List NetworkItem)
    (cfg : JobConfiguration) : List (Transcript × Transcript) :=
  [(generateVitalAccessChainInstall cfg, generateVitalAccessChainUnInstall),
   (generateBlockNetworkChainInstall, generateBlockNetworkChainUnInstall),
   (generateServiceAccessChainInstall, generateServiceAccessChainUnInstall),
   (generateTrustedNetworkChainInstall globalTrustedItems cfg, generateTrustedNetworkChainUnInstall),
   (generateRootAccessChainsInstall cfg, generateRootAccessChainsUnInstall cfg)]

/-- The five generator steps in the order `execute` pushes them for the
uninstall direction (exactly reversed). -/
def uninstallOrderSteps (globalTrustedItems : List NetworkItem)
    (cfg : JobConfiguration) : List (Transcript × Transcript) :=
  [(generateRootAccessChainsInstall cfg, generateRootAccessChainsUnInstall cfg),
   (generateTrustedNetworkChainInstall globalTrustedItems cfg, generateTrustedNetworkChainUnInstall),
   (generateServiceAccessChainInstall, generateServiceAccessChainUnInstall),
   (generateBlockNetworkChainInstall, generateBlockNetworkChainUnInstall),
   (generateVitalAccessChainInstall cfg, generateVitalAccessChainUnInstall)]

/-- Embedding of `PrepareNetfilterJob.prototype.execute`: initialise the
command lists, choose the step order by the lowercased direction token
(rejecting any other token before any step runs), run validation then the
generators, and select the returned transcript by exact comparison with
`'install'`. -/
def execute (jobCommandType : String) (globalTrustedItems : List NetworkItem)
    (raw : RawJobConfiguration) : ExecutionOutcome :=
  if strToLower jobCommandType = "install" ∨ strToLower jobCommandType = "uninstall" then
    match validateConfiguration raw with
    | .error msg => (.error (.validation ("Invalid configuration: " ++ msg)), ⟨[], []⟩)
    | .ok cfg =>
      let st :=
        if strToLower jobCommandType = "install" then
          runSteps (installOrderSteps globalTrustedItems cfg)
        else
          runSteps (uninstallOrderSteps globalTrustedItems cfg)
      (.ok ⟨selectTranscript jobCommandType st⟩, st)
  else
    (.error (.invalidDirection jobCommandType), ⟨[], []⟩)

end PrepareNetfilterJob

namespace GenericServiceJob

/-- A validated `network.items` entry of the generic service job:
`portNumber` and `protocol` required, `sourceNetworks` and
`destinationNetwork` optional (both `.allow(null)`). -/
structure ServiceItem where
  portNumber : Int
  sourceNetworks : Option (List String)
  protocol : String
  destinationNetwork : Option String
deriving DecidableEq, Repr

/-- The validated `network` subtree (`items` required). -/
structure ServiceNetwork where
  items : List ServiceItem
deriving DecidableEq, Repr

/-- The validated job configuration: optional top-level `chainName` plus the
required `network` subtree. -/
structure JobConfiguration where
  chainName : Option String
  network : ServiceNetwork
deriving DecidableEq, Repr

/-- Raw counterpart of `ServiceItem`. -/
structure RawServiceItem where
  portNumber : Option Int
  sourceNetworks : Option (List String)
  protocol : Option String
  destinationNetwork : Option String
deriving DecidableEq, Repr

/-- Raw counterpart of `ServiceNetwork`. -/
structure RawServiceNetwork where
  items : Option (List RawServiceItem)
deriving DecidableEq, Repr

/-- Raw counterpart of `JobConfiguration`. -/
structure RawJobConfiguration where
  chainName : Option String
  network : Option RawServiceNetwork
deriving DecidableEq, Repr

/-- Validates one raw service item: `portNumber` and `protocol` are
`.required()`; the other two fields pass through. -/
def validateServiceItem (it : RawServiceItem) : Except String ServiceItem :=
  match it.portNumber with
  | none => .error "child \"portNumber\" fails because [\"portNumber\" is required]"
  | some pn =>
    match it.protocol with
    | none => .error "child \"protocol\" fails because [\"protocol\" is required]"
    | some pr => .ok ⟨pn, it.sourceNetworks, pr, it.destinationNetwork⟩

/-- Validates a list of raw service items. -/
def validateServiceItems : List RawServiceItem → Except String (List ServiceItem)
  | [] => .ok []
  | it :: rest => do
    let v ← validateServiceItem it
    let vs ← validateServiceItems rest
    .ok (v :: vs)

/-- Embedding of `GenericServiceJob.prototype._validateConfiguration`:
`network` and `network.items` are required. -/
def validateConfiguration (raw : RawJobConfiguration) : Except String JobConfiguration :=
  match raw.network with
  | none => .error "child \"network\" fails because [\"network\" is required]"
  | some net =>
    match net.items with
    | none => .error "child \"items\" fails because [\"items\" is required]"
    | some items => do
      let vs ← validateServiceItems items
      .ok ⟨raw.chainName, ⟨vs⟩⟩

/-- Mirrors `GenericServiceJob.prototype._getServiceChainName`. -/
def getServiceChainName : String := "genericServiceName"

/-- The ACCEPT commands `_generateRules` pushes for one item: one per source
network, or a single source-agnostic one when the source list is absent or
empty.  The double space when no destination network is given is exactly what
the JS template literal produces. -/
def itemAcceptCommands (chainName : String) (item : ServiceItem) : Transcript :=
  let destinationNetworkPart :=
    match item.destinationNetwork with
    | none => ""
    | some d => " -d " ++ d
  let protocolPortNumberPart :=
    " -p " ++ item.protocol ++ " --sport 1024:65535 --dport " ++ toString item.portNumber
  let sourceNetworks := item.sourceNetworks.getD []
  if sourceNetworks.length = 0 then
    [asIptables4Command ("-A IN_" ++ chainName ++ " " ++ destinationNetworkPart ++ protocolPortNumberPart ++ " -j ACCEPT")]
  else
    sourceNetworks.map (fun n =>
      asIptables4Command ("-A IN_" ++ chainName ++ " -s " ++ n ++ " " ++ destinationNetworkPart ++ protocolPortNumberPart ++ " -j ACCEPT"))

/-- Install commands of `GenericServiceJob.prototype._generateRules`.
Note the chain name is read from `context.configurationJob.chainName` (the
raw job entry of the main configuration file), NOT from the validated job
configuration: `configurationJobChainName` embeds that context field. -/
def generateRulesInstall (configurationJobChainName : Option String)
    (cfg : JobConfiguration) : Transcript :=
  let chainName := jsStringOr configurationJobChainName getServiceChainName
  [asIptables4Command ("-N IN_" ++ chainName),
   asIptables4Command ("-N OUT_" ++ chainName)]
  ++ cfg.network.items.flatMap (itemAcceptCommands chainName)
  ++ [asIptables4Command ("-A IN_" ++ chainName ++ " -j RETURN"),
      asIptables4Command ("-A OUT_" ++ chainName ++ " -j RETURN"),
      asIptables4Command ("-I IN_services_access_0 1 -j IN_" ++ chainName),
      asIptables4Command ("-I OUT_services_access_0 1 -j OUT_" ++ chainName)]

/-- Uninstall commands of `GenericServiceJob.prototype._generateRules`:
delete both activation links, then flush and destroy both chains. -/
def generateRulesUnInstall (configurationJobChainName : Option String) : Transcript :=
  let chainName := jsStringOr configurationJobChainName getServiceChainName
  [asIptables4Command ("-D IN_services_access_0 -j IN_" ++ chainName),
   asIptables4Command ("-D OUT_services_access_0 -j OUT_" ++ chainName),
   asIptables4Command ("-F IN_" ++ chainName),
   asIptables4Command ("-X IN_" ++ chainName),
   asIptables4Command ("-F OUT_" ++ chainName),
   asIptables4Command ("-X OUT_" ++ chainName)]

/-- Embedding of `GenericServiceJob.prototype.execute`: reject unknown
direction tokens (lowercased membership test) before any step, then run
validation and rule generation, then select by exact comparison with
`'install'`. -/
def execute (jobCommandType : String) (configurationJobChainName : Option String)
    (raw : RawJobConfiguration) : ExecutionOutcome :=
  if (["install", "uninstall"].contains (strToLower jobCommandType)) = false then
    (.error (.invalidDirection jobCommandType), ⟨[], []⟩)
  else
    match validateConfiguration raw with
    | .error msg => (.error (.validation ("Invalid configuration: " ++ msg)), ⟨[], []⟩)
    | .ok cfg =>
      let st := runSteps
        [(generateRulesInstall configurationJobChainName cfg,
          generateRulesUnInstall configurationJobChainName)]
      (.ok ⟨selectTranscript jobCommandType st⟩, st)

end GenericServiceJob

namespace DockerDnsServiceJob

/-- A validated `network.items` entry of the docker DNS job.
`sourcePortNumber` carries the Joi `.default(53)` applied during
validation. -/
structure DnsItem where
  sourcePortNumber : Int
  sourceLinkName : String
  sourceIpAddress : String
  destinationPortNumber : Int
  destinationIpAddress : Option String
deriving DecidableEq, Repr

/-- The validated `network` subtree (`items` required). -/
structure DnsNetwork where
  items : List DnsItem
deriving DecidableEq, Repr

/-- The validated job configuration. -/
structure JobConfiguration where
  chainName : Option String
  network : DnsNetwork
deriving DecidableEq, Repr

/-- Raw counterpart of `DnsItem`. -/
structure RawDnsItem where
  sourcePortNumber : Option Int
  sourceLinkName : Option String
  sourceIpAddress : Option String
  destinationPortNumber : Option Int
  destinationIpAddress : Option String
deriving DecidableEq, Repr

/-- Raw counterpart of `DnsNetwork`. -/
structure RawDnsNetwork where
  items : Option (List RawDnsItem)
deriving DecidableEq, Repr

/-- Raw counterpart of `JobConfiguration`. -/
structure RawJobConfiguration where
  chainName : Option String
  network : Option RawDnsNetwork
deriving DecidableEq, Repr

/-- Validates one raw DNS item: `sourceLinkName`, `sourceIpAddress` and
`destinationPortNumber` are `.required()`, `sourcePortNumber` defaults to 53,
`destinationIpAddress` is optional. -/
def validateDnsItem (it : RawDnsItem) : Except String DnsItem :=
  match it.sourceLinkName with
  | none => .error "child \"sourceLinkName\" fails because [\"sourceLinkName\" is required]"
  | some link =>
    match it.sourceIpAddress with
    | none => .error "child \"sourceIpAddress\" fails because [\"sourceIpAddress\" is required]"
    | some sip =>
      match it.destinationPortNumber with
      | none => .error "child \"destinationPortNumber\" fails because [\"destinationPortNumber\" is required]"
      | some dpn =>
        .ok ⟨it.sourcePortNumber.getD 53, link, sip, dpn, it.destinationIpAddress⟩

/-- Validates a list of raw DNS items. -/
def validateDnsItems : List RawDnsItem → Except String (List DnsItem)
  | [] => .ok []
  | it :: rest => do
    let v ← validateDnsItem it
    let vs ← validateDnsItems rest
    .ok (v :: vs)

/-- Embedding of `DockerDnsServiceJob.prototype._validateConfiguration`. -/
def validateConfiguration (raw : RawJobConfiguration) : Except String JobConfiguration :=
  match raw.network with
  | none => .error "child \"network\" fails because [\"network\" is required]"
  | some net =>
    match net.items with
    | none => .error "child \"items\" fails because [\"items\" is required]"
    | some items => do
      let vs ← validateDnsItems items
      .ok ⟨raw.chainName, ⟨vs⟩⟩

/-- Mirrors `DockerDnsServiceJob.prototype._getServiceChainName`. -/
def getServiceChainName : String := "dockerDnsService"

/-- Renders an optional string field inside a JS template literal: an absent
field interpolates as the text `undefined`. -/
def jsInterpolate (o : Option String) : String := o.getD "undefined"

/-- The six install commands `_generateRules` pushes per item, in push order:
NAT redirect TCP, NAT redirect UDP, FORWARD accept TCP, FORWARD accept UDP,
DNS-chain accept TCP, DNS-chain accept UDP. -/
def itemInstallCommands (chainName : String) (item : DnsItem) : Transcript :=
  [asIptables4Command ("-I PREROUTING 1 -t nat -i " ++ item.sourceLinkName ++ " -p tcp -d " ++ item.sourceIpAddress ++ " --dport " ++ toString item.sourcePortNumber ++ " -j DNAT --to " ++ jsInterpolate item.destinationIpAddress ++ ":" ++ toString item.destinationPortNumber),
   asIptables4Command ("-I PREROUTING 1 -t nat -i " ++ item.sourceLinkName ++ " -p udp -d " ++ item.sourceIpAddress ++ " --dport " ++ toString item.sourcePortNumber ++ " -j DNAT --to " ++ jsInterpolate item.destinationIpAddress ++ ":" ++ toString item.destinationPortNumber),
   asIptables4Command ("-I FORWARD 1 -p tcp -d " ++ jsInterpolate item.destinationIpAddress ++ " --dport " ++ toString item.destinationPortNumber ++ " -j ACCEPT"),
   asIptables4Command ("-I FORWARD 1 -p udp -d " ++ jsInterpolate item.destinationIpAddress ++ " --dport " ++ toString item.destinationPortNumber ++ " -j ACCEPT"),
   asIptables4Command ("-A IN_dns_" ++ chainName ++ " -p tcp -d " ++ item.sourceIpAddress ++ " --dport " ++ toString item.sourcePortNumber ++ " -j ACCEPT"),
   asIptables4Command ("-A IN_dns_" ++ chainName ++ " -p udp -d " ++ item.sourceIpAddress ++ " --dport " ++ toString item.sourcePortNumber ++ " -j ACCEPT")]

/-- The four uninstall commands `_generateRules` pushes per item (NAT and
FORWARD deletions; the chain-content rules are removed by the flush). -/
def itemUnInstallCommands (item : DnsItem) : Transcript :=
  [asIptables4Command ("-D PREROUTING -t nat -i " ++ item.sourceLinkName ++ " -p tcp -d " ++ item.sourceIpAddress ++ " --dport " ++ toString item.sourcePortNumber ++ " -j DNAT --to " ++ jsInterpolate item.destinationIpAddress ++ ":" ++ toString item.destinationPortNumber),
   asIptables4Command ("-D PREROUTING -t nat -i " ++ item.sourceLinkName ++ " -p udp -d " ++ item.sourceIpAddress ++ " --dport " ++ toString item.sourcePortNumber ++ " -j DNAT --to " ++ jsInterpolate item.destinationIpAddress ++ ":" ++ toString item.destinationPortNumber),
   asIptables4Command ("-D FORWARD -p tcp -d " ++ jsInterpolate item.destinationIpAddress ++ " --dport " ++ toString item.destinationPortNumber ++ " -j ACCEPT"),
   asIptables4Command ("-D FORWARD -p udp -d " ++ jsInterpolate item.destinationIpAddress ++ " --dport " ++ toString item.destinationPortNumber ++ " -j ACCEPT")]

/-- Install commands of `DockerDnsServiceJob.prototype._generateRules`.
This job reads the chain name from the validated job configuration
(`context.jobConfiguration.chainName`). -/
def generateRulesInstall (cfg : JobConfiguration) : Transcript :=
  let chainName := jsStringOr cfg.chainName getServiceChainName
  [asIptables4Command ("-N IN_dns_" ++ chainName),
   asIptables4Command ("-N OUT_dns_" ++ chainName)]
  ++ cfg.network.items.flatMap (itemInstallCommands chainName)
  ++ [asIptables4Command ("-A IN_dns_" ++ chainName ++ " -j RETURN"),
      asIptables4Command ("-A OUT_dns_" ++ chainName ++ " -j RETURN"),
      asIptables4Command ("-I IN_services_access_0 1 -j IN_dns_" ++ chainName),
      asIptables4Command ("-I OUT_services_access_0 1 -j OUT_dns_" ++ chainName)]

/-- Uninstall commands of `DockerDnsServiceJob.prototype._generateRules`:
activation-link deletions and chain flush/destroy first, then the per-item
NAT and FORWARD deletions. -/
def generateRulesUnInstall (cfg : JobConfiguration) : Transcript :=
  let chainName := jsStringOr cfg.chainName getServiceChainName
  [asIptables4Command ("-D IN_services_access_0 -j IN_dns_" ++ chainName),
   asIptables4Command ("-D OUT_services_access_0 -j OUT_dns_" ++ chainName),
   asIptables4Command ("-F IN_dns_" ++ chainName),
   asIptables4Command ("-X IN_dns_" ++ chainName),
   asIptables4Command ("-F OUT_dns_" ++ chainName),
   asIptables4Command ("-X OUT_dns_" ++ chainName)]
  ++ cfg.network.items.flatMap itemUnInstallCommands

/-- Embedding of `DockerDnsServiceJob.prototype.execute` (same workflow shape
as the generic service job). -/
def execute (jobCommandType : String) (raw : RawJobConfiguration) : ExecutionOutcome :=
  if (["install", "uninstall"].contains (strToLower jobCommandType)) = false then
    (.error (.invalidDirection jobCommandType), ⟨[], []⟩)
  else
    match validateConfiguration raw with
    | .error msg => (.error (.validation ("Invalid configuration: " ++ msg)), ⟨[], []⟩)
    | .ok cfg =>
      let st := runSteps [(generateRulesInstall cfg, generateRulesUnInstall cfg)]
      (.ok ⟨selectTranscript jobCommandType st⟩, st)

end DockerDnsServiceJob

namespace SynchronizeBlacklistIps

/-- The validated `database` subtree (`connectionString` required). -/
structure DatabaseConfiguration where
  connectionString : String
deriving DecidableEq, Repr

/-- The validated job configuration for sync-blacklist-ips. -/
structure JobConfiguration where
  database : DatabaseConfiguration
deriving DecidableEq, Repr

/-- Raw counterpart of `DatabaseConfiguration`. -/
structure RawDatabaseConfiguration where
  connectionString : Option String
deriving DecidableEq, Repr

/-- Raw counterpart of `JobConfiguration`. -/
structure RawJobConfiguration where
  database : Option RawDatabaseConfiguration
deriving DecidableEq, Repr

/-- Embedding of `execute.Steps.validateConfiguration` of
sync-blacklist-ips.js: `database` and `database.connectionString` are
required. -/
def validateConfiguration (raw : RawJobConfiguration) : Except String JobConfiguration :=
  match raw.database with
  | none => .error "child \"database\" fails because [\"database\" is required]"
  | some db =>
    match db.connectionString with
    | none => .error "child \"connectionString\" fails because [\"connectionString\" is required]"
    | some cs => .ok ⟨⟨cs⟩⟩

/-- Embedding of `execute.Steps.fetchNetworks`: the query result rows are the
`dataSourceRows` input (one `value` per row, in result order); the step
replaces `commands.install` with one ipset add per row and `commands.unInstall`
with the single flush command. -/
def fetchNetworksState (dataSourceRows : List String) : CommandsState :=
  ⟨dataSourceRows.map (fun v => { type := "ipset", value := "-! add block_net " ++ v }),
   [{ type := "ipset", value := "flush block_net" }]⟩

/-- Embedding of `SynchronizeBlacklistIps.prototype.execute`: both direction
branches push the same `fetchNetworks` step; the returned transcript is again
selected by exact comparison with `'install'`. -/
def execute (jobCommandType : String) (raw : RawJobConfiguration)
    (dataSourceRows : List String) : ExecutionOutcome :=
  if strToLower jobCommandType = "install" ∨ strToLower jobCommandType = "uninstall" then
    match validateConfiguration raw with
    | .error msg => (.error (.validation ("Invalid configuration: " ++ msg)), ⟨[], []⟩)
    | .ok _ =>
      let st := fetchNetworksState dataSourceRows
      (.ok ⟨selectTranscript jobCommandType st⟩, st)
  else
    (.error (.invalidDirection jobCommandType), ⟨[], []⟩)

end SynchronizeBlacklistIps

/-!
Classification of emitted commands, used to state the install/uninstall
symmetry claim.  A command is classified purely from its observable
`type`/`value` text: chain creation `-N`, chain destruction `-X`, chain flush
`-F`, activation-link deletion `-D`, activation-link insertion (`-I` at a
fixed priority into a parent chain, or the `-A INPUT` per-interface default
appends), and the ipset counterparts.  For link commands the classification
records the rule specification with the operation flag and the insert
position stripped, so that an insertion and the deletion that undoes it
carry the same specification.
-/

/-- Character-list prefix test (our own definition keeps the proofs over
appended symbolic suffixes elementary). -/
def chPfx : List Char → List Char → Bool
  | [], _ => true
  | _ :: _, [] => false
  | a :: as, b :: bs => a == b && chPfx as bs

theorem chPfx_append_false (p c r : List Char) (h : chPfx (p.take c.length) c = false) :
    chPfx p (c ++ r) = false := by
  induction p generalizing c r with
  | nil => simp [List.take] at h; cases c <;> simp [chPfx] at h
  | cons a as ih =>
    cases c with
    | nil => simp [chPfx] at h
    | cons b bs =>
      simp only [List.length_cons, List.take_succ_cons, chPfx, List.cons_append] at h ⊢
      rcases Bool.and_eq_false_iff.mp h with h1 | h2
      · simp [h1]
      · simp [ih bs r h2]

theorem chPfx_append_true (p c r : List Char) (h : chPfx p c = true)
    (hlen : p.length ≤ c.length) : chPfx p (c ++ r) = true := by
  induction p generalizing c r with
  | nil => simp [chPfx]
  | cons a as ih =>
    cases c with
    | nil => simp at hlen
    | cons b bs =>
      simp only [chPfx, List.cons_append, Bool.and_eq_true] at h ⊢
      exact ⟨h.1, ih bs r h.2 (by simpa using hlen)⟩

theorem drop_append_of_le (n : Nat) (c r : List Char) (h : n ≤ c.length) :
    (c ++ r).drop n = c.drop n ++ r := by
  rw [List.drop_append_eq_append_drop]
  simp [Nat.sub_eq_zero_of_le h]

/-- The kind of primitive operation a command's text denotes. -/
inductive OpClass where
  | createChain (id : List Char)
  | destroyChain (id : List Char)
  | flushChain (id : List Char)
  | createSet (id : List Char)
  | destroySet (id : List Char)
  | flushSet (id : List Char)
  | linkDelete (ruleSpec : List Char)
  | linkInsert (ruleSpec : List Char)
  | other
deriving DecidableEq, Repr

/-- The finitely many activation-insertion heads occurring in this codebase,
paired with the parent-chain replacement that strips the insert position.
An `-I <parent> <pos> <spec>` insertion normalises to `<parent> <spec>`,
which is exactly what `-D <parent> <spec>` normalises to. -/
def activationPatterns : List (String × String) :=
  [("-I INPUT 1 ", "INPUT "), ("-I INPUT 2 ", "INPUT "),
   ("-I INPUT 3 ", "INPUT "), ("-I INPUT 4 ", "INPUT "),
   ("-I OUTPUT 1 ", "OUTPUT "), ("-I OUTPUT 2 ", "OUTPUT "), ("-I OUTPUT 3 ", "OUTPUT "),
   ("-I PREROUTING 1 ", "PREROUTING "), ("-I FORWARD 1 ", "FORWARD "),
   ("-I IN_services_access_0 1 ", "IN_services_access_0 "),
   ("-I OUT_services_access_0 1 ", "OUT_services_access_0 "),
   ("-A INPUT ", "INPUT ")]

/-- Looks up the first activation head matching the value and returns the
normalised rule specification. -/
def lookupActivation : List (String × String) → List Char → Option (List Char)
  | [], _ => none
  | (p, rep) :: rest, v =>
    if chPfx p.data v then some (rep.data ++ v.drop p.data.length)
    else lookupActivation rest v

/-- Classifies one emitted command from its text. -/
def classifyCommand (c : SecurityCommand) : OpClass :=
  if c.type = "iptables-4" then
    if chPfx "-N ".data c.value.data then .createChain (c.value.data.drop 3)
    else if chPfx "-X ".data c.value.data then .destroyChain (c.value.data.drop 3)
    else if chPfx "-F ".data c.value.data then .flushChain (c.value.data.drop 3)
    else if chPfx "-D ".data c.value.data then .linkDelete (c.value.data.drop 3)
    else
      match lookupActivation activationPatterns c.value.data with
      | some spec => .linkInsert spec
      | none => .other
  else if c.type = "ipset" then
    if chPfx "-! create ".data c.value.data then
      .createSet ((c.value.data.drop 10).takeWhile (fun ch => ch != ' '))
    else if chPfx "-! destroy ".data c.value.data then .destroySet (c.value.data.drop 11)
    else if chPfx "flush ".data c.value.data then .flushSet (c.value.data.drop 6)
    else .other
  else .other

/-- Identifier of a chain or set creation. -/
def createdIdSel : OpClass → Option (List Char)
  | .createChain i => some i
  | .createSet i => some i
  | _ => none

/-- Identifier of a chain or set destruction. -/
def destroyedIdSel : OpClass → Option (List Char)
  | .destroyChain i => some i
  | .destroySet i => some i
  | _ => none

/-- Identifier of a chain creation only. -/
def createdChainIdSel : OpClass → Option (List Char)
  | .createChain i => some i
  | _ => none

/-- Identifier of a chain flush only. -/
def flushedChainIdSel : OpClass → Option (List Char)
  | .flushChain i => some i
  | _ => none

/-- Normalised specification of an activation-link insertion. -/
def insertedLinkSel : OpClass → Option (List Char)
  | .linkInsert s => some s
  | _ => none

/-- Normalised specification of an activation-link deletion. -/
def deletedLinkSel : OpClass → Option (List Char)
  | .linkDelete s => some s
  | _ => none

/-- Identifier carried by any constructive operation (creation or link
insertion), the projection used to state the claim's literal symmetry. -/
def constructiveIdSel : OpClass → Option (List Char)
  | .createChain i => some i
  | .createSet i => some i
  | .linkInsert s => some s
  | _ => none

/-- Identifier carried by any destructive operation (destruction, flush or
link deletion). -/
def destructiveIdSel : OpClass → Option (List Char)
  | .destroyChain i => some i
  | .destroySet i => some i
  | .flushChain i => some i
  | .flushSet i => some i
  | .linkDelete s => some s
  | _ => none

/-- Projects a transcript to the identifiers selected by `sel`, in transcript
order. -/
def projectOps (sel : OpClass → Option (List Char)) (t : Transcript) : List (List Char) :=
  t.filterMap (fun c => sel (classifyCommand c))

theorem projectOps_append (sel : OpClass → Option (List Char)) (t₁ t₂ : Transcript) :
    projectOps sel (t₁ ++ t₂) = projectOps sel t₁ ++ projectOps sel t₂ := by
  simp [projectOps]

theorem projectOps_flatMap {α : Type} (sel : OpClass → Option (List Char))
    (g : α → Transcript) (l : List α) :
    projectOps sel (l.flatMap g) = l.flatMap (fun a => projectOps sel (g a)) := by
  induction l with
  | nil => rfl
  | cons a as ih => simp [projectOps, List.flatMap_cons, List.filterMap_append] at ih ⊢; exact ih

theorem flatMap_const_nil {α β : Type} (l : List α) :
    (l.flatMap fun _ => ([] : List β)) = [] := by
  induction l with
  | nil => rfl
  | cons a as ih => simp [List.flatMap_cons, ih]

theorem chPfx_exists_append (p v : List Char) (h : chPfx p v = true) :
    ∃ t, v = p ++ t := by
  induction p generalizing v with
  | nil => exact ⟨v, rfl⟩
  | cons a as ih =>
    cases v with
    | nil => simp [chPfx] at h
    | cons b bs =>
      simp only [chPfx, Bool.and_eq_true, beq_iff_eq] at h
      obtain ⟨t, ht⟩ := ih bs h.2
      exact ⟨t, by simp [h.1, ht]⟩

/-! Classification of the command shapes this codebase emits.  Each lemma
covers one family of values sharing a constant head that decides every test
of `classifyCommand`. -/

theorem classify_dashN (c : SecurityCommand) (t : List Char)
    (hty : c.type = "iptables-4") (hv : c.value.data = "-N ".data ++ t) :
    classifyCommand c = .createChain t := by
  unfold classifyCommand
  rw [hty, hv]
  rw [chPfx_append_true _ _ _ (by decide) (by decide)]
  rw [drop_append_of_le _ _ _ (by decide)]
  simp

theorem classify_dashX (c : SecurityCommand) (t : List Char)
    (hty : c.type = "iptables-4") (hv : c.value.data = "-X ".data ++ t) :
    classifyCommand c = .destroyChain t := by
  unfold classifyCommand
  rw [hty, hv]
  rw [chPfx_append_false _ _ _ (by decide)]
  rw [chPfx_append_true _ _ _ (by decide) (by decide)]
  rw [drop_append_of_le _ _ _ (by decide)]
  simp

theorem classify_dashF (c : SecurityCommand) (t : List Char)
    (hty : c.type = "iptables-4") (hv : c.value.data = "-F ".data ++ t) :
    classifyCommand c = .flushChain t := by
  unfold classifyCommand
  rw [hty, hv]
  rw [chPfx_append_false _ _ _ (by decide)]
  rw [chPfx_append_false _ _ _ (by decide)]
  rw [chPfx_append_true _ _ _ (by decide) (by decide)]
  rw [drop_append_of_le _ _ _ (by decide)]
  simp

theorem classify_dashD (c : SecurityCommand) (t : List Char)
    (hty : c.type = "iptables-4") (hv : c.value.data = "-D ".data ++ t) :
    classifyCommand c = .linkDelete t := by
  unfold classifyCommand
  rw [hty, hv]
  rw [chPfx_append_false _ _ _ (by decide)]
  rw [chPfx_append_false _ _ _ (by decide)]
  rw [chPfx_append_false _ _ _ (by decide)]
  rw [chPfx_append_true _ _ _ (by decide) (by decide)]
  rw [drop_append_of_le _ _ _ (by decide)]
  simp

theorem classify_A_INPUT (c : SecurityCommand) (t : List Char)
    (hty : c.type = "iptables-4") (hv : c.value.data = "-A INPUT ".data ++ t) :
    classifyCommand c = .linkInsert ("INPUT ".data ++ t) := by
  unfold classifyCommand
  rw [hty, hv]
  rw [chPfx_append_false _ _ _ (by decide)]
  rw [chPfx_append_false _ _ _ (by decide)]
  rw [chPfx_append_false _ _ _ (by decide)]
  rw [chPfx_append_false _ _ _ (by decide)]
  simp only [lookupActivation, activationPatterns]
  rw [chPfx_append_false _ _ _ (by decide)]
  rw [chPfx_append_false _ _ _ (by decide)]
  rw [chPfx_append_false _ _ _ (by decide)]
  rw [chPfx_append_false _ _ _ (by decide)]
  rw [chPfx_append_false _ _ _ (by decide)]
  rw [chPfx_append_false _ _ _ (by decide)]
  rw [chPfx_append_false _ _ _ (by decide)]
  rw [chPfx_append_false _ _ _ (by decide)]
  rw [chPfx_append_false _ _ _ (by decide)]
  rw [chPfx_append_false _ _ _ (by decide)]
  rw [chPfx_append_false _ _ _ (by decide)]
  rw [chPfx_append_true _ _ _ (by decide) (by decide)]
  rw [drop_append_of_le _ _ _ (by decide)]
  simp

theorem classify_I_INservices (c : SecurityCommand) (t : List Char)
    (hty : c.type = "iptables-4")
    (hv : c.value.data = "-I IN_services_access_0 1 ".data ++ t) :
    classifyCommand c = .linkInsert ("IN_services_access_0 ".data ++ t) := by
  unfold classifyCommand
  rw [hty, hv]
  rw [chPfx_append_false _ _ _ (by decide)]
  rw [chPfx_append_false _ _ _ (by decide)]
  rw [chPfx_append_false _ _ _ (by decide)]
  rw [chPfx_append_false _ _ _ (by decide)]
  simp only [lookupActivation, activationPatterns]
  rw [chPfx_append_false _ _ _ (by decide)]
  rw [chPfx_append_false _ _ _ (by decide)]
  rw [chPfx_append_false _ _ _ (by decide)]
  rw [chPfx_append_false _ _ _ (by decide)]
  rw [chPfx_append_false _ _ _ (by decide)]
  rw [chPfx_append_false _ _ _ (by decide)]
  rw [chPfx_append_false _ _ _ (by decide)]
  rw [chPfx_append_false _ _ _ (by decide)]
  rw [chPfx_append_false _ _ _ (by decide)]
  rw [chPfx_append_true _ _ _ (by decide) (by decide)]
  rw [drop_append_of_le _ _ _ (by decide)]
  simp

theorem classify_I_OUTservices (c : SecurityCommand) (t : List Char)
    (hty : c.type = "iptables-4")
    (hv : c.value.data = "-I OUT_services_access_0 1 ".data ++ t) :
    classifyCommand c = .linkInsert ("OUT_services_access_0 ".data ++ t) := by
  unfold classifyCommand
  rw [hty, hv]
  rw [chPfx_append_false _ _ _ (by decide)]
  rw [chPfx_append_false _ _ _ (by decide)]
  rw [chPfx_append_false _ _ _ (by decide)]
  rw [chPfx_append_false _ _ _ (by decide)]
  simp only [lookupActivation, activationPatterns]
  rw [chPfx_append_false _ _ _ (by decide)]
  rw [chPfx_append_false _ _ _ (by decide)]
  rw [chPfx_append_false _ _ _ (by decide)]
  rw [chPfx_append_false _ _ _ (by decide)]
  rw [chPfx_append_false _ _ _ (by decide)]
  rw [chPfx_append_false _ _ _ (by decide)]
  rw [chPfx_append_false _ _ _ (by decide)]
  rw [chPfx_append_false _ _ _ (by decide)]
  rw [chPfx_append_false _ _ _ (by decide)]
  rw [chPfx_append_false _ _ _ (by decide)]
  rw [chPfx_append_true _ _ _ (by decide) (by decide)]
  rw [drop_append_of_le _ _ _ (by decide)]
  simp

theorem classify_I_PREROUTING (c : SecurityCommand) (t : List Char)
    (hty : c.type = "iptables-4")
    (hv : c.value.data = "-I PREROUTING 1 ".data ++ t) :
    classifyCommand c = .linkInsert ("PREROUTING ".data ++ t) := by
  unfold classifyCommand
  rw [hty, hv]
  rw [chPfx_append_false _ _ _ (by decide)]
  rw [chPfx_append_false _ _ _ (by decide)]
  rw [chPfx_append_false _ _ _ (by decide)]
  rw [chPfx_append_false _ _ _ (by decide)]
  simp only [lookupActivation, activationPatterns]
  rw [chPfx_append_false _ _ _ (by decide)]
  rw [chPfx_append_false _ _ _ (by decide)]
  rw [chPfx_append_false _ _ _ (by decide)]
  rw [chPfx_append_false _ _ _ (by decide)]
  rw [chPfx_append_false _ _ _ (by decide)]
  rw [chPfx_append_false _ _ _ (by decide)]
  rw [chPfx_append_false _ _ _ (by decide)]
  rw [chPfx_append_true _ _ _ (by decide) (by decide)]
  rw [drop_append_of_le _ _ _ (by decide)]
  simp

theorem classify_I_FORWARD (c : SecurityCommand) (t : List Char)
    (hty : c.type = "iptables-4")
    (hv : c.value.data = "-I FORWARD 1 ".data ++ t) :
    classifyCommand c = .linkInsert ("FORWARD ".data ++ t) := by
  unfold classifyCommand
  rw [hty, hv]
  rw [chPfx_append_false _ _ _ (by decide)]
  rw [chPfx_append_false _ _ _ (by decide)]
  rw [chPfx_append_false _ _ _ (by decide)]
  rw [chPfx_append_false _ _ _ (by decide)]
  simp only [lookupActivation, activationPatterns]
  rw [chPfx_append_false _ _ _ (by decide)]
  rw [chPfx_append_false _ _ _ (by decide)]
  rw [chPfx_append_false _ _ _ (by decide)]
  rw [chPfx_append_false _ _ _ (by decide)]
  rw [chPfx_append_false _ _ _ (by decide)]
  rw [chPfx_append_false _ _ _ (by decide)]
  rw [chPfx_append_false _ _ _ (by decide)]
  rw [chPfx_append_false _ _ _ (by decide)]
  rw [chPfx_append_true _ _ _ (by decide) (by decide)]
  rw [drop_append_of_le _ _ _ (by decide)]
  simp

theorem classify_A_IN (c : SecurityCommand)
    (hty : c.type = "iptables-4")
    (hv : chPfx "-A IN_".data c.value.data = true) :
    classifyCommand c = .other := by
  obtain ⟨t, ht⟩ := chPfx_exists_append _ _ hv
  unfold classifyCommand
  rw [hty, ht]
  rw [chPfx_append_false _ _ _ (by decide)]
  rw [chPfx_append_false _ _ _ (by decide)]
  rw [chPfx_append_false _ _ _ (by decide)]
  rw [chPfx_append_false _ _ _ (by decide)]
  simp only [lookupActivation, activationPatterns]
  rw [chPfx_append_false _ _ _ (by decide)]
  rw [chPfx_append_false _ _ _ (by decide)]
  rw [chPfx_append_false _ _ _ (by decide)]
  rw [chPfx_append_false _ _ _ (by decide)]
  rw [chPfx_append_false _ _ _ (by decide)]
  rw [chPfx_append_false _ _ _ (by decide)]
  rw [chPfx_append_false _ _ _ (by decide)]
  rw [chPfx_append_false _ _ _ (by decide)]
  rw [chPfx_append_false _ _ _ (by decide)]
  rw [chPfx_append_false _ _ _ (by decide)]
  rw [chPfx_append_false _ _ _ (by decide)]
  rw [chPfx_append_false _ _ _ (by decide)]
  simp

theorem classify_A_OUT (c : SecurityCommand)
    (hty : c.type = "iptables-4")
    (hv : chPfx "-A OUT_".data c.value.data = true) :
    classifyCommand c = .other := by
  obtain ⟨t, ht⟩ := chPfx_exists_append _ _ hv
  unfold classifyCommand
  rw [hty, ht]
  rw [chPfx_append_false _ _ _ (by decide)]
  rw [chPfx_append_false _ _ _ (by decide)]
  rw [chPfx_append_false _ _ _ (by decide)]
  rw [chPfx_append_false _ _ _ (by decide)]
  simp only [lookupActivation, activationPatterns]
  rw [chPfx_append_false _ _ _ (by decide)]
  rw [chPfx_append_false _ _ _ (by decide)]
  rw [chPfx_append_false _ _ _ (by decide)]
  rw [chPfx_append_false _ _ _ (by decide)]
  rw [chPfx_append_false _ _ _ (by decide)]
  rw [chPfx_append_false _ _ _ (by decide)]
  rw [chPfx_append_false _ _ _ (by decide)]
  rw [chPfx_append_false _ _ _ (by decide)]
  rw [chPfx_append_false _ _ _ (by decide)]
  rw [chPfx_append_false _ _ _ (by decide)]
  rw [chPfx_append_false _ _ _ (by decide)]
  rw [chPfx_append_false _ _ _ (by decide)]
  simp

theorem classify_setAdd (c : SecurityCommand)
    (hty : c.type = "ipset")
    (hv : chPfx "-! add ".data c.value.data = true) :
    classifyCommand c = .other := by
  obtain ⟨t, ht⟩ := chPfx_exists_append _ _ hv
  unfold classifyCommand
  rw [hty, ht]
  rw [if_neg (by decide)]
  rw [if_pos rfl]
  rw [chPfx_append_false _ _ _ (by decide)]
  rw [chPfx_append_false _ _ _ (by decide)]
  rw [chPfx_append_false _ _ _ (by decide)]
  simp


/-!
Normalised link specifications for the symbolic (policy-dependent) activation
commands, shared by the insertion and deletion classification results.
-/

/-- Rule specification of a per-interface default-action append/delete on
INPUT. -/
def interfaceDefaultSpec (pi : PrepareNetfilterJob.PrimaryInterface) : List Char :=
  ("INPUT --in-interface " ++ pi.name ++ " -j " ++ pi.rules.input.defaultAction).data

/-- Rule specification of the IN-side services-chain activation of a service
chain. -/
def servicesActivationSpecIn (cn : String) : List Char :=
  ("IN_services_access_0 -j IN_" ++ cn).data

/-- Rule specification of the OUT-side services-chain activation of a service
chain. -/
def servicesActivationSpecOut (cn : String) : List Char :=
  ("OUT_services_access_0 -j OUT_" ++ cn).data

/-- Rule specification of the IN-side services-chain activation of a DNS
chain. -/
def dnsActivationSpecIn (cn : String) : List Char :=
  ("IN_services_access_0 -j IN_dns_" ++ cn).data

/-- Rule specification of the OUT-side services-chain activation of a DNS
chain. -/
def dnsActivationSpecOut (cn : String) : List Char :=
  ("OUT_services_access_0 -j OUT_dns_" ++ cn).data

/-- Rule specification of a DNS NAT redirect (by protocol). -/
def dnsNatSpec (proto : String) (item : DockerDnsServiceJob.DnsItem) : List Char :=
  ("PREROUTING -t nat -i " ++ item.sourceLinkName ++ " -p " ++ proto ++ " -d "
    ++ item.sourceIpAddress ++ " --dport " ++ toString item.sourcePortNumber
    ++ " -j DNAT --to " ++ DockerDnsServiceJob.jsInterpolate item.destinationIpAddress
    ++ ":" ++ toString item.destinationPortNumber).data

/-- Rule specification of a DNS FORWARD accept (by protocol). -/
def dnsForwardSpec (proto : String) (item : DockerDnsServiceJob.DnsItem) : List Char :=
  ("FORWARD -p " ++ proto ++ " -d " ++ DockerDnsServiceJob.jsInterpolate item.destinationIpAddress
    ++ " --dport " ++ toString item.destinationPortNumber ++ " -j ACCEPT").data

/-!
Classification corollaries, one per symbolic command template the generators
emit.  Fully constant commands are classified by `decide` at use sites.
-/

theorem classOf_vitalDhcpIn (n : String) :
    classifyCommand (asIptables4Command ("-A IN_vital_access_0 --in-interface " ++ n ++ " -p udp --dport 67:68 --sport 67:68 -j ACCEPT")) = .other :=
  classify_A_IN _ rfl (by simp [asIptables4Command, chPfx])

theorem classOf_vitalDhcpOut (n : String) :
    classifyCommand (asIptables4Command ("-A OUT_vital_access_0 --out-interface " ++ n ++ " -p udp --dport 67:68 --sport 67:68 -j ACCEPT")) = .other :=
  classify_A_OUT _ rfl (by simp [asIptables4Command, chPfx])

theorem classOf_vitalDnsUdpOut (n : String) :
    classifyCommand (asIptables4Command ("-A OUT_vital_access_0 --out-interface " ++ n ++ " -p udp --sport 1024:65535 --dport 53 -m state --state NEW,ESTABLISHED,RELATED -j ACCEPT")) = .other :=
  classify_A_OUT _ rfl (by simp [asIptables4Command, chPfx])

theorem classOf_vitalDnsUdpIn (n : String) :
    classifyCommand (asIptables4Command ("-A IN_vital_access_0 --in-interface " ++ n ++ " -p udp --sport 53 --dport 1024:65535 -m state --state ESTABLISHED,RELATED -j ACCEPT")) = .other :=
  classify_A_IN _ rfl (by simp [asIptables4Command, chPfx])

theorem classOf_vitalDnsTcpOut (n : String) :
    classifyCommand (asIptables4Command ("-A OUT_vital_access_0 --out-interface " ++ n ++ " -p tcp --sport 1024:65535 --dport 53 -m state --state NEW,ESTABLISHED,RELATED -j ACCEPT")) = .other :=
  classify_A_OUT _ rfl (by simp [asIptables4Command, chPfx])

theorem classOf_vitalDnsTcpIn (n : String) :
    classifyCommand (asIptables4Command ("-A IN_vital_access_0 --in-interface " ++ n ++ " -p tcp --sport 53 --dport 1024:65535 -m state --state ESTABLISHED,RELATED -j ACCEPT")) = .other :=
  classify_A_IN _ rfl (by simp [asIptables4Command, chPfx])

theorem classOf_vitalIcmp1 (n : String) :
    classifyCommand (asIptables4Command ("-A OUT_vital_access_0 -p icmp --in-interface " ++ n ++ " -d 0.0.0.0/0 -m state --state NEW,ESTABLISHED,RELATED -j ACCEPT")) = .other :=
  classify_A_OUT _ rfl (by simp [asIptables4Command, chPfx])

theorem classOf_vitalIcmp2 (n : String) :
    classifyCommand (asIptables4Command ("-A IN_vital_access_0 -p icmp --out-interface " ++ n ++ " -s 0.0.0.0/0 -m state --state ESTABLISHED,RELATED -j ACCEPT")) = .other :=
  classify_A_IN _ rfl (by simp [asIptables4Command, chPfx])

theorem classOf_vitalIcmp3 (n : String) :
    classifyCommand (asIptables4Command ("-A IN_vital_access_0 -p icmp --icmp-type 8 --in-interface " ++ n ++ " -s 0.0.0.0/0 -m state --state NEW,ESTABLISHED,RELATED -j ACCEPT")) = .other :=
  classify_A_IN _ rfl (by simp [asIptables4Command, chPfx])

theorem classOf_vitalIcmp4 (n : String) :
    classifyCommand (asIptables4Command ("-A OUT_vital_access_0 -p icmp --out-interface " ++ n ++ " -d 0.0.0.0/0 -m state --state ESTABLISHED,RELATED -j ACCEPT")) = .other :=
  classify_A_OUT _ rfl (by simp [asIptables4Command, chPfx])

theorem classOf_vitalNtpOut (n : String) :
    classifyCommand (asIptables4Command ("-A OUT_vital_access_0 --out-interface " ++ n ++ " -p udp --sport 1024:65535 --dport 123 -j ACCEPT")) = .other :=
  classify_A_OUT _ rfl (by simp [asIptables4Command, chPfx])

theorem classOf_vitalNtpIn (n : String) :
    classifyCommand (asIptables4Command ("-A IN_vital_access_0 --in-interface " ++ n ++ " -p udp --sport 123 --dport 1024:65535 -m state --state ESTABLISHED,RELATED -j ACCEPT")) = .other :=
  classify_A_IN _ rfl (by simp [asIptables4Command, chPfx])

theorem classOf_vitalRoot (n : String) :
    classifyCommand (asIptables4Command ("-A OUT_vital_access_0 --out-interface " ++ n ++ " -m owner --uid-owner 0 -j ACCEPT")) = .other :=
  classify_A_OUT _ rfl (by simp [asIptables4Command, chPfx])

theorem classOf_vitalEstablished (n : String) :
    classifyCommand (asIptables4Command ("-A IN_vital_access_0 --in-interface " ++ n ++ " -m state --state ESTABLISHED,RELATED -j ACCEPT")) = .other :=
  classify_A_IN _ rfl (by simp [asIptables4Command, chPfx])

theorem classOf_vitalLo1 (v : String) :
    classifyCommand (asIptables4Command ("-A IN_vital_access_0 --in-interface lo -s " ++ v ++ " -d " ++ v ++ " -j ACCEPT")) = .other :=
  classify_A_IN _ rfl (by simp [asIptables4Command, chPfx])

theorem classOf_vitalLo2 (v : String) :
    classifyCommand (asIptables4Command ("-A IN_vital_access_0 --in-interface lo -s " ++ v ++ " -d 127.0.0.0/8 -j ACCEPT")) = .other :=
  classify_A_IN _ rfl (by simp [asIptables4Command, chPfx])

theorem classOf_vitalLo3 (v : String) :
    classifyCommand (asIptables4Command ("-A OUT_vital_access_0 --out-interface lo -s " ++ v ++ " -d " ++ v ++ " -j ACCEPT")) = .other :=
  classify_A_OUT _ rfl (by simp [asIptables4Command, chPfx])

theorem classOf_vitalLo4 (v : String) :
    classifyCommand (asIptables4Command ("-A OUT_vital_access_0 --out-interface lo -s " ++ v ++ " -d 127.0.0.0/8 -j ACCEPT")) = .other :=
  classify_A_OUT _ rfl (by simp [asIptables4Command, chPfx])

theorem classOf_trustedAdd (v : String) :
    classifyCommand (asIpSetCommand ("-! add trusted_net " ++ v)) = .other :=
  classify_setAdd _ rfl (by simp [asIpSetCommand, chPfx])

theorem classOf_interfaceDefaultIns (n a : String) :
    classifyCommand (asIptables4Command ("-A INPUT --in-interface " ++ n ++ " -j " ++ a))
      = .linkInsert ("INPUT --in-interface " ++ n ++ " -j " ++ a).data := by
  rw [classify_A_INPUT _ ("--in-interface " ++ n ++ " -j " ++ a).data rfl
    (by simp [asIptables4Command])]
  simp

theorem classOf_interfaceDefaultDel (n a : String) :
    classifyCommand (asIptables4Command ("-D INPUT --in-interface " ++ n ++ " -j " ++ a))
      = .linkDelete ("INPUT --in-interface " ++ n ++ " -j " ++ a).data := by
  rw [classify_dashD _ ("INPUT --in-interface " ++ n ++ " -j " ++ a).data rfl
    (by simp [asIptables4Command])]

theorem classOf_createIn (c : String) :
    classifyCommand (asIptables4Command ("-N IN_" ++ c)) = .createChain ("IN_" ++ c).data := by
  rw [classify_dashN _ ("IN_" ++ c).data rfl (by simp [asIptables4Command])]

theorem classOf_createOut (c : String) :
    classifyCommand (asIptables4Command ("-N OUT_" ++ c)) = .createChain ("OUT_" ++ c).data := by
  rw [classify_dashN _ ("OUT_" ++ c).data rfl (by simp [asIptables4Command])]

theorem classOf_flushIn (c : String) :
    classifyCommand (asIptables4Command ("-F IN_" ++ c)) = .flushChain ("IN_" ++ c).data := by
  rw [classify_dashF _ ("IN_" ++ c).data rfl (by simp [asIptables4Command])]

theorem classOf_flushOut (c : String) :
    classifyCommand (asIptables4Command ("-F OUT_" ++ c)) = .flushChain ("OUT_" ++ c).data := by
  rw [classify_dashF _ ("OUT_" ++ c).data rfl (by simp [asIptables4Command])]

theorem classOf_destroyIn (c : String) :
    classifyCommand (asIptables4Command ("-X IN_" ++ c)) = .destroyChain ("IN_" ++ c).data := by
  rw [classify_dashX _ ("IN_" ++ c).data rfl (by simp [asIptables4Command])]

theorem classOf_destroyOut (c : String) :
    classifyCommand (asIptables4Command ("-X OUT_" ++ c)) = .destroyChain ("OUT_" ++ c).data := by
  rw [classify_dashX _ ("OUT_" ++ c).data rfl (by simp [asIptables4Command])]

theorem classOf_servicesDelIn (c : String) :
    classifyCommand (asIptables4Command ("-D IN_services_access_0 -j IN_" ++ c))
      = .linkDelete (servicesActivationSpecIn c) := by
  rw [classify_dashD _ ("IN_services_access_0 -j IN_" ++ c).data rfl
    (by simp [asIptables4Command])]
  simp [servicesActivationSpecIn]

theorem classOf_servicesDelOut (c : String) :
    classifyCommand (asIptables4Command ("-D OUT_services_access_0 -j OUT_" ++ c))
      = .linkDelete (servicesActivationSpecOut c) := by
  rw [classify_dashD _ ("OUT_services_access_0 -j OUT_" ++ c).data rfl
    (by simp [asIptables4Command])]
  simp [servicesActivationSpecOut]

theorem classOf_servicesActIn (c : String) :
    classifyCommand (asIptables4Command ("-I IN_services_access_0 1 -j IN_" ++ c))
      = .linkInsert (servicesActivationSpecIn c) := by
  rw [classify_I_INservices _ ("-j IN_" ++ c).data rfl (by simp [asIptables4Command])]
  simp [servicesActivationSpecIn]

theorem classOf_servicesActOut (c : String) :
    classifyCommand (asIptables4Command ("-I OUT_services_access_0 1 -j OUT_" ++ c))
      = .linkInsert (servicesActivationSpecOut c) := by
  rw [classify_I_OUTservices _ ("-j OUT_" ++ c).data rfl (by simp [asIptables4Command])]
  simp [servicesActivationSpecOut]

theorem classOf_dnsDelServIn (c : String) :
    classifyCommand (asIptables4Command ("-D IN_services_access_0 -j IN_dns_" ++ c))
      = .linkDelete (dnsActivationSpecIn c) := by
  rw [classify_dashD _ ("IN_services_access_0 -j IN_dns_" ++ c).data rfl
    (by simp [asIptables4Command])]
  simp [dnsActivationSpecIn]

theorem classOf_dnsDelServOut (c : String) :
    classifyCommand (asIptables4Command ("-D OUT_services_access_0 -j OUT_dns_" ++ c))
      = .linkDelete (dnsActivationSpecOut c) := by
  rw [classify_dashD _ ("OUT_services_access_0 -j OUT_dns_" ++ c).data rfl
    (by simp [asIptables4Command])]
  simp [dnsActivationSpecOut]

theorem classOf_dnsActServIn (c : String) :
    classifyCommand (asIptables4Command ("-I IN_services_access_0 1 -j IN_dns_" ++ c))
      = .linkInsert (dnsActivationSpecIn c) := by
  rw [classify_I_INservices _ ("-j IN_dns_" ++ c).data rfl (by simp [asIptables4Command])]
  simp [dnsActivationSpecIn]

theorem classOf_dnsActServOut (c : String) :
    classifyCommand (asIptables4Command ("-I OUT_services_access_0 1 -j OUT_dns_" ++ c))
      = .linkInsert (dnsActivationSpecOut c) := by
  rw [classify_I_OUTservices _ ("-j OUT_dns_" ++ c).data rfl (by simp [asIptables4Command])]
  simp [dnsActivationSpecOut]

theorem classOf_genericAcceptNoSource (c d p : String) :
    classifyCommand (asIptables4Command ("-A IN_" ++ c ++ " " ++ d ++ p ++ " -j ACCEPT")) = .other :=
  classify_A_IN _ rfl (by simp [asIptables4Command, chPfx])

theorem classOf_genericAcceptSource (c s d p : String) :
    classifyCommand (asIptables4Command ("-A IN_" ++ c ++ " -s " ++ s ++ " " ++ d ++ p ++ " -j ACCEPT")) = .other :=
  classify_A_IN _ rfl (by simp [asIptables4Command, chPfx])

theorem classOf_returnIn (c : String) :
    classifyCommand (asIptables4Command ("-A IN_" ++ c ++ " -j RETURN")) = .other :=
  classify_A_IN _ rfl (by simp [asIptables4Command, chPfx])

theorem classOf_returnOut (c : String) :
    classifyCommand (asIptables4Command ("-A OUT_" ++ c ++ " -j RETURN")) = .other :=
  classify_A_OUT _ rfl (by simp [asIptables4Command, chPfx])

theorem classOf_dnsNatInsTcp (item : DockerDnsServiceJob.DnsItem) :
    classifyCommand (asIptables4Command ("-I PREROUTING 1 -t nat -i " ++ item.sourceLinkName ++ " -p tcp -d " ++ item.sourceIpAddress ++ " --dport " ++ toString item.sourcePortNumber ++ " -j DNAT --to " ++ DockerDnsServiceJob.jsInterpolate item.destinationIpAddress ++ ":" ++ toString item.destinationPortNumber))
      = .linkInsert (dnsNatSpec "tcp" item) := by
  rw [classify_I_PREROUTING _ ("-t nat -i " ++ item.sourceLinkName ++ " -p tcp -d " ++ item.sourceIpAddress ++ " --dport " ++ toString item.sourcePortNumber ++ " -j DNAT --to " ++ DockerDnsServiceJob.jsInterpolate item.destinationIpAddress ++ ":" ++ toString item.destinationPortNumber).data rfl
    (by simp [asIptables4Command])]
  simp [dnsNatSpec]

theorem classOf_dnsNatInsUdp (item : DockerDnsServiceJob.DnsItem) :
    classifyCommand (asIptables4Command ("-I PREROUTING 1 -t nat -i " ++ item.sourceLinkName ++ " -p udp -d " ++ item.sourceIpAddress ++ " --dport " ++ toString item.sourcePortNumber ++ " -j DNAT --to " ++ DockerDnsServiceJob.jsInterpolate item.destinationIpAddress ++ ":" ++ toString item.destinationPortNumber))
      = .linkInsert (dnsNatSpec "udp" item) := by
  rw [classify_I_PREROUTING _ ("-t nat -i " ++ item.sourceLinkName ++ " -p udp -d " ++ item.sourceIpAddress ++ " --dport " ++ toString item.sourcePortNumber ++ " -j DNAT --to " ++ DockerDnsServiceJob.jsInterpolate item.destinationIpAddress ++ ":" ++ toString item.destinationPortNumber).data rfl
    (by simp [asIptables4Command])]
  simp [dnsNatSpec]

theorem classOf_dnsNatDelTcp (item : DockerDnsServiceJob.DnsItem) :
    classifyCommand (asIptables4Command ("-D PREROUTING -t nat -i " ++ item.sourceLinkName ++ " -p tcp -d " ++ item.sourceIpAddress ++ " --dport " ++ toString item.sourcePortNumber ++ " -j DNAT --to " ++ DockerDnsServiceJob.jsInterpolate item.destinationIpAddress ++ ":" ++ toString item.destinationPortNumber))
      = .linkDelete (dnsNatSpec "tcp" item) := by
  rw [classify_dashD _ ("PREROUTING -t nat -i " ++ item.sourceLinkName ++ " -p tcp -d " ++ item.sourceIpAddress ++ " --dport " ++ toString item.sourcePortNumber ++ " -j DNAT --to " ++ DockerDnsServiceJob.jsInterpolate item.destinationIpAddress ++ ":" ++ toString item.destinationPortNumber).data rfl
    (by simp [asIptables4Command])]
  simp [dnsNatSpec]

theorem classOf_dnsNatDelUdp (item : DockerDnsServiceJob.DnsItem) :
    classifyCommand (asIptables4Command ("-D PREROUTING -t nat -i " ++ item.sourceLinkName ++ " -p udp -d " ++ item.sourceIpAddress ++ " --dport " ++ toString item.sourcePortNumber ++ " -j DNAT --to " ++ DockerDnsServiceJob.jsInterpolate item.destinationIpAddress ++ ":" ++ toString item.destinationPortNumber))
      = .linkDelete (dnsNatSpec "udp" item) := by
  rw [classify_dashD _ ("PREROUTING -t nat -i " ++ item.sourceLinkName ++ " -p udp -d " ++ item.sourceIpAddress ++ " --dport " ++ toString item.sourcePortNumber ++ " -j DNAT --to " ++ DockerDnsServiceJob.jsInterpolate item.destinationIpAddress ++ ":" ++ toString item.destinationPortNumber).data rfl
    (by simp [asIptables4Command])]
  simp [dnsNatSpec]

theorem classOf_dnsForwardInsTcp (item : DockerDnsServiceJob.DnsItem) :
    classifyCommand (asIptables4Command ("-I FORWARD 1 -p tcp -d " ++ DockerDnsServiceJob.jsInterpolate item.destinationIpAddress ++ " --dport " ++ toString item.destinationPortNumber ++ " -j ACCEPT"))
      = .linkInsert (dnsForwardSpec "tcp" item) := by
  rw [classify_I_FORWARD _ ("-p tcp -d " ++ DockerDnsServiceJob.jsInterpolate item.destinationIpAddress ++ " --dport " ++ toString item.destinationPortNumber ++ " -j ACCEPT").data rfl
    (by simp [asIptables4Command])]
  simp [dnsForwardSpec]

theorem classOf_dnsForwardInsUdp (item : DockerDnsServiceJob.DnsItem) :
    classifyCommand (asIptables4Command ("-I FORWARD 1 -p udp -d " ++ DockerDnsServiceJob.jsInterpolate item.destinationIpAddress ++ " --dport " ++ toString item.destinationPortNumber ++ " -j ACCEPT"))
      = .linkInsert (dnsForwardSpec "udp" item) := by
  rw [classify_I_FORWARD _ ("-p udp -d " ++ DockerDnsServiceJob.jsInterpolate item.destinationIpAddress ++ " --dport " ++ toString item.destinationPortNumber ++ " -j ACCEPT").data rfl
    (by simp [asIptables4Command])]
  simp [dnsForwardSpec]

theorem classOf_dnsForwardDelTcp (item : DockerDnsServiceJob.DnsItem) :
    classifyCommand (asIptables4Command ("-D FORWARD -p tcp -d " ++ DockerDnsServiceJob.jsInterpolate item.destinationIpAddress ++ " --dport " ++ toString item.destinationPortNumber ++ " -j ACCEPT"))
      = .linkDelete (dnsForwardSpec "tcp" item) := by
  rw [classify_dashD _ ("FORWARD -p tcp -d " ++ DockerDnsServiceJob.jsInterpolate item.destinationIpAddress ++ " --dport " ++ toString item.destinationPortNumber ++ " -j ACCEPT").data rfl
    (by simp [asIptables4Command])]
  simp [dnsForwardSpec]

theorem classOf_dnsForwardDelUdp (item : DockerDnsServiceJob.DnsItem) :
    classifyCommand (asIptables4Command ("-D FORWARD -p udp -d " ++ DockerDnsServiceJob.jsInterpolate item.destinationIpAddress ++ " --dport " ++ toString item.destinationPortNumber ++ " -j ACCEPT"))
      = .linkDelete (dnsForwardSpec "udp" item) := by
  rw [classify_dashD _ ("FORWARD -p udp -d " ++ DockerDnsServiceJob.jsInterpolate item.destinationIpAddress ++ " --dport " ++ toString item.destinationPortNumber ++ " -j ACCEPT").data rfl
    (by simp [asIptables4Command])]
  simp [dnsForwardSpec]

theorem classOf_dnsChainAcceptTcp (c sip spn : String) :
    classifyCommand (asIptables4Command ("-A IN_dns_" ++ c ++ " -p tcp -d " ++ sip ++ " --dport " ++ spn ++ " -j ACCEPT")) = .other :=
  classify_A_IN _ rfl (by simp [asIptables4Command, chPfx])

theorem classOf_dnsChainAcceptUdp (c sip spn : String) :
    classifyCommand (asIptables4Command ("-A IN_dns_" ++ c ++ " -p udp -d " ++ sip ++ " --dport " ++ spn ++ " -j ACCEPT")) = .other :=
  classify_A_IN _ rfl (by simp [asIptables4Command, chPfx])

theorem classOf_dnsCreateIn (c : String) :
    classifyCommand (asIptables4Command ("-N IN_dns_" ++ c)) = .createChain ("IN_dns_" ++ c).data := by
  rw [classify_dashN _ ("IN_dns_" ++ c).data rfl (by simp [asIptables4Command])]

theorem classOf_dnsCreateOut (c : String) :
    classifyCommand (asIptables4Command ("-N OUT_dns_" ++ c)) = .createChain ("OUT_dns_" ++ c).data := by
  rw [classify_dashN _ ("OUT_dns_" ++ c).data rfl (by simp [asIptables4Command])]

theorem classOf_dnsFlushIn (c : String) :
    classifyCommand (asIptables4Command ("-F IN_dns_" ++ c)) = .flushChain ("IN_dns_" ++ c).data := by
  rw [classify_dashF _ ("IN_dns_" ++ c).data rfl (by simp [asIptables4Command])]

theorem classOf_dnsFlushOut (c : String) :
    classifyCommand (asIptables4Command ("-F OUT_dns_" ++ c)) = .flushChain ("OUT_dns_" ++ c).data := by
  rw [classify_dashF _ ("OUT_dns_" ++ c).data rfl (by simp [asIptables4Command])]

theorem classOf_dnsDestroyIn (c : String) :
    classifyCommand (asIptables4Command ("-X IN_dns_" ++ c)) = .destroyChain ("IN_dns_" ++ c).data := by
  rw [classify_dashX _ ("IN_dns_" ++ c).data rfl (by simp [asIptables4Command])]

theorem classOf_dnsDestroyOut (c : String) :
    classifyCommand (asIptables4Command ("-X OUT_dns_" ++ c)) = .destroyChain ("OUT_dns_" ++ c).data := by
  rw [classify_dashX _ ("OUT_dns_" ++ c).data rfl (by simp [asIptables4Command])]

theorem classOf_dnsReturnIn (c : String) :
    classifyCommand (asIptables4Command ("-A IN_dns_" ++ c ++ " -j RETURN")) = .other :=
  classify_A_IN _ rfl (by simp [asIptables4Command, chPfx])

theorem classOf_dnsReturnOut (c : String) :
    classifyCommand (asIptables4Command ("-A OUT_dns_" ++ c ++ " -j RETURN")) = .other :=
  classify_A_OUT _ rfl (by simp [asIptables4Command, chPfx])

theorem filterMap_const_none {α β : Type} (l : List α) :
    l.filterMap (fun _ => (none : Option β)) = [] := by
  simp

theorem filterMap_ptwise {α β : Type} (l : List α) (f g : α → Option β)
    (h : ∀ a, f a = g a) : l.filterMap f = l.filterMap g := by
  congr 1
  funext a
  exact h a

/-!
Per-generator computations of `projectOps` for an arbitrary selector that
ignores `.other` commands.
-/

theorem projVitalInstall (sel : OpClass → Option (List Char)) (hOther : sel .other = none)
    (cfg : PrepareNetfilterJob.JobConfiguration) :
    projectOps sel (PrepareNetfilterJob.generateVitalAccessChainInstall cfg) =
      List.filterMap sel
        [.createChain "IN_vital_access_0".data, .createChain "OUT_vital_access_0".data] := by
  rw [PrepareNetfilterJob.generateVitalAccessChainInstall]
  rw [projectOps_append, projectOps_append, projectOps_flatMap]
  have hmid : ∀ pi : PrepareNetfilterJob.PrimaryInterface,
      projectOps sel
        ([asIptables4Command ("-A IN_vital_access_0 --in-interface " ++ pi.name ++ " -p udp --dport 67:68 --sport 67:68 -j ACCEPT"),
          asIptables4Command ("-A OUT_vital_access_0 --out-interface " ++ pi.name ++ " -p udp --dport 67:68 --sport 67:68 -j ACCEPT"),
          asIptables4Command ("-A OUT_vital_access_0 --out-interface " ++ pi.name ++ " -p udp --sport 1024:65535 --dport 53 -m state --state NEW,ESTABLISHED,RELATED -j ACCEPT"),
          asIptables4Command ("-A IN_vital_access_0 --in-interface " ++ pi.name ++ " -p udp --sport 53 --dport 1024:65535 -m state --state ESTABLISHED,RELATED -j ACCEPT"),
          asIptables4Command ("-A OUT_vital_access_0 --out-interface " ++ pi.name ++ " -p tcp --sport 1024:65535 --dport 53 -m state --state NEW,ESTABLISHED,RELATED -j ACCEPT"),
          asIptables4Command ("-A IN_vital_access_0 --in-interface " ++ pi.name ++ " -p tcp --sport 53 --dport 1024:65535 -m state --state ESTABLISHED,RELATED -j ACCEPT"),
          asIptables4Command ("-A OUT_vital_access_0 -p icmp --in-interface " ++ pi.name ++ " -d 0.0.0.0/0 -m state --state NEW,ESTABLISHED,RELATED -j ACCEPT"),
          asIptables4Command ("-A IN_vital_access_0 -p icmp --out-interface " ++ pi.name ++ " -s 0.0.0.0/0 -m state --state ESTABLISHED,RELATED -j ACCEPT"),
          asIptables4Command ("-A IN_vital_access_0 -p icmp --icmp-type 8 --in-interface " ++ pi.name ++ " -s 0.0.0.0/0 -m state --state NEW,ESTABLISHED,RELATED -j ACCEPT"),
          asIptables4Command ("-A OUT_vital_access_0 -p icmp --out-interface " ++ pi.name ++ " -d 0.0.0.0/0 -m state --state ESTABLISHED,RELATED -j ACCEPT"),
          asIptables4Command ("-A OUT_vital_access_0 --out-interface " ++ pi.name ++ " -p udp --sport 1024:65535 --dport 123 -j ACCEPT"),
          asIptables4Command ("-A IN_vital_access_0 --in-interface " ++ pi.name ++ " -p udp --sport 123 --dport 1024:65535 -m state --state ESTABLISHED,RELATED -j ACCEPT"),
          asIptables4Command ("-A OUT_vital_access_0 --out-interface " ++ pi.name ++ " -m owner --uid-owner 0 -j ACCEPT"),
          asIptables4Command ("-A IN_vital_access_0 --in-interface " ++ pi.name ++ " -m state --state ESTABLISHED,RELATED -j ACCEPT")]
         ++ pi.networks.flatMap (fun nw =>
            [asIptables4Command ("-A IN_vital_access_0 --in-interface lo -s " ++ nw.value ++ " -d " ++ nw.value ++ " -j ACCEPT"),
             asIptables4Command ("-A IN_vital_access_0 --in-interface lo -s " ++ nw.value ++ " -d 127.0.0.0/8 -j ACCEPT"),
             asIptables4Command ("-A OUT_vital_access_0 --out-interface lo -s " ++ nw.value ++ " -d " ++ nw.value ++ " -j ACCEPT"),
             asIptables4Command ("-A OUT_vital_access_0 --out-interface lo -s " ++ nw.value ++ " -d 127.0.0.0/8 -j ACCEPT")])) = [] := by
    intro pi
    rw [projectOps_append, projectOps_flatMap]
    simp only [projectOps, List.filterMap_cons,
      classOf_vitalDhcpIn, classOf_vitalDhcpOut, classOf_vitalDnsUdpOut, classOf_vitalDnsUdpIn,
      classOf_vitalDnsTcpOut, classOf_vitalDnsTcpIn, classOf_vitalIcmp1, classOf_vitalIcmp2,
      classOf_vitalIcmp3, classOf_vitalIcmp4, classOf_vitalNtpOut, classOf_vitalNtpIn,
      classOf_vitalRoot, classOf_vitalEstablished,
      classOf_vitalLo1, classOf_vitalLo2, classOf_vitalLo3, classOf_vitalLo4,
      hOther, List.filterMap_nil]
    exact flatMap_const_nil _
  simp only [hmid]
  rw [flatMap_const_nil]
  have hc1 : classifyCommand (asIptables4Command "-N IN_vital_access_0") = OpClass.createChain "IN_vital_access_0".data := by decide
  have hc2 : classifyCommand (asIptables4Command "-N OUT_vital_access_0") = OpClass.createChain "OUT_vital_access_0".data := by decide
  have ht1 : classifyCommand (asIptables4Command "-A IN_vital_access_0 ! --in-interface lo -d 127.0.0.0/8 -j REJECT") = OpClass.other := by decide
  have ht2 : classifyCommand (asIptables4Command "-A OUT_vital_access_0 --out-interface lo -d 127.0.0.0/8 -j ACCEPT") = OpClass.other := by decide
  have ht3 : classifyCommand (asIptables4Command "-A IN_vital_access_0 -j RETURN") = OpClass.other := by decide
  have ht4 : classifyCommand (asIptables4Command "-A OUT_vital_access_0 -j RETURN") = OpClass.other := by decide
  simp [projectOps, List.filterMap_cons, hc1, hc2, ht1, ht2, ht3, ht4, hOther]

theorem projVitalUninstall (sel : OpClass → Option (List Char)) :
    projectOps sel PrepareNetfilterJob.generateVitalAccessChainUnInstall =
      List.filterMap sel
        [.flushChain "IN_vital_access_0".data, .destroyChain "IN_vital_access_0".data,
         .flushChain "OUT_vital_access_0".data, .destroyChain "OUT_vital_access_0".data] := by
  have h1 : classifyCommand (asIptables4Command "-F IN_vital_access_0") = OpClass.flushChain "IN_vital_access_0".data := by decide
  have h2 : classifyCommand (asIptables4Command "-X IN_vital_access_0") = OpClass.destroyChain "IN_vital_access_0".data := by decide
  have h3 : classifyCommand (asIptables4Command "-F OUT_vital_access_0") = OpClass.flushChain "OUT_vital_access_0".data := by decide
  have h4 : classifyCommand (asIptables4Command "-X OUT_vital_access_0") = OpClass.destroyChain "OUT_vital_access_0".data := by decide
  simp [PrepareNetfilterJob.generateVitalAccessChainUnInstall, projectOps, List.filterMap_cons, h1, h2, h3, h4]

theorem projBlockInstall (sel : OpClass → Option (List Char)) (hOther : sel .other = none) :
    projectOps sel PrepareNetfilterJob.generateBlockNetworkChainInstall =
      List.filterMap sel [.createChain "IN_block_access_0".data, .createSet "block_net".data] := by
  have h1 : classifyCommand (asIptables4Command "-N IN_block_access_0") = OpClass.createChain "IN_block_access_0".data := by decide
  have h2 : classifyCommand (asIpSetCommand "-! create block_net hash:net") = OpClass.createSet "block_net".data := by decide
  have h3 : classifyCommand (asIptables4Command "-A IN_block_access_0 -j DROP") = OpClass.other := by decide
  simp [PrepareNetfilterJob.generateBlockNetworkChainInstall, projectOps, List.filterMap_cons, h1, h2, h3, hOther]

theorem projBlockUninstall (sel : OpClass → Option (List Char)) :
    projectOps sel PrepareNetfilterJob.generateBlockNetworkChainUnInstall =
      List.filterMap sel
        [.flushChain "IN_block_access_0".data, .destroyChain "IN_block_access_0".data,
         .destroySet "block_net".data] := by
  have h1 : classifyCommand (asIptables4Command "-F IN_block_access_0") = OpClass.flushChain "IN_block_access_0".data := by decide
  have h2 : classifyCommand (asIptables4Command "-X IN_block_access_0") = OpClass.destroyChain "IN_block_access_0".data := by decide
  have h3 : classifyCommand (asIpSetCommand "-! destroy block_net") = OpClass.destroySet "block_net".data := by decide
  simp [PrepareNetfilterJob.generateBlockNetworkChainUnInstall, projectOps, List.filterMap_cons, h1, h2, h3]

theorem projServicesInstall (sel : OpClass → Option (List Char)) (hOther : sel .other = none) :
    projectOps sel PrepareNetfilterJob.generateServiceAccessChainInstall =
      List.filterMap sel [.createChain "IN_services_access_0".data, .createChain "OUT_services_access_0".data] := by
  have h1 : classifyCommand (asIptables4Command "-N IN_services_access_0") = OpClass.createChain "IN_services_access_0".data := by decide
  have h2 : classifyCommand (asIptables4Command "-A IN_services_access_0 -j RETURN") = OpClass.other := by decide
  have h3 : classifyCommand (asIptables4Command "-N OUT_services_access_0") = OpClass.createChain "OUT_services_access_0".data := by decide
  have h4 : classifyCommand (asIptables4Command "-A OUT_services_access_0 -j RETURN") = OpClass.other := by decide
  simp [PrepareNetfilterJob.generateServiceAccessChainInstall, projectOps, List.filterMap_cons, h1, h2, h3, h4, hOther]

theorem projServicesUninstall (sel : OpClass → Option (List Char)) :
    projectOps sel PrepareNetfilterJob.generateServiceAccessChainUnInstall =
      List.filterMap sel
        [.flushChain "IN_services_access_0".data, .destroyChain "IN_services_access_0".data,
         .flushChain "OUT_services_access_0".data, .destroyChain "OUT_services_access_0".data] := by
  have h1 : classifyCommand (asIptables4Command "-F IN_services_access_0") = OpClass.flushChain "IN_services_access_0".data := by decide
  have h2 : classifyCommand (asIptables4Command "-X IN_services_access_0") = OpClass.destroyChain "IN_services_access_0".data := by decide
  have h3 : classifyCommand (asIptables4Command "-F OUT_services_access_0") = OpClass.flushChain "OUT_services_access_0".data := by decide
  have h4 : classifyCommand (asIptables4Command "-X OUT_services_access_0") = OpClass.destroyChain "OUT_services_access_0".data := by decide
  simp [PrepareNetfilterJob.generateServiceAccessChainUnInstall, projectOps, List.filterMap_cons, h1, h2, h3, h4]

theorem projTrustedInstall (sel : OpClass → Option (List Char)) (hOther : sel .other = none)
    (g : List PrepareNetfilterJob.NetworkItem) (cfg : PrepareNetfilterJob.JobConfiguration) :
    projectOps sel (PrepareNetfilterJob.generateTrustedNetworkChainInstall g cfg) =
      List.filterMap sel
        [.createSet "trusted_net".data, .createChain "IN_trusted_access_0".data,
         .createChain "OUT_trusted_access_0".data] := by
  have h1 : classifyCommand (asIpSetCommand "-! create trusted_net hash:net") = OpClass.createSet "trusted_net".data := by decide
  have h2 : classifyCommand (asIptables4Command "-N IN_trusted_access_0") = OpClass.createChain "IN_trusted_access_0".data := by decide
  have h3 : classifyCommand (asIptables4Command "-A IN_trusted_access_0 -m set --match-set trusted_net src -j ACCEPT") = OpClass.other := by decide
  have h4 : classifyCommand (asIptables4Command "-A IN_trusted_access_0 -j RETURN") = OpClass.other := by decide
  have h5 : classifyCommand (asIptables4Command "-N OUT_trusted_access_0") = OpClass.createChain "OUT_trusted_access_0".data := by decide
  have h6 : classifyCommand (asIptables4Command "-A OUT_trusted_access_0 -m set --match-set trusted_net dst -j ACCEPT") = OpClass.other := by decide
  have h7 : classifyCommand (asIptables4Command "-A OUT_trusted_access_0 -j RETURN") = OpClass.other := by decide
  rw [PrepareNetfilterJob.generateTrustedNetworkChainInstall, projectOps_append, projectOps_append]
  have hmid : projectOps sel
      ((g ++ cfg.network.trustedItems.getD []).map
        (fun network => asIpSetCommand ("-! add trusted_net " ++ network.value))) = [] := by
    rw [projectOps, List.filterMap_map]
    rw [filterMap_ptwise _ _ (fun _ => none)
      (by intro a; simp [Function.comp, classOf_trustedAdd, hOther])]
    exact filterMap_const_none _
  rw [hmid]
  rw [show ([OpClass.createSet "trusted_net".data, OpClass.createChain "IN_trusted_access_0".data,
        OpClass.createChain "OUT_trusted_access_0".data] : List OpClass)
      = [OpClass.createSet "trusted_net".data] ++
        [OpClass.createChain "IN_trusted_access_0".data,
         OpClass.createChain "OUT_trusted_access_0".data] from rfl]
  rw [List.filterMap_append]
  simp only [List.nil_append]
  congr 1
  · simp [projectOps, List.filterMap_cons, h1]
  · simp [projectOps, List.filterMap_cons, h2, h3, h4, h5, h6, h7, hOther]

theorem projTrustedUninstall (sel : OpClass → Option (List Char)) :
    projectOps sel PrepareNetfilterJob.generateTrustedNetworkChainUnInstall =
      List.filterMap sel
        [.flushChain "IN_trusted_access_0".data, .destroyChain "IN_trusted_access_0".data,
         .flushChain "OUT_trusted_access_0".data, .destroyChain "OUT_trusted_access_0".data,
         .destroySet "trusted_net".data] := by
  have h1 : classifyCommand (asIptables4Command "-F IN_trusted_access_0") = OpClass.flushChain "IN_trusted_access_0".data := by decide
  have h2 : classifyCommand (asIptables4Command "-X IN_trusted_access_0") = OpClass.destroyChain "IN_trusted_access_0".data := by decide
  have h3 : classifyCommand (asIptables4Command "-F OUT_trusted_access_0") = OpClass.flushChain "OUT_trusted_access_0".data := by decide
  have h4 : classifyCommand (asIptables4Command "-X OUT_trusted_access_0") = OpClass.destroyChain "OUT_trusted_access_0".data := by decide
  have h5 : classifyCommand (asIpSetCommand "-! destroy trusted_net") = OpClass.destroySet "trusted_net".data := by decide
  simp [PrepareNetfilterJob.generateTrustedNetworkChainUnInstall, projectOps, List.filterMap_cons, h1, h2, h3, h4, h5]

theorem projRootInstall (sel : OpClass → Option (List Char))
    (cfg : PrepareNetfilterJob.JobConfiguration) :
    projectOps sel (PrepareNetfilterJob.generateRootAccessChainsInstall cfg) =
      List.filterMap sel
        ([.linkInsert "INPUT -j IN_trusted_access_0".data,
          .linkInsert "INPUT -j IN_vital_access_0".data,
          .linkInsert "INPUT -m set --match-set block_net src -j IN_block_access_0".data,
          .linkInsert "INPUT -j IN_services_access_0".data]
         ++ cfg.network.primaryInterfaces.map (fun pi => OpClass.linkInsert (interfaceDefaultSpec pi))
         ++ [.linkInsert "OUTPUT -j OUT_trusted_access_0".data,
             .linkInsert "OUTPUT -j OUT_vital_access_0".data,
             .linkInsert "OUTPUT -j OUT_services_access_0".data]) := by
  have h1 : classifyCommand (asIptables4Command "-I INPUT 1 -j IN_trusted_access_0") = OpClass.linkInsert "INPUT -j IN_trusted_access_0".data := by decide
  have h2 : classifyCommand (asIptables4Command "-I INPUT 2 -j IN_vital_access_0") = OpClass.linkInsert "INPUT -j IN_vital_access_0".data := by decide
  have h3 : classifyCommand (asIptables4Command "-I INPUT 3 -m set --match-set block_net src -j IN_block_access_0") = OpClass.linkInsert "INPUT -m set --match-set block_net src -j IN_block_access_0".data := by decide
  have h4 : classifyCommand (asIptables4Command "-I INPUT 4 -j IN_services_access_0") = OpClass.linkInsert "INPUT -j IN_services_access_0".data := by decide
  have h5 : classifyCommand (asIptables4Command "-I OUTPUT 1 -j OUT_trusted_access_0") = OpClass.linkInsert "OUTPUT -j OUT_trusted_access_0".data := by decide
  have h6 : classifyCommand (asIptables4Command "-I OUTPUT 2 -j OUT_vital_access_0") = OpClass.linkInsert "OUTPUT -j OUT_vital_access_0".data := by decide
  have h7 : classifyCommand (asIptables4Command "-I OUTPUT 3 -j OUT_services_access_0") = OpClass.linkInsert "OUTPUT -j OUT_services_access_0".data := by decide
  have hmid : projectOps sel
      (cfg.network.primaryInterfaces.map (fun pi =>
        asIptables4Command ("-A INPUT --in-interface " ++ pi.name ++ " -j " ++ pi.rules.input.defaultAction))) =
      List.filterMap sel (cfg.network.primaryInterfaces.map (fun pi => OpClass.linkInsert (interfaceDefaultSpec pi))) := by
    rw [projectOps, List.filterMap_map, List.filterMap_map]
    apply filterMap_ptwise
    intro pi
    simp [Function.comp, classOf_interfaceDefaultIns, interfaceDefaultSpec]
  rw [PrepareNetfilterJob.generateRootAccessChainsInstall, projectOps_append, projectOps_append,
    hmid, List.filterMap_append, List.filterMap_append]
  simp [projectOps, List.filterMap_cons, h1, h2, h3, h4, h5, h6, h7]

theorem projRootUninstall (sel : OpClass → Option (List Char))
    (cfg : PrepareNetfilterJob.JobConfiguration) :
    projectOps sel (PrepareNetfilterJob.generateRootAccessChainsUnInstall cfg) =
      List.filterMap sel
        ([.linkDelete "INPUT -j IN_trusted_access_0".data,
          .linkDelete "INPUT -j IN_vital_access_0".data,
          .linkDelete "INPUT -m set --match-set block_net src -j IN_block_access_0".data,
          .linkDelete "INPUT -j IN_services_access_0".data]
         ++ cfg.network.primaryInterfaces.map (fun pi => OpClass.linkDelete (interfaceDefaultSpec pi))
         ++ [.linkDelete "OUTPUT -j OUT_trusted_access_0".data,
             .linkDelete "OUTPUT -j OUT_vital_access_0".data,
             .linkDelete "OUTPUT -j OUT_services_access_0".data]) := by
  have h1 : classifyCommand (asIptables4Command "-D INPUT -j IN_trusted_access_0") = OpClass.linkDelete "INPUT -j IN_trusted_access_0".data := by decide
  have h2 : classifyCommand (asIptables4Command "-D INPUT -j IN_vital_access_0") = OpClass.linkDelete "INPUT -j IN_vital_access_0".data := by decide
  have h3 : classifyCommand (asIptables4Command "-D INPUT -m set --match-set block_net src -j IN_block_access_0") = OpClass.linkDelete "INPUT -m set --match-set block_net src -j IN_block_access_0".data := by decide
  have h4 : classifyCommand (asIptables4Command "-D INPUT -j IN_services_access_0") = OpClass.linkDelete "INPUT -j IN_services_access_0".data := by decide
  have h5 : classifyCommand (asIptables4Command "-D OUTPUT -j OUT_trusted_access_0") = OpClass.linkDelete "OUTPUT -j OUT_trusted_access_0".data := by decide
  have h6 : classifyCommand (asIptables4Command "-D OUTPUT -j OUT_vital_access_0") = OpClass.linkDelete "OUTPUT -j OUT_vital_access_0".data := by decide
  have h7 : classifyCommand (asIptables4Command "-D OUTPUT -j OUT_services_access_0") = OpClass.linkDelete "OUTPUT -j OUT_services_access_0".data := by decide
  have hmid : projectOps sel
      (cfg.network.primaryInterfaces.map (fun pi =>
        asIptables4Command ("-D INPUT --in-interface " ++ pi.name ++ " -j " ++ pi.rules.input.defaultAction))) =
      List.filterMap sel (cfg.network.primaryInterfaces.map (fun pi => OpClass.linkDelete (interfaceDefaultSpec pi))) := by
    rw [projectOps, List.filterMap_map, List.filterMap_map]
    apply filterMap_ptwise
    intro pi
    simp [Function.comp, classOf_interfaceDefaultDel, interfaceDefaultSpec]
  rw [PrepareNetfilterJob.generateRootAccessChainsUnInstall, projectOps_append, projectOps_append,
    hmid, List.filterMap_append, List.filterMap_append]
  simp [projectOps, List.filterMap_cons, h1, h2, h3, h4, h5, h6, h7]

theorem filterMap_flatMap_swap {A : Type} (sel : OpClass → Option (List Char))
    (g : A → Transcript) (h : A → List OpClass)
    (hg : ∀ a, projectOps sel (g a) = List.filterMap sel (h a)) (l : List A) :
    l.flatMap (fun a => projectOps sel (g a)) = List.filterMap sel (l.flatMap h) := by
  induction l with
  | nil => rfl
  | cons a as ih => simp [List.flatMap_cons, List.filterMap_append, hg a, ih]

theorem projItemAccepts (sel : OpClass → Option (List Char)) (hOther : sel .other = none)
    (cn : String) (item : GenericServiceJob.ServiceItem) :
    projectOps sel (GenericServiceJob.itemAcceptCommands cn item) = [] := by
  rw [GenericServiceJob.itemAcceptCommands]
  split
  · simp [projectOps, List.filterMap_cons, classOf_genericAcceptNoSource, hOther]
  · rw [projectOps, List.filterMap_map]
    rw [filterMap_ptwise _ _ (fun _ => none)
      (by intro a; simp [Function.comp, classOf_genericAcceptSource, hOther])]
    exact filterMap_const_none _

theorem projGenericInstall (sel : OpClass → Option (List Char)) (hOther : sel .other = none)
    (cjn : Option String) (cfg : GenericServiceJob.JobConfiguration) :
    projectOps sel (GenericServiceJob.generateRulesInstall cjn cfg) =
      List.filterMap sel
        [.createChain ("IN_" ++ jsStringOr cjn GenericServiceJob.getServiceChainName).data,
         .createChain ("OUT_" ++ jsStringOr cjn GenericServiceJob.getServiceChainName).data,
         .linkInsert (servicesActivationSpecIn (jsStringOr cjn GenericServiceJob.getServiceChainName)),
         .linkInsert (servicesActivationSpecOut (jsStringOr cjn GenericServiceJob.getServiceChainName))] := by
  simp only [GenericServiceJob.generateRulesInstall]
  rw [projectOps_append, projectOps_append, projectOps_flatMap]
  simp only [projItemAccepts sel hOther]
  rw [flatMap_const_nil]
  rw [show ([OpClass.createChain ("IN_" ++ jsStringOr cjn GenericServiceJob.getServiceChainName).data,
        OpClass.createChain ("OUT_" ++ jsStringOr cjn GenericServiceJob.getServiceChainName).data,
        OpClass.linkInsert (servicesActivationSpecIn (jsStringOr cjn GenericServiceJob.getServiceChainName)),
        OpClass.linkInsert (servicesActivationSpecOut (jsStringOr cjn GenericServiceJob.getServiceChainName))] : List OpClass)
      = [OpClass.createChain ("IN_" ++ jsStringOr cjn GenericServiceJob.getServiceChainName).data,
         OpClass.createChain ("OUT_" ++ jsStringOr cjn GenericServiceJob.getServiceChainName).data] ++
        [OpClass.linkInsert (servicesActivationSpecIn (jsStringOr cjn GenericServiceJob.getServiceChainName)),
         OpClass.linkInsert (servicesActivationSpecOut (jsStringOr cjn GenericServiceJob.getServiceChainName))] from rfl]
  rw [List.filterMap_append]
  simp only [List.append_nil]
  simp [projectOps, List.filterMap_cons, classOf_createIn, classOf_createOut,
    classOf_returnIn, classOf_returnOut, classOf_servicesActIn, classOf_servicesActOut, hOther]

theorem projGenericUninstall (sel : OpClass → Option (List Char)) (cjn : Option String) :
    projectOps sel (GenericServiceJob.generateRulesUnInstall cjn) =
      List.filterMap sel
        [.linkDelete (servicesActivationSpecIn (jsStringOr cjn GenericServiceJob.getServiceChainName)),
         .linkDelete (servicesActivationSpecOut (jsStringOr cjn GenericServiceJob.getServiceChainName)),
         .flushChain ("IN_" ++ jsStringOr cjn GenericServiceJob.getServiceChainName).data,
         .destroyChain ("IN_" ++ jsStringOr cjn GenericServiceJob.getServiceChainName).data,
         .flushChain ("OUT_" ++ jsStringOr cjn GenericServiceJob.getServiceChainName).data,
         .destroyChain ("OUT_" ++ jsStringOr cjn GenericServiceJob.getServiceChainName).data] := by
  rw [GenericServiceJob.generateRulesUnInstall]
  simp [projectOps, List.filterMap_cons, classOf_servicesDelIn, classOf_servicesDelOut,
    classOf_flushIn, classOf_flushOut, classOf_destroyIn, classOf_destroyOut]

theorem projDnsItemInstall (sel : OpClass → Option (List Char)) (hOther : sel .other = none)
    (cn : String) (item : DockerDnsServiceJob.DnsItem) :
    projectOps sel (DockerDnsServiceJob.itemInstallCommands cn item) =
      List.filterMap sel
        [.linkInsert (dnsNatSpec "tcp" item), .linkInsert (dnsNatSpec "udp" item),
         .linkInsert (dnsForwardSpec "tcp" item), .linkInsert (dnsForwardSpec "udp" item)] := by
  rw [DockerDnsServiceJob.itemInstallCommands]
  simp [projectOps, List.filterMap_cons, classOf_dnsNatInsTcp, classOf_dnsNatInsUdp,
    classOf_dnsForwardInsTcp, classOf_dnsForwardInsUdp,
    classOf_dnsChainAcceptTcp, classOf_dnsChainAcceptUdp, hOther]

theorem projDnsItemUninstall (sel : OpClass → Option (List Char))
    (item : DockerDnsServiceJob.DnsItem) :
    projectOps sel (DockerDnsServiceJob.itemUnInstallCommands item) =
      List.filterMap sel
        [.linkDelete (dnsNatSpec "tcp" item), .linkDelete (dnsNatSpec "udp" item),
         .linkDelete (dnsForwardSpec "tcp" item), .linkDelete (dnsForwardSpec "udp" item)] := by
  rw [DockerDnsServiceJob.itemUnInstallCommands]
  simp [projectOps, List.filterMap_cons, classOf_dnsNatDelTcp, classOf_dnsNatDelUdp,
    classOf_dnsForwardDelTcp, classOf_dnsForwardDelUdp]

theorem projDockerInstall (sel : OpClass → Option (List Char)) (hOther : sel .other = none)
    (cfg : DockerDnsServiceJob.JobConfiguration) :
    projectOps sel (DockerDnsServiceJob.generateRulesInstall cfg) =
      List.filterMap sel
        ([.createChain ("IN_dns_" ++ jsStringOr cfg.chainName DockerDnsServiceJob.getServiceChainName).data,
          .createChain ("OUT_dns_" ++ jsStringOr cfg.chainName DockerDnsServiceJob.getServiceChainName).data]
         ++ cfg.network.items.flatMap (fun item =>
            [OpClass.linkInsert (dnsNatSpec "tcp" item), OpClass.linkInsert (dnsNatSpec "udp" item),
             OpClass.linkInsert (dnsForwardSpec "tcp" item), OpClass.linkInsert (dnsForwardSpec "udp" item)])
         ++ [.linkInsert (dnsActivationSpecIn (jsStringOr cfg.chainName DockerDnsServiceJob.getServiceChainName)),
             .linkInsert (dnsActivationSpecOut (jsStringOr cfg.chainName DockerDnsServiceJob.getServiceChainName))]) := by
  simp only [DockerDnsServiceJob.generateRulesInstall]
  rw [projectOps_append, projectOps_append, projectOps_flatMap]
  rw [filterMap_flatMap_swap sel _ _
    (fun item => projDnsItemInstall sel hOther
      (jsStringOr cfg.chainName DockerDnsServiceJob.getServiceChainName) item) cfg.network.items]
  rw [List.filterMap_append, List.filterMap_append]
  simp [projectOps, List.filterMap_cons, classOf_dnsCreateIn, classOf_dnsCreateOut,
    classOf_dnsReturnIn, classOf_dnsReturnOut, classOf_dnsActServIn, classOf_dnsActServOut, hOther]

theorem projDockerUninstall (sel : OpClass → Option (List Char))
    (cfg : DockerDnsServiceJob.JobConfiguration) :
    projectOps sel (DockerDnsServiceJob.generateRulesUnInstall cfg) =
      List.filterMap sel
        ([.linkDelete (dnsActivationSpecIn (jsStringOr cfg.chainName DockerDnsServiceJob.getServiceChainName)),
          .linkDelete (dnsActivationSpecOut (jsStringOr cfg.chainName DockerDnsServiceJob.getServiceChainName)),
          .flushChain ("IN_dns_" ++ jsStringOr cfg.chainName DockerDnsServiceJob.getServiceChainName).data,
          .destroyChain ("IN_dns_" ++ jsStringOr cfg.chainName DockerDnsServiceJob.getServiceChainName).data,
          .flushChain ("OUT_dns_" ++ jsStringOr cfg.chainName DockerDnsServiceJob.getServiceChainName).data,
          .destroyChain ("OUT_dns_" ++ jsStringOr cfg.chainName DockerDnsServiceJob.getServiceChainName).data]
         ++ cfg.network.items.flatMap (fun item =>
            [OpClass.linkDelete (dnsNatSpec "tcp" item), OpClass.linkDelete (dnsNatSpec "udp" item),
             OpClass.linkDelete (dnsForwardSpec "tcp" item), OpClass.linkDelete (dnsForwardSpec "udp" item)])) := by
  simp only [DockerDnsServiceJob.generateRulesUnInstall]
  rw [projectOps_append, projectOps_flatMap]
  rw [filterMap_flatMap_swap sel _ _
    (fun item => projDnsItemUninstall sel item) cfg.network.items]
  rw [List.filterMap_append]
  simp [projectOps, List.filterMap_cons, classOf_dnsDelServIn, classOf_dnsDelServOut,
    classOf_dnsFlushIn, classOf_dnsFlushOut, classOf_dnsDestroyIn, classOf_dnsDestroyOut]

/-- `commandBefore t a b` states that some occurrence of command `a` precedes
some occurrence of command `b` in the transcript `t` (the two-element list
`[a, b]` embeds into `t` keeping order). -/
def commandBefore (t : Transcript) (a b : SecurityCommand) : Prop :=
  List.Sublist [a, b] t

instance (t : Transcript) (a b : SecurityCommand) : Decidable (commandBefore t a b) := by
  unfold commandBefore
  infer_instance

theorem commandBefore_intro (l₁ l₂ l₃ : Transcript) (a b : SecurityCommand) :
    commandBefore (l₁ ++ a :: l₂ ++ b :: l₃) a b := by
  unfold commandBefore
  have h1 : List.Sublist [b] (b :: l₃) := (List.nil_sublist l₃).cons₂ b
  have h2 : List.Sublist [b] (l₂ ++ b :: l₃) := h1.trans (List.sublist_append_right l₂ _)
  have h3 : List.Sublist [a, b] (a :: (l₂ ++ b :: l₃)) := h2.cons₂ a
  have h4 : List.Sublist [a, b] (l₁ ++ a :: (l₂ ++ b :: l₃)) :=
    h3.trans (List.sublist_append_right l₁ _)
  simpa using h4

namespace PrepareNetfilterJob

/-- The transcript returned for direction `install`: the five generators'
install commands in forward order. -/
def installTranscript (g : List NetworkItem) (cfg : JobConfiguration) : Transcript :=
  generateVitalAccessChainInstall cfg ++ generateBlockNetworkChainInstall
  ++ generateServiceAccessChainInstall ++ generateTrustedNetworkChainInstall g cfg
  ++ generateRootAccessChainsInstall cfg

/-- The uninstall command list accumulated during an install-ordered run. -/
def unInstallForward (cfg : JobConfiguration) : Transcript :=
  generateVitalAccessChainUnInstall ++ generateBlockNetworkChainUnInstall
  ++ generateServiceAccessChainUnInstall ++ generateTrustedNetworkChainUnInstall
  ++ generateRootAccessChainsUnInstall cfg

/-- The transcript returned for direction `uninstall`: the five generators'
uninstall commands in reversed generator order. -/
def unInstallTranscript (cfg : JobConfiguration) : Transcript :=
  generateRootAccessChainsUnInstall cfg ++ generateTrustedNetworkChainUnInstall
  ++ generateServiceAccessChainUnInstall ++ generateBlockNetworkChainUnInstall
  ++ generateVitalAccessChainUnInstall

/-- The install command list accumulated during an uninstall-ordered run. -/
def installReverse (g : List NetworkItem) (cfg : JobConfiguration) : Transcript :=
  generateRootAccessChainsInstall cfg ++ generateTrustedNetworkChainInstall g cfg
  ++ generateServiceAccessChainInstall ++ generateBlockNetworkChainInstall
  ++ generateVitalAccessChainInstall cfg

theorem runSteps_installOrder (g : List NetworkItem) (cfg : JobConfiguration) :
    runSteps (installOrderSteps g cfg) = ⟨installTranscript g cfg, unInstallForward cfg⟩ := by
  simp [runSteps, installOrderSteps, installTranscript, unInstallForward]

theorem runSteps_uninstallOrder (g : List NetworkItem) (cfg : JobConfiguration) :
    runSteps (uninstallOrderSteps g cfg) = ⟨installReverse g cfg, unInstallTranscript cfg⟩ := by
  simp [runSteps, uninstallOrderSteps, installReverse, unInstallTranscript]

theorem prep_execute_install_eq (g : List NetworkItem) (raw : RawJobConfiguration)
    (cfg : JobConfiguration) (hval : validateConfiguration raw = .ok cfg) :
    execute "install" g raw =
      (.ok ⟨installTranscript g cfg⟩, ⟨installTranscript g cfg, unInstallForward cfg⟩) := by
  have h1 : strToLower "install" = "install" := by decide
  simp [execute, h1, hval, runSteps_installOrder, selectTranscript]

theorem prep_execute_uninstall_eq (g : List NetworkItem) (raw : RawJobConfiguration)
    (cfg : JobConfiguration) (hval : validateConfiguration raw = .ok cfg) :
    execute "uninstall" g raw =
      (.ok ⟨unInstallTranscript cfg⟩, ⟨installReverse g cfg, unInstallTranscript cfg⟩) := by
  have h1 : strToLower "uninstall" = "uninstall" := by decide
  have h2 : strToLower "uninstall" ≠ "install" := by decide
  simp [execute, h1, h2, hval, runSteps_uninstallOrder, selectTranscript]

end PrepareNetfilterJob

namespace GenericServiceJob

theorem gen_execute_install_eq (cjn : Option String) (raw : RawJobConfiguration)
    (cfg : JobConfiguration) (hval : validateConfiguration raw = .ok cfg) :
    execute "install" cjn raw =
      (.ok ⟨generateRulesInstall cjn cfg⟩,
       ⟨generateRulesInstall cjn cfg, generateRulesUnInstall cjn⟩) := by
  have h1 : strToLower "install" = "install" := by decide
  simp [execute, h1, hval, runSteps, selectTranscript]

theorem gen_execute_uninstall_eq (cjn : Option String) (raw : RawJobConfiguration)
    (cfg : JobConfiguration) (hval : validateConfiguration raw = .ok cfg) :
    execute "uninstall" cjn raw =
      (.ok ⟨generateRulesUnInstall cjn⟩,
       ⟨generateRulesInstall cjn cfg, generateRulesUnInstall cjn⟩) := by
  have h1 : strToLower "uninstall" = "uninstall" := by decide
  simp [execute, h1, hval, runSteps, selectTranscript]

end GenericServiceJob

namespace DockerDnsServiceJob

theorem dock_execute_install_eq (raw : RawJobConfiguration)
    (cfg : JobConfiguration) (hval : validateConfiguration raw = .ok cfg) :
    execute "install" raw =
      (.ok ⟨generateRulesInstall cfg⟩,
       ⟨generateRulesInstall cfg, generateRulesUnInstall cfg⟩) := by
  have h1 : strToLower "install" = "install" := by decide
  simp [execute, h1, hval, runSteps, selectTranscript]

theorem dock_execute_uninstall_eq (raw : RawJobConfiguration)
    (cfg : JobConfiguration) (hval : validateConfiguration raw = .ok cfg) :
    execute "uninstall" raw =
      (.ok ⟨generateRulesUnInstall cfg⟩,
       ⟨generateRulesInstall cfg, generateRulesUnInstall cfg⟩) := by
  have h1 : strToLower "uninstall" = "uninstall" := by decide
  simp [execute, h1, hval, runSteps, selectTranscript]

end DockerDnsServiceJob

namespace SynchronizeBlacklistIps

theorem sync_execute_install_eq (raw : RawJobConfiguration) (cfg : JobConfiguration)
    (rows : List String) (hval : validateConfiguration raw = .ok cfg) :
    execute "install" raw rows =
      (.ok ⟨rows.map (fun v => { type := "ipset", value := "-! add block_net " ++ v })⟩,
       fetchNetworksState rows) := by
  have h1 : strToLower "install" = "install" := by decide
  simp [execute, h1, hval, fetchNetworksState, selectTranscript]

theorem sync_execute_uninstall_eq (raw : RawJobConfiguration) (cfg : JobConfiguration)
    (rows : List String) (hval : validateConfiguration raw = .ok cfg) :
    execute "uninstall" raw rows =
      (.ok ⟨[{ type := "ipset", value := "flush block_net" }]⟩,
       fetchNetworksState rows) := by
  have h1 : strToLower "uninstall" = "uninstall" := by decide
  simp [execute, h1, hval, fetchNetworksState, selectTranscript]

end SynchronizeBlacklistIps

theorem commandBefore_append_left (t' t : Transcript) (a b : SecurityCommand)
    (h : commandBefore t a b) : commandBefore (t' ++ t) a b :=
  h.trans (List.sublist_append_right t' t)

theorem commandBefore_cons (c : SecurityCommand) (t : Transcript) (a b : SecurityCommand)
    (h : commandBefore t a b) : commandBefore (c :: t) a b :=
  h.trans (List.sublist_cons_self c t)

theorem commandBefore_here (a b : SecurityCommand) (t : Transcript) (h : b ∈ t) :
    commandBefore (a :: t) a b :=
  List.Sublist.cons₂ a (List.singleton_sublist.mpr h)

theorem commandBefore_append_right (t t' : Transcript) (a b : SecurityCommand)
    (h : commandBefore t a b) : commandBefore (t ++ t') a b :=
  h.trans (List.sublist_append_left t t')

deriving instance DecidableEq for Except

/-- A concrete prepare-netfilter policy with one primary interface, used to
settle claim C1. -/
def claim1SampleRaw : PrepareNetfilterJob.RawJobConfiguration :=
  ⟨some ⟨none, some [⟨some "eth0", some [⟨some "192.168.1.0/24", none⟩],
    some ⟨some ⟨some "DROP"⟩, some ⟨some "ACCEPT"⟩⟩⟩]⟩⟩

/-- The validated form of `claim1SampleRaw`. -/
def claim1SampleCfg : PrepareNetfilterJob.JobConfiguration :=
  ⟨⟨none, [⟨"eth0", [⟨"192.168.1.0/24", none⟩], ⟨⟨"DROP"⟩, ⟨"ACCEPT"⟩⟩⟩]⟩⟩

/-- C1, counterexample: at a concrete one-interface policy, the uninstall
transcript does NOT list the delete-activation commands in reversed relative
order.  The claim requires the services-chain delete-activation to come
before the block-chain delete-activation; the code emits them the other way
round (the same relative order as on install). -/
theorem claim1_counterexample :
    (PrepareNetfilterJob.execute "uninstall" [] claim1SampleRaw).1 =
      .ok ⟨PrepareNetfilterJob.unInstallTranscript claim1SampleCfg⟩
    ∧ asIptables4Command "-D INPUT -j IN_services_access_0"
        ∈ PrepareNetfilterJob.unInstallTranscript claim1SampleCfg
    ∧ asIptables4Command "-D INPUT -m set --match-set block_net src -j IN_block_access_0"
        ∈ PrepareNetfilterJob.unInstallTranscript claim1SampleCfg
    ∧ ¬ commandBefore (PrepareNetfilterJob.unInstallTranscript claim1SampleCfg)
        (asIptables4Command "-D INPUT -j IN_services_access_0")
        (asIptables4Command "-D INPUT -m set --match-set block_net src -j IN_block_access_0") := by
  refine ⟨?_, ?_, ?_, ?_⟩ <;> decide

/-- C1 (amended): for every valid policy the install transcript contains the
trusted-chain activation before the vital-chain activation, before the
block-chain activation, before the services-chain activation, before every
per-interface default-action command; and the uninstall transcript contains
the corresponding delete-activation commands in the SAME relative order
(trusted first, then vital, block, services, then the per-interface
deletions), not the reversed order the original claim states. -/
theorem claim1_activation_order_amended
    (g : List PrepareNetfilterJob.NetworkItem) (raw : PrepareNetfilterJob.RawJobConfiguration)
    (cfg : PrepareNetfilterJob.JobConfiguration)
    (rI : JobResult) (stI : CommandsState) (rU : JobResult) (stU : CommandsState)
    (hval : PrepareNetfilterJob.validateConfiguration raw = .ok cfg)
    (hI : PrepareNetfilterJob.execute "install" g raw = (.ok rI, stI))
    (hU : PrepareNetfilterJob.execute "uninstall" g raw = (.ok rU, stU)) :
    (commandBefore rI.securityCommands
        (asIptables4Command "-I INPUT 1 -j IN_trusted_access_0")
        (asIptables4Command "-I INPUT 2 -j IN_vital_access_0")
     ∧ commandBefore rI.securityCommands
        (asIptables4Command "-I INPUT 2 -j IN_vital_access_0")
        (asIptables4Command "-I INPUT 3 -m set --match-set block_net src -j IN_block_access_0")
     ∧ commandBefore rI.securityCommands
        (asIptables4Command "-I INPUT 3 -m set --match-set block_net src -j IN_block_access_0")
        (asIptables4Command "-I INPUT 4 -j IN_services_access_0")
     ∧ ∀ pi ∈ cfg.network.primaryInterfaces,
        commandBefore rI.securityCommands
          (asIptables4Command "-I INPUT 4 -j IN_services_access_0")
          (asIptables4Command ("-A INPUT --in-interface " ++ pi.name ++ " -j " ++ pi.rules.input.defaultAction)))
    ∧ (commandBefore rU.securityCommands
        (asIptables4Command "-D INPUT -j IN_trusted_access_0")
        (asIptables4Command "-D INPUT -j IN_vital_access_0")
     ∧ commandBefore rU.securityCommands
        (asIptables4Command "-D INPUT -j IN_vital_access_0")
        (asIptables4Command "-D INPUT -m set --match-set block_net src -j IN_block_access_0")
     ∧ commandBefore rU.securityCommands
        (asIptables4Command "-D INPUT -m set --match-set block_net src -j IN_block_access_0")
        (asIptables4Command "-D INPUT -j IN_services_access_0")
     ∧ ∀ pi ∈ cfg.network.primaryInterfaces,
        commandBefore rU.securityCommands
          (asIptables4Command "-D INPUT -j IN_services_access_0")
          (asIptables4Command ("-D INPUT --in-interface " ++ pi.name ++ " -j " ++ pi.rules.input.defaultAction))) := by
  rw [PrepareNetfilterJob.prep_execute_install_eq g raw cfg hval] at hI
  rw [PrepareNetfilterJob.prep_execute_uninstall_eq g raw cfg hval] at hU
  simp only [Prod.mk.injEq, Except.ok.injEq] at hI hU
  obtain ⟨hI1, -⟩ := hI
  obtain ⟨hU1, -⟩ := hU
  subst hI1
  subst hU1
  constructor
  · refine ⟨?_, ?_, ?_, ?_⟩
    · show commandBefore (PrepareNetfilterJob.installTranscript g cfg) _ _
      rw [PrepareNetfilterJob.installTranscript]
      simp only [List.append_assoc]
      apply commandBefore_append_left
      apply commandBefore_append_left
      apply commandBefore_append_left
      apply commandBefore_append_left
      rw [PrepareNetfilterJob.generateRootAccessChainsInstall]
      simp only [List.cons_append, List.nil_append]
      exact commandBefore_here _ _ _ (by simp)
    · show commandBefore (PrepareNetfilterJob.installTranscript g cfg) _ _
      rw [PrepareNetfilterJob.installTranscript]
      simp only [List.append_assoc]
      apply commandBefore_append_left
      apply commandBefore_append_left
      apply commandBefore_append_left
      apply commandBefore_append_left
      rw [PrepareNetfilterJob.generateRootAccessChainsInstall]
      simp only [List.cons_append, List.nil_append]
      apply commandBefore_cons
      exact commandBefore_here _ _ _ (by simp)
    · show commandBefore (PrepareNetfilterJob.installTranscript g cfg) _ _
      rw [PrepareNetfilterJob.installTranscript]
      simp only [List.append_assoc]
      apply commandBefore_append_left
      apply commandBefore_append_left
      apply commandBefore_append_left
      apply commandBefore_append_left
      rw [PrepareNetfilterJob.generateRootAccessChainsInstall]
      simp only [List.cons_append, List.nil_append]
      apply commandBefore_cons
      apply commandBefore_cons
      exact commandBefore_here _ _ _ (by simp)
    · intro pi hpi
      show commandBefore (PrepareNetfilterJob.installTranscript g cfg) _ _
      rw [PrepareNetfilterJob.installTranscript]
      simp only [List.append_assoc]
      apply commandBefore_append_left
      apply commandBefore_append_left
      apply commandBefore_append_left
      apply commandBefore_append_left
      rw [PrepareNetfilterJob.generateRootAccessChainsInstall]
      simp only [List.cons_append, List.nil_append]
      apply commandBefore_cons
      apply commandBefore_cons
      apply commandBefore_cons
      exact commandBefore_here _ _ _
        (List.mem_append_left _ (List.mem_map_of_mem _ hpi))
  · refine ⟨?_, ?_, ?_, ?_⟩
    · show commandBefore (PrepareNetfilterJob.unInstallTranscript cfg) _ _
      rw [PrepareNetfilterJob.unInstallTranscript]
      simp only [List.append_assoc]
      apply commandBefore_append_right
      rw [PrepareNetfilterJob.generateRootAccessChainsUnInstall]
      simp only [List.cons_append, List.nil_append]
      exact commandBefore_here _ _ _ (by simp)
    · show commandBefore (PrepareNetfilterJob.unInstallTranscript cfg) _ _
      rw [PrepareNetfilterJob.unInstallTranscript]
      simp only [List.append_assoc]
      apply commandBefore_append_right
      rw [PrepareNetfilterJob.generateRootAccessChainsUnInstall]
      simp only [List.cons_append, List.nil_append]
      apply commandBefore_cons
      exact commandBefore_here _ _ _ (by simp)
    · show commandBefore (PrepareNetfilterJob.unInstallTranscript cfg) _ _
      rw [PrepareNetfilterJob.unInstallTranscript]
      simp only [List.append_assoc]
      apply commandBefore_append_right
      rw [PrepareNetfilterJob.generateRootAccessChainsUnInstall]
      simp only [List.cons_append, List.nil_append]
      apply commandBefore_cons
      apply commandBefore_cons
      exact commandBefore_here _ _ _ (by simp)
    · intro pi hpi
      show commandBefore (PrepareNetfilterJob.unInstallTranscript cfg) _ _
      rw [PrepareNetfilterJob.unInstallTranscript]
      simp only [List.append_assoc]
      apply commandBefore_append_right
      rw [PrepareNetfilterJob.generateRootAccessChainsUnInstall]
      simp only [List.cons_append, List.nil_append]
      apply commandBefore_cons
      apply commandBefore_cons
      apply commandBefore_cons
      exact commandBefore_here _ _ _
        (List.mem_append_left _ (List.mem_map_of_mem _ hpi))

theorem claim1_activation_order_amended_witness :
    commandBefore (PrepareNetfilterJob.installTranscript [] claim1SampleCfg)
      (asIptables4Command "-I INPUT 1 -j IN_trusted_access_0")
      (asIptables4Command "-I INPUT 2 -j IN_vital_access_0")
    ∧ commandBefore (PrepareNetfilterJob.unInstallTranscript claim1SampleCfg)
      (asIptables4Command "-D INPUT -j IN_trusted_access_0")
      (asIptables4Command "-D INPUT -j IN_vital_access_0") :=
  have h := claim1_activation_order_amended [] claim1SampleRaw claim1SampleCfg
    ⟨PrepareNetfilterJob.installTranscript [] claim1SampleCfg⟩
    ⟨PrepareNetfilterJob.installTranscript [] claim1SampleCfg,
     PrepareNetfilterJob.unInstallForward claim1SampleCfg⟩
    ⟨PrepareNetfilterJob.unInstallTranscript claim1SampleCfg⟩
    ⟨PrepareNetfilterJob.installReverse [] claim1SampleCfg,
     PrepareNetfilterJob.unInstallTranscript claim1SampleCfg⟩
    (by decide) (by decide) (by decide)
  ⟨h.1.1, h.2.1⟩

theorem filterMap_some_comp {α β : Type} (f : α → β) (l : List α) :
    l.filterMap (fun a => some (f a)) = l.map f := by
  induction l with
  | nil => rfl
  | cons a as ih => simp [List.filterMap_cons, ih]

theorem filterMap_flatMap {α β γ : Type} (f : β → Option γ) (g : α → List β) (l : List α) :
    (l.flatMap g).filterMap f = l.flatMap (fun a => (g a).filterMap f) := by
  induction l with
  | nil => rfl
  | cons a as ih => simp [List.flatMap_cons, List.filterMap_append, ih]

/-- A valid sync-blacklist-ips configuration used to settle claim C2. -/
def claim2BlacklistRaw : SynchronizeBlacklistIps.RawJobConfiguration :=
  ⟨some ⟨some "postgres://localhost/security"⟩⟩

/-- C2, counterexample: for the blacklist-sync job (included in the claim's
"every job") the multiset of destructive uninstall operations does not match
the multiset of constructive install operations.  With an empty data-source
result the install transcript is empty while the uninstall transcript still
flushes `block_net`, a destructive operation with no constructive
counterpart. -/
theorem claim2_counterexample :
    (SynchronizeBlacklistIps.execute "install" claim2BlacklistRaw []).1 = .ok ⟨[]⟩
    ∧ (SynchronizeBlacklistIps.execute "uninstall" claim2BlacklistRaw []).1 =
        .ok ⟨[{ type := "ipset", value := "flush block_net" }]⟩
    ∧ ¬ ((↑(projectOps destructiveIdSel [{ type := "ipset", value := "flush block_net" }]) : Multiset (List Char))
         = ↑(projectOps constructiveIdSel ([] : Transcript))) := by
  refine ⟨?_, ?_, ?_⟩ <;> decide

theorem prepUninstallDestroys (cfg : PrepareNetfilterJob.JobConfiguration) :
    projectOps destroyedIdSel (PrepareNetfilterJob.unInstallTranscript cfg) =
      ["IN_trusted_access_0".data, "OUT_trusted_access_0".data, "trusted_net".data,
       "IN_services_access_0".data, "OUT_services_access_0".data,
       "IN_block_access_0".data, "block_net".data,
       "IN_vital_access_0".data, "OUT_vital_access_0".data] := by
  rw [PrepareNetfilterJob.unInstallTranscript, projectOps_append, projectOps_append,
      projectOps_append, projectOps_append,
      projRootUninstall destroyedIdSel cfg, projTrustedUninstall destroyedIdSel,
      projServicesUninstall destroyedIdSel, projBlockUninstall destroyedIdSel,
      projVitalUninstall destroyedIdSel]
  simp [destroyedIdSel, List.filterMap_cons, List.filterMap_map, filterMap_const_none]

theorem prepInstallCreates (g : List PrepareNetfilterJob.NetworkItem)
    (cfg : PrepareNetfilterJob.JobConfiguration) :
    projectOps createdIdSel (PrepareNetfilterJob.installTranscript g cfg) =
      ["IN_vital_access_0".data, "OUT_vital_access_0".data,
       "IN_block_access_0".data, "block_net".data,
       "IN_services_access_0".data, "OUT_services_access_0".data,
       "trusted_net".data, "IN_trusted_access_0".data, "OUT_trusted_access_0".data] := by
  rw [PrepareNetfilterJob.installTranscript, projectOps_append, projectOps_append,
      projectOps_append, projectOps_append,
      projVitalInstall createdIdSel rfl cfg, projBlockInstall createdIdSel rfl,
      projServicesInstall createdIdSel rfl, projTrustedInstall createdIdSel rfl g cfg,
      projRootInstall createdIdSel cfg]
  simp [createdIdSel, List.filterMap_cons, List.filterMap_map, filterMap_const_none]

theorem prepUninstallDelLinks (cfg : PrepareNetfilterJob.JobConfiguration) :
    projectOps deletedLinkSel (PrepareNetfilterJob.unInstallTranscript cfg) =
      ["INPUT -j IN_trusted_access_0".data, "INPUT -j IN_vital_access_0".data,
       "INPUT -m set --match-set block_net src -j IN_block_access_0".data,
       "INPUT -j IN_services_access_0".data]
      ++ cfg.network.primaryInterfaces.map interfaceDefaultSpec
      ++ ["OUTPUT -j OUT_trusted_access_0".data, "OUTPUT -j OUT_vital_access_0".data,
          "OUTPUT -j OUT_services_access_0".data] := by
  rw [PrepareNetfilterJob.unInstallTranscript, projectOps_append, projectOps_append,
      projectOps_append, projectOps_append,
      projRootUninstall deletedLinkSel cfg, projTrustedUninstall deletedLinkSel,
      projServicesUninstall deletedLinkSel, projBlockUninstall deletedLinkSel,
      projVitalUninstall deletedLinkSel]
  simp [deletedLinkSel, List.filterMap_cons, List.filterMap_map, filterMap_some_comp]
  rw [filterMap_ptwise _ (deletedLinkSel ∘ fun pi => OpClass.linkDelete (interfaceDefaultSpec pi))
      (fun pi => some (interfaceDefaultSpec pi)) (fun a => rfl)]
  rw [filterMap_some_comp]

theorem prepInstallInsLinks (g : List PrepareNetfilterJob.NetworkItem)
    (cfg : PrepareNetfilterJob.JobConfiguration) :
    projectOps insertedLinkSel (PrepareNetfilterJob.installTranscript g cfg) =
      ["INPUT -j IN_trusted_access_0".data, "INPUT -j IN_vital_access_0".data,
       "INPUT -m set --match-set block_net src -j IN_block_access_0".data,
       "INPUT -j IN_services_access_0".data]
      ++ cfg.network.primaryInterfaces.map interfaceDefaultSpec
      ++ ["OUTPUT -j OUT_trusted_access_0".data, "OUTPUT -j OUT_vital_access_0".data,
          "OUTPUT -j OUT_services_access_0".data] := by
  rw [PrepareNetfilterJob.installTranscript, projectOps_append, projectOps_append,
      projectOps_append, projectOps_append,
      projVitalInstall insertedLinkSel rfl cfg, projBlockInstall insertedLinkSel rfl,
      projServicesInstall insertedLinkSel rfl, projTrustedInstall insertedLinkSel rfl g cfg,
      projRootInstall insertedLinkSel cfg]
  simp [insertedLinkSel, List.filterMap_cons, List.filterMap_map, filterMap_some_comp]
  rw [filterMap_ptwise _ (insertedLinkSel ∘ fun pi => OpClass.linkInsert (interfaceDefaultSpec pi))
      (fun pi => some (interfaceDefaultSpec pi)) (fun a => rfl)]
  rw [filterMap_some_comp]

theorem prepUninstallFlushes (cfg : PrepareNetfilterJob.JobConfiguration) :
    projectOps flushedChainIdSel (PrepareNetfilterJob.unInstallTranscript cfg) =
      ["IN_trusted_access_0".data, "OUT_trusted_access_0".data,
       "IN_services_access_0".data, "OUT_services_access_0".data,
       "IN_block_access_0".data,
       "IN_vital_access_0".data, "OUT_vital_access_0".data] := by
  rw [PrepareNetfilterJob.unInstallTranscript, projectOps_append, projectOps_append,
      projectOps_append, projectOps_append,
      projRootUninstall flushedChainIdSel cfg, projTrustedUninstall flushedChainIdSel,
      projServicesUninstall flushedChainIdSel, projBlockUninstall flushedChainIdSel,
      projVitalUninstall flushedChainIdSel]
  simp [flushedChainIdSel, List.filterMap_cons, List.filterMap_map, filterMap_const_none]

theorem prepInstallChainCreates (g : List PrepareNetfilterJob.NetworkItem)
    (cfg : PrepareNetfilterJob.JobConfiguration) :
    projectOps createdChainIdSel (PrepareNetfilterJob.installTranscript g cfg) =
      ["IN_vital_access_0".data, "OUT_vital_access_0".data,
       "IN_block_access_0".data,
       "IN_services_access_0".data, "OUT_services_access_0".data,
       "IN_trusted_access_0".data, "OUT_trusted_access_0".data] := by
  rw [PrepareNetfilterJob.installTranscript, projectOps_append, projectOps_append,
      projectOps_append, projectOps_append,
      projVitalInstall createdChainIdSel rfl cfg, projBlockInstall createdChainIdSel rfl,
      projServicesInstall createdChainIdSel rfl, projTrustedInstall createdChainIdSel rfl g cfg,
      projRootInstall createdChainIdSel cfg]
  simp [createdChainIdSel, List.filterMap_cons, List.filterMap_map, filterMap_const_none]

theorem genUninstallDestroys (cjn : Option String) :
    projectOps destroyedIdSel (GenericServiceJob.generateRulesUnInstall cjn) =
      [("IN_" ++ jsStringOr cjn GenericServiceJob.getServiceChainName).data,
       ("OUT_" ++ jsStringOr cjn GenericServiceJob.getServiceChainName).data] := by
  rw [projGenericUninstall destroyedIdSel cjn]
  simp [destroyedIdSel, List.filterMap_cons]

theorem genInstallCreates (cjn : Option String) (cfg : GenericServiceJob.JobConfiguration) :
    projectOps createdIdSel (GenericServiceJob.generateRulesInstall cjn cfg) =
      [("IN_" ++ jsStringOr cjn GenericServiceJob.getServiceChainName).data,
       ("OUT_" ++ jsStringOr cjn GenericServiceJob.getServiceChainName).data] := by
  rw [projGenericInstall createdIdSel rfl cjn cfg]
  simp [createdIdSel, List.filterMap_cons]

theorem genUninstallDelLinks (cjn : Option String) :
    projectOps deletedLinkSel (GenericServiceJob.generateRulesUnInstall cjn) =
      [servicesActivationSpecIn (jsStringOr cjn GenericServiceJob.getServiceChainName),
       servicesActivationSpecOut (jsStringOr cjn GenericServiceJob.getServiceChainName)] := by
  rw [projGenericUninstall deletedLinkSel cjn]
  simp [deletedLinkSel, List.filterMap_cons]

theorem genInstallInsLinks (cjn : Option String) (cfg : GenericServiceJob.JobConfiguration) :
    projectOps insertedLinkSel (GenericServiceJob.generateRulesInstall cjn cfg) =
      [servicesActivationSpecIn (jsStringOr cjn GenericServiceJob.getServiceChainName),
       servicesActivationSpecOut (jsStringOr cjn GenericServiceJob.getServiceChainName)] := by
  rw [projGenericInstall insertedLinkSel rfl cjn cfg]
  simp [insertedLinkSel, List.filterMap_cons]

theorem genUninstallFlushes (cjn : Option String) :
    projectOps flushedChainIdSel (GenericServiceJob.generateRulesUnInstall cjn) =
      [("IN_" ++ jsStringOr cjn GenericServiceJob.getServiceChainName).data,
       ("OUT_" ++ jsStringOr cjn GenericServiceJob.getServiceChainName).data] := by
  rw [projGenericUninstall flushedChainIdSel cjn]
  simp [flushedChainIdSel, List.filterMap_cons]

theorem genInstallChainCreates (cjn : Option String) (cfg : GenericServiceJob.JobConfiguration) :
    projectOps createdChainIdSel (GenericServiceJob.generateRulesInstall cjn cfg) =
      [("IN_" ++ jsStringOr cjn GenericServiceJob.getServiceChainName).data,
       ("OUT_" ++ jsStringOr cjn GenericServiceJob.getServiceChainName).data] := by
  rw [projGenericInstall createdChainIdSel rfl cjn cfg]
  simp [createdChainIdSel, List.filterMap_cons]

theorem dockUninstallDestroys (cfg : DockerDnsServiceJob.JobConfiguration) :
    projectOps destroyedIdSel (DockerDnsServiceJob.generateRulesUnInstall cfg) =
      [("IN_dns_" ++ jsStringOr cfg.chainName DockerDnsServiceJob.getServiceChainName).data,
       ("OUT_dns_" ++ jsStringOr cfg.chainName DockerDnsServiceJob.getServiceChainName).data] := by
  rw [projDockerUninstall destroyedIdSel cfg]
  rw [List.filterMap_append, filterMap_flatMap]
  simp [destroyedIdSel, List.filterMap_cons, flatMap_const_nil]

theorem dockInstallCreates (cfg : DockerDnsServiceJob.JobConfiguration) :
    projectOps createdIdSel (DockerDnsServiceJob.generateRulesInstall cfg) =
      [("IN_dns_" ++ jsStringOr cfg.chainName DockerDnsServiceJob.getServiceChainName).data,
       ("OUT_dns_" ++ jsStringOr cfg.chainName DockerDnsServiceJob.getServiceChainName).data] := by
  rw [projDockerInstall createdIdSel rfl cfg]
  rw [List.filterMap_append, List.filterMap_append, filterMap_flatMap]
  simp [createdIdSel, List.filterMap_cons, flatMap_const_nil]

theorem dockUninstallDelLinks (cfg : DockerDnsServiceJob.JobConfiguration) :
    projectOps deletedLinkSel (DockerDnsServiceJob.generateRulesUnInstall cfg) =
      [dnsActivationSpecIn (jsStringOr cfg.chainName DockerDnsServiceJob.getServiceChainName),
       dnsActivationSpecOut (jsStringOr cfg.chainName DockerDnsServiceJob.getServiceChainName)]
      ++ cfg.network.items.flatMap (fun item =>
          [dnsNatSpec "tcp" item, dnsNatSpec "udp" item,
           dnsForwardSpec "tcp" item, dnsForwardSpec "udp" item]) := by
  rw [projDockerUninstall deletedLinkSel cfg]
  rw [List.filterMap_append, filterMap_flatMap]
  simp [deletedLinkSel, List.filterMap_cons]

theorem dockInstallInsLinks (cfg : DockerDnsServiceJob.JobConfiguration) :
    projectOps insertedLinkSel (DockerDnsServiceJob.generateRulesInstall cfg) =
      cfg.network.items.flatMap (fun item =>
          [dnsNatSpec "tcp" item, dnsNatSpec "udp" item,
           dnsForwardSpec "tcp" item, dnsForwardSpec "udp" item])
      ++ [dnsActivationSpecIn (jsStringOr cfg.chainName DockerDnsServiceJob.getServiceChainName),
          dnsActivationSpecOut (jsStringOr cfg.chainName DockerDnsServiceJob.getServiceChainName)] := by
  rw [projDockerInstall insertedLinkSel rfl cfg]
  rw [List.filterMap_append, List.filterMap_append, filterMap_flatMap]
  simp [insertedLinkSel, List.filterMap_cons]

theorem dockUninstallFlushes (cfg : DockerDnsServiceJob.JobConfiguration) :
    projectOps flushedChainIdSel (DockerDnsServiceJob.generateRulesUnInstall cfg) =
      [("IN_dns_" ++ jsStringOr cfg.chainName DockerDnsServiceJob.getServiceChainName).data,
       ("OUT_dns_" ++ jsStringOr cfg.chainName DockerDnsServiceJob.getServiceChainName).data] := by
  rw [projDockerUninstall flushedChainIdSel cfg]
  rw [List.filterMap_append, filterMap_flatMap]
  simp [flushedChainIdSel, List.filterMap_cons, flatMap_const_nil]

theorem dockInstallChainCreates (cfg : DockerDnsServiceJob.JobConfiguration) :
    projectOps createdChainIdSel (DockerDnsServiceJob.generateRulesInstall cfg) =
      [("IN_dns_" ++ jsStringOr cfg.chainName DockerDnsServiceJob.getServiceChainName).data,
       ("OUT_dns_" ++ jsStringOr cfg.chainName DockerDnsServiceJob.getServiceChainName).data] := by
  rw [projDockerInstall createdChainIdSel rfl cfg]
  rw [List.filterMap_append, List.filterMap_append, filterMap_flatMap]
  simp [createdChainIdSel, List.filterMap_cons, flatMap_const_nil]

/-- C2 (amended): the claimed symmetry holds for the netfilter-preparation,
generic-service and docker-DNS jobs once split into matching operation kinds:
destroyed chain/set identifiers match created ones, deleted activation-link
specifications match inserted ones, and flushed chain identifiers match the
chains created — flush has no separate constructive counterpart, and the
blacklist-sync job (whose uninstall flush of `block_net` has no constructive
counterpart at all) must be excluded, as `claim2_counterexample` shows. -/
theorem claim2_symmetry_amended :
    (∀ (g : List PrepareNetfilterJob.NetworkItem) (raw : PrepareNetfilterJob.RawJobConfiguration)
       (cfg : PrepareNetfilterJob.JobConfiguration) (rI rU : JobResult) (stI stU : CommandsState),
      PrepareNetfilterJob.validateConfiguration raw = .ok cfg →
      PrepareNetfilterJob.execute "install" g raw = (.ok rI, stI) →
      PrepareNetfilterJob.execute "uninstall" g raw = (.ok rU, stU) →
      ((↑(projectOps destroyedIdSel rU.securityCommands) : Multiset (List Char))
          = ↑(projectOps createdIdSel rI.securityCommands)
       ∧ (↑(projectOps deletedLinkSel rU.securityCommands) : Multiset (List Char))
          = ↑(projectOps insertedLinkSel rI.securityCommands)
       ∧ (↑(projectOps flushedChainIdSel rU.securityCommands) : Multiset (List Char))
          = ↑(projectOps createdChainIdSel rI.securityCommands)))
    ∧ (∀ (cjn : Option String) (raw : GenericServiceJob.RawJobConfiguration)
        (cfg : GenericServiceJob.JobConfiguration) (rI rU : JobResult) (stI stU : CommandsState),
      GenericServiceJob.validateConfiguration raw = .ok cfg →
      GenericServiceJob.execute "install" cjn raw = (.ok rI, stI) →
      GenericServiceJob.execute "uninstall" cjn raw = (.ok rU, stU) →
      ((↑(projectOps destroyedIdSel rU.securityCommands) : Multiset (List Char))
          = ↑(projectOps createdIdSel rI.securityCommands)
       ∧ (↑(projectOps deletedLinkSel rU.securityCommands) : Multiset (List Char))
          = ↑(projectOps insertedLinkSel rI.securityCommands)
       ∧ (↑(projectOps flushedChainIdSel rU.securityCommands) : Multiset (List Char))
          = ↑(projectOps createdChainIdSel rI.securityCommands)))
    ∧ (∀ (raw : DockerDnsServiceJob.RawJobConfiguration)
        (cfg : DockerDnsServiceJob.JobConfiguration) (rI rU : JobResult) (stI stU : CommandsState),
      DockerDnsServiceJob.validateConfiguration raw = .ok cfg →
      DockerDnsServiceJob.execute "install" raw = (.ok rI, stI) →
      DockerDnsServiceJob.execute "uninstall" raw = (.ok rU, stU) →
      ((↑(projectOps destroyedIdSel rU.securityCommands) : Multiset (List Char))
          = ↑(projectOps createdIdSel rI.securityCommands)
       ∧ (↑(projectOps deletedLinkSel rU.securityCommands) : Multiset (List Char))
          = ↑(projectOps insertedLinkSel rI.securityCommands)
       ∧ (↑(projectOps flushedChainIdSel rU.securityCommands) : Multiset (List Char))
          = ↑(projectOps createdChainIdSel rI.securityCommands))) := by
  refine ⟨?_, ?_, ?_⟩
  · intro g raw cfg rI rU stI stU hval hI hU
    rw [PrepareNetfilterJob.prep_execute_install_eq g raw cfg hval] at hI
    rw [PrepareNetfilterJob.prep_execute_uninstall_eq g raw cfg hval] at hU
    simp only [Prod.mk.injEq, Except.ok.injEq] at hI hU
    obtain ⟨hI1, -⟩ := hI
    obtain ⟨hU1, -⟩ := hU
    subst hI1
    subst hU1
    refine ⟨?_, ?_, ?_⟩
    · show (↑(projectOps destroyedIdSel (PrepareNetfilterJob.unInstallTranscript cfg)) : Multiset (List Char))
        = ↑(projectOps createdIdSel (PrepareNetfilterJob.installTranscript g cfg))
      rw [prepUninstallDestroys cfg, prepInstallCreates g cfg]
      decide
    · show (↑(projectOps deletedLinkSel (PrepareNetfilterJob.unInstallTranscript cfg)) : Multiset (List Char))
        = ↑(projectOps insertedLinkSel (PrepareNetfilterJob.installTranscript g cfg))
      rw [prepUninstallDelLinks cfg, prepInstallInsLinks g cfg]
    · show (↑(projectOps flushedChainIdSel (PrepareNetfilterJob.unInstallTranscript cfg)) : Multiset (List Char))
        = ↑(projectOps createdChainIdSel (PrepareNetfilterJob.installTranscript g cfg))
      rw [prepUninstallFlushes cfg, prepInstallChainCreates g cfg]
      decide
  · intro cjn raw cfg rI rU stI stU hval hI hU
    rw [GenericServiceJob.gen_execute_install_eq cjn raw cfg hval] at hI
    rw [GenericServiceJob.gen_execute_uninstall_eq cjn raw cfg hval] at hU
    simp only [Prod.mk.injEq, Except.ok.injEq] at hI hU
    obtain ⟨hI1, -⟩ := hI
    obtain ⟨hU1, -⟩ := hU
    subst hI1
    subst hU1
    refine ⟨?_, ?_, ?_⟩
    · show (↑(projectOps destroyedIdSel (GenericServiceJob.generateRulesUnInstall cjn)) : Multiset (List Char))
        = ↑(projectOps createdIdSel (GenericServiceJob.generateRulesInstall cjn cfg))
      rw [genUninstallDestroys cjn, genInstallCreates cjn cfg]
    · show (↑(projectOps deletedLinkSel (GenericServiceJob.generateRulesUnInstall cjn)) : Multiset (List Char))
        = ↑(projectOps insertedLinkSel (GenericServiceJob.generateRulesInstall cjn cfg))
      rw [genUninstallDelLinks cjn, genInstallInsLinks cjn cfg]
    · show (↑(projectOps flushedChainIdSel (GenericServiceJob.generateRulesUnInstall cjn)) : Multiset (List Char))
        = ↑(projectOps createdChainIdSel (GenericServiceJob.generateRulesInstall cjn cfg))
      rw [genUninstallFlushes cjn, genInstallChainCreates cjn cfg]
  · intro raw cfg rI rU stI stU hval hI hU
    rw [DockerDnsServiceJob.dock_execute_install_eq raw cfg hval] at hI
    rw [DockerDnsServiceJob.dock_execute_uninstall_eq raw cfg hval] at hU
    simp only [Prod.mk.injEq, Except.ok.injEq] at hI hU
    obtain ⟨hI1, -⟩ := hI
    obtain ⟨hU1, -⟩ := hU
    subst hI1
    subst hU1
    refine ⟨?_, ?_, ?_⟩
    · show (↑(projectOps destroyedIdSel (DockerDnsServiceJob.generateRulesUnInstall cfg)) : Multiset (List Char))
        = ↑(projectOps createdIdSel (DockerDnsServiceJob.generateRulesInstall cfg))
      rw [dockUninstallDestroys cfg, dockInstallCreates cfg]
    · show (↑(projectOps deletedLinkSel (DockerDnsServiceJob.generateRulesUnInstall cfg)) : Multiset (List Char))
        = ↑(projectOps insertedLinkSel (DockerDnsServiceJob.generateRulesInstall cfg))
      rw [dockUninstallDelLinks cfg, dockInstallInsLinks cfg]
      exact Multiset.coe_eq_coe.mpr List.perm_append_comm
    · show (↑(projectOps flushedChainIdSel (DockerDnsServiceJob.generateRulesUnInstall cfg)) : Multiset (List Char))
        = ↑(projectOps createdChainIdSel (DockerDnsServiceJob.generateRulesInstall cfg))
      rw [dockUninstallFlushes cfg, dockInstallChainCreates cfg]

/-- Sample prepare-netfilter policy (no interfaces) for the C2 witness. -/
def claim2PrepareRaw : PrepareNetfilterJob.RawJobConfiguration := ⟨some ⟨none, some []⟩⟩

/-- Validated form of `claim2PrepareRaw`. -/
def claim2PrepareCfg : PrepareNetfilterJob.JobConfiguration := ⟨⟨none, []⟩⟩

/-- Sample generic-service policy (no items) for the C2 witness. -/
def claim2GenericRaw : GenericServiceJob.RawJobConfiguration := ⟨none, some ⟨some []⟩⟩

/-- Validated form of `claim2GenericRaw`. -/
def claim2GenericCfg : GenericServiceJob.JobConfiguration := ⟨none, ⟨[]⟩⟩

/-- Sample docker-DNS policy (no items) for the C2 witness. -/
def claim2DockerRaw : DockerDnsServiceJob.RawJobConfiguration := ⟨none, some ⟨some []⟩⟩

/-- Validated form of `claim2DockerRaw`. -/
def claim2DockerCfg : DockerDnsServiceJob.JobConfiguration := ⟨none, ⟨[]⟩⟩

theorem claim2_symmetry_amended_witness :
    ((↑(projectOps destroyedIdSel (PrepareNetfilterJob.unInstallTranscript claim2PrepareCfg)) : Multiset (List Char))
        = ↑(projectOps createdIdSel (PrepareNetfilterJob.installTranscript [] claim2PrepareCfg))
     ∧ (↑(projectOps deletedLinkSel (PrepareNetfilterJob.unInstallTranscript claim2PrepareCfg)) : Multiset (List Char))
        = ↑(projectOps insertedLinkSel (PrepareNetfilterJob.installTranscript [] claim2PrepareCfg))
     ∧ (↑(projectOps flushedChainIdSel (PrepareNetfilterJob.unInstallTranscript claim2PrepareCfg)) : Multiset (List Char))
        = ↑(projectOps createdChainIdSel (PrepareNetfilterJob.installTranscript [] claim2PrepareCfg)))
    ∧ ((↑(projectOps destroyedIdSel (GenericServiceJob.generateRulesUnInstall none)) : Multiset (List Char))
        = ↑(projectOps createdIdSel (GenericServiceJob.generateRulesInstall none claim2GenericCfg))
     ∧ (↑(projectOps deletedLinkSel (GenericServiceJob.generateRulesUnInstall none)) : Multiset (List Char))
        = ↑(projectOps insertedLinkSel (GenericServiceJob.generateRulesInstall none claim2GenericCfg))
     ∧ (↑(projectOps flushedChainIdSel (GenericServiceJob.generateRulesUnInstall none)) : Multiset (List Char))
        = ↑(projectOps createdChainIdSel (GenericServiceJob.generateRulesInstall none claim2GenericCfg)))
    ∧ ((↑(projectOps destroyedIdSel (DockerDnsServiceJob.generateRulesUnInstall claim2DockerCfg)) : Multiset (List Char))
        = ↑(projectOps createdIdSel (DockerDnsServiceJob.generateRulesInstall claim2DockerCfg))
     ∧ (↑(projectOps deletedLinkSel (DockerDnsServiceJob.generateRulesUnInstall claim2DockerCfg)) : Multiset (List Char))
        = ↑(projectOps insertedLinkSel (DockerDnsServiceJob.generateRulesInstall claim2DockerCfg))
     ∧ (↑(projectOps flushedChainIdSel (DockerDnsServiceJob.generateRulesUnInstall claim2DockerCfg)) : Multiset (List Char))
        = ↑(projectOps createdChainIdSel (DockerDnsServiceJob.generateRulesInstall claim2DockerCfg))) :=
  have h := claim2_symmetry_amended
  ⟨h.1 [] claim2PrepareRaw claim2PrepareCfg
      ⟨PrepareNetfilterJob.installTranscript [] claim2PrepareCfg⟩
      ⟨PrepareNetfilterJob.unInstallTranscript claim2PrepareCfg⟩
      ⟨PrepareNetfilterJob.installTranscript [] claim2PrepareCfg,
       PrepareNetfilterJob.unInstallForward claim2PrepareCfg⟩
      ⟨PrepareNetfilterJob.installReverse [] claim2PrepareCfg,
       PrepareNetfilterJob.unInstallTranscript claim2PrepareCfg⟩
      (by decide) (by decide) (by decide),
   h.2.1 none claim2GenericRaw claim2GenericCfg
      ⟨GenericServiceJob.generateRulesInstall none claim2GenericCfg⟩
      ⟨GenericServiceJob.generateRulesUnInstall none⟩
      ⟨GenericServiceJob.generateRulesInstall none claim2GenericCfg,
       GenericServiceJob.generateRulesUnInstall none⟩
      ⟨GenericServiceJob.generateRulesInstall none claim2GenericCfg,
       GenericServiceJob.generateRulesUnInstall none⟩
      (by decide) (by decide) (by decide),
   h.2.2 claim2DockerRaw claim2DockerCfg
      ⟨DockerDnsServiceJob.generateRulesInstall claim2DockerCfg⟩
      ⟨DockerDnsServiceJob.generateRulesUnInstall claim2DockerCfg⟩
      ⟨DockerDnsServiceJob.generateRulesInstall claim2DockerCfg,
       DockerDnsServiceJob.generateRulesUnInstall claim2DockerCfg⟩
      ⟨DockerDnsServiceJob.generateRulesInstall claim2DockerCfg,
       DockerDnsServiceJob.generateRulesUnInstall claim2DockerCfg⟩
      (by decide) (by decide) (by decide)⟩

/-- C3: a policy that fails schema validation makes `execute` reject with the
validation error and produce no command at all: the result carries no
transcript and the `context.commands` lists stay empty, for all four jobs and
both directions. -/
theorem claim3_validation_gate :
    (∀ (d : String) (cjn : Option String) (raw : GenericServiceJob.RawJobConfiguration) (msg : String),
      (strToLower d = "install" ∨ strToLower d = "uninstall") →
      GenericServiceJob.validateConfiguration raw = .error msg →
      GenericServiceJob.execute d cjn raw =
        (.error (.validation ("Invalid configuration: " ++ msg)), ⟨[], []⟩))
    ∧ (∀ (d : String) (raw : DockerDnsServiceJob.RawJobConfiguration) (msg : String),
      (strToLower d = "install" ∨ strToLower d = "uninstall") →
      DockerDnsServiceJob.validateConfiguration raw = .error msg →
      DockerDnsServiceJob.execute d raw =
        (.error (.validation ("Invalid configuration: " ++ msg)), ⟨[], []⟩))
    ∧ (∀ (d : String) (g : List PrepareNetfilterJob.NetworkItem)
        (raw : PrepareNetfilterJob.RawJobConfiguration) (msg : String),
      (strToLower d = "install" ∨ strToLower d = "uninstall") →
      PrepareNetfilterJob.validateConfiguration raw = .error msg →
      PrepareNetfilterJob.execute d g raw =
        (.error (.validation ("Invalid configuration: " ++ msg)), ⟨[], []⟩))
    ∧ (∀ (d : String) (raw : SynchronizeBlacklistIps.RawJobConfiguration)
        (rows : List String) (msg : String),
      (strToLower d = "install" ∨ strToLower d = "uninstall") →
      SynchronizeBlacklistIps.validateConfiguration raw = .error msg →
      SynchronizeBlacklistIps.execute d raw rows =
        (.error (.validation ("Invalid configuration: " ++ msg)), ⟨[], []⟩)) := by
  refine ⟨?_, ?_, ?_, ?_⟩
  · intro d cjn raw msg hdir hval
    have hc : (["install", "uninstall"].contains (strToLower d)) = true := by
      rcases hdir with h | h <;> simp [h]
    simp [GenericServiceJob.execute, hc, hval]
    exact fun h => hdir.resolve_left h
  · intro d raw msg hdir hval
    have hc : (["install", "uninstall"].contains (strToLower d)) = true := by
      rcases hdir with h | h <;> simp [h]
    simp [DockerDnsServiceJob.execute, hc, hval]
    exact fun h => hdir.resolve_left h
  · intro d g raw msg hdir hval
    simp only [PrepareNetfilterJob.execute]
    rw [if_pos hdir, hval]
  · intro d raw rows msg hdir hval
    simp only [SynchronizeBlacklistIps.execute]
    rw [if_pos hdir, hval]

/-- A generic-service policy whose single item is missing the required
`portNumber`, used as the C3 witness input. -/
def claim3FailingRaw : GenericServiceJob.RawJobConfiguration :=
  ⟨none, some ⟨some [⟨none, some ["10.0.0.0/8"], some "tcp", none⟩]⟩⟩

theorem claim3_validation_gate_witness :
    GenericServiceJob.execute "install" none claim3FailingRaw =
      (.error (.validation ("Invalid configuration: "
        ++ "child \"portNumber\" fails because [\"portNumber\" is required]")), ⟨[], []⟩) :=
  claim3_validation_gate.1 "install" none claim3FailingRaw
    "child \"portNumber\" fails because [\"portNumber\" is required]"
    (Or.inl (by decide)) (by decide)

/-- C4: each job's `execute` rejects with the invalid-direction error exactly
when the lowercased direction token is neither `install` nor `uninstall`, and
in that case it rejects before any step has run: whatever the raw
configuration (even an invalid one), the result is the invalid-direction
error and both command lists are still empty. -/
theorem claim4_invalid_direction :
    (∀ (d : String) (g : List PrepareNetfilterJob.NetworkItem)
       (raw : PrepareNetfilterJob.RawJobConfiguration),
      ((∃ s, (PrepareNetfilterJob.execute d g raw).1 = .error (.invalidDirection s))
        ↔ (strToLower d ≠ "install" ∧ strToLower d ≠ "uninstall"))
      ∧ ((strToLower d ≠ "install" ∧ strToLower d ≠ "uninstall") →
        PrepareNetfilterJob.execute d g raw = (.error (.invalidDirection d), ⟨[], []⟩)))
    ∧ (∀ (d : String) (cjn : Option String) (raw : GenericServiceJob.RawJobConfiguration),
      ((∃ s, (GenericServiceJob.execute d cjn raw).1 = .error (.invalidDirection s))
        ↔ (strToLower d ≠ "install" ∧ strToLower d ≠ "uninstall"))
      ∧ ((strToLower d ≠ "install" ∧ strToLower d ≠ "uninstall") →
        GenericServiceJob.execute d cjn raw = (.error (.invalidDirection d), ⟨[], []⟩)))
    ∧ (∀ (d : String) (raw : DockerDnsServiceJob.RawJobConfiguration),
      ((∃ s, (DockerDnsServiceJob.execute d raw).1 = .error (.invalidDirection s))
        ↔ (strToLower d ≠ "install" ∧ strToLower d ≠ "uninstall"))
      ∧ ((strToLower d ≠ "install" ∧ strToLower d ≠ "uninstall") →
        DockerDnsServiceJob.execute d raw = (.error (.invalidDirection d), ⟨[], []⟩)))
    ∧ (∀ (d : String) (raw : SynchronizeBlacklistIps.RawJobConfiguration) (rows : List String),
      ((∃ s, (SynchronizeBlacklistIps.execute d raw rows).1 = .error (.invalidDirection s))
        ↔ (strToLower d ≠ "install" ∧ strToLower d ≠ "uninstall"))
      ∧ ((strToLower d ≠ "install" ∧ strToLower d ≠ "uninstall") →
        SynchronizeBlacklistIps.execute d raw rows = (.error (.invalidDirection d), ⟨[], []⟩))) := by
  refine ⟨?_, ?_, ?_, ?_⟩
  · intro d g raw
    by_cases hd : (strToLower d = "install" ∨ strToLower d = "uninstall")
    · constructor
      · constructor
        · intro ⟨s, hs⟩
          exfalso
          simp only [PrepareNetfilterJob.execute] at hs
          rw [if_pos hd] at hs
          cases hval : PrepareNetfilterJob.validateConfiguration raw with
          | error m => rw [hval] at hs; simp at hs
          | ok cfg => rw [hval] at hs; simp at hs
        · intro h
          rcases hd with h1 | h1
          · exact absurd h1 h.1
          · exact absurd h1 h.2
      · intro h
        rcases hd with h1 | h1
        · exact absurd h1 h.1
        · exact absurd h1 h.2
    · have hne := not_or.mp hd
      constructor
      · exact ⟨fun _ => hne, fun _ => ⟨d, by simp only [PrepareNetfilterJob.execute]; rw [if_neg hd]⟩⟩
      · intro _
        simp only [PrepareNetfilterJob.execute]
        rw [if_neg hd]
  · intro d cjn raw
    by_cases hd : (strToLower d = "install" ∨ strToLower d = "uninstall")
    · have hc : (["install", "uninstall"].contains (strToLower d)) = true := by
        rcases hd with h | h <;> simp [h]
      constructor
      · constructor
        · intro ⟨s, hs⟩
          exfalso
          simp only [GenericServiceJob.execute, hc] at hs
          cases hval : GenericServiceJob.validateConfiguration raw with
          | error m => rw [hval] at hs; simp at hs
          | ok cfg => rw [hval] at hs; simp at hs
        · intro h
          rcases hd with h1 | h1
          · exact absurd h1 h.1
          · exact absurd h1 h.2
      · intro h
        rcases hd with h1 | h1
        · exact absurd h1 h.1
        · exact absurd h1 h.2
    · have hne := not_or.mp hd
      have hc : (["install", "uninstall"].contains (strToLower d)) = false := by
        simp [hne.1, hne.2]
      constructor
      · exact ⟨fun _ => hne, fun _ => ⟨d, by simp only [GenericServiceJob.execute]; rw [if_pos hc]⟩⟩
      · intro _
        simp only [GenericServiceJob.execute]
        rw [if_pos hc]
  · intro d raw
    by_cases hd : (strToLower d = "install" ∨ strToLower d = "uninstall")
    · have hc : (["install", "uninstall"].contains (strToLower d)) = true := by
        rcases hd with h | h <;> simp [h]
      constructor
      · constructor
        · intro ⟨s, hs⟩
          exfalso
          simp only [DockerDnsServiceJob.execute, hc] at hs
          cases hval : DockerDnsServiceJob.validateConfiguration raw with
          | error m => rw [hval] at hs; simp at hs
          | ok cfg => rw [hval] at hs; simp at hs
        · intro h
          rcases hd with h1 | h1
          · exact absurd h1 h.1
          · exact absurd h1 h.2
      · intro h
        rcases hd with h1 | h1
        · exact absurd h1 h.1
        · exact absurd h1 h.2
    · have hne := not_or.mp hd
      have hc : (["install", "uninstall"].contains (strToLower d)) = false := by
        simp [hne.1, hne.2]
      constructor
      · exact ⟨fun _ => hne, fun _ => ⟨d, by simp only [DockerDnsServiceJob.execute]; rw [if_pos hc]⟩⟩
      · intro _
        simp only [DockerDnsServiceJob.execute]
        rw [if_pos hc]
  · intro d raw rows
    by_cases hd : (strToLower d = "install" ∨ strToLower d = "uninstall")
    · constructor
      · constructor
        · intro ⟨s, hs⟩
          exfalso
          simp only [SynchronizeBlacklistIps.execute] at hs
          rw [if_pos hd] at hs
          cases hval : SynchronizeBlacklistIps.validateConfiguration raw with
          | error m => rw [hval] at hs; simp at hs
          | ok cfg => rw [hval] at hs; simp at hs
        · intro h
          rcases hd with h1 | h1
          · exact absurd h1 h.1
          · exact absurd h1 h.2
      · intro h
        rcases hd with h1 | h1
        · exact absurd h1 h.1
        · exact absurd h1 h.2
    · have hne := not_or.mp hd
      constructor
      · exact ⟨fun _ => hne, fun _ => ⟨d, by simp only [SynchronizeBlacklistIps.execute]; rw [if_neg hd]⟩⟩
      · intro _
        simp only [SynchronizeBlacklistIps.execute]
        rw [if_neg hd]

theorem claim4_invalid_direction_witness :
    PrepareNetfilterJob.execute "reinstall" [] claim2PrepareRaw
      = (.error (.invalidDirection "reinstall"), ⟨[], []⟩)
    ∧ GenericServiceJob.execute "reinstall" none claim2GenericRaw
      = (.error (.invalidDirection "reinstall"), ⟨[], []⟩)
    ∧ DockerDnsServiceJob.execute "reinstall" claim2DockerRaw
      = (.error (.invalidDirection "reinstall"), ⟨[], []⟩)
    ∧ SynchronizeBlacklistIps.execute "reinstall" claim2BlacklistRaw []
      = (.error (.invalidDirection "reinstall"), ⟨[], []⟩) :=
  ⟨((claim4_invalid_direction.1 "reinstall" [] claim2PrepareRaw).2 (by decide)),
   ((claim4_invalid_direction.2.1 "reinstall" none claim2GenericRaw).2 (by decide)),
   ((claim4_invalid_direction.2.2.1 "reinstall" claim2DockerRaw).2 (by decide)),
   ((claim4_invalid_direction.2.2.2 "reinstall" claim2BlacklistRaw []).2 (by decide))⟩

/-- Validated form of `claim2BlacklistRaw`. -/
def claim2BlacklistCfg : SynchronizeBlacklistIps.JobConfiguration :=
  ⟨⟨"postgres://localhost/security"⟩⟩

/-- C10: a direction token whose lowercase form is `install` but which is not
exactly the string `install` (e.g. `INSTALL`) is accepted — the lowercased
membership test passes — yet the final transcript selection compares the
original token to `'install'` case-sensitively, so every job returns the
accumulated uninstall command list instead of the install list. -/
theorem claim10_case_mismatch :
    (∀ (d : String) (g : List PrepareNetfilterJob.NetworkItem)
       (raw : PrepareNetfilterJob.RawJobConfiguration) (cfg : PrepareNetfilterJob.JobConfiguration),
      strToLower d = "install" → d ≠ "install" →
      PrepareNetfilterJob.validateConfiguration raw = .ok cfg →
      PrepareNetfilterJob.execute d g raw =
        (.ok ⟨PrepareNetfilterJob.unInstallForward cfg⟩,
         ⟨PrepareNetfilterJob.installTranscript g cfg, PrepareNetfilterJob.unInstallForward cfg⟩))
    ∧ (∀ (d : String) (cjn : Option String) (raw : GenericServiceJob.RawJobConfiguration)
        (cfg : GenericServiceJob.JobConfiguration),
      strToLower d = "install" → d ≠ "install" →
      GenericServiceJob.validateConfiguration raw = .ok cfg →
      GenericServiceJob.execute d cjn raw =
        (.ok ⟨GenericServiceJob.generateRulesUnInstall cjn⟩,
         ⟨GenericServiceJob.generateRulesInstall cjn cfg, GenericServiceJob.generateRulesUnInstall cjn⟩))
    ∧ (∀ (d : String) (raw : DockerDnsServiceJob.RawJobConfiguration)
        (cfg : DockerDnsServiceJob.JobConfiguration),
      strToLower d = "install" → d ≠ "install" →
      DockerDnsServiceJob.validateConfiguration raw = .ok cfg →
      DockerDnsServiceJob.execute d raw =
        (.ok ⟨DockerDnsServiceJob.generateRulesUnInstall cfg⟩,
         ⟨DockerDnsServiceJob.generateRulesInstall cfg, DockerDnsServiceJob.generateRulesUnInstall cfg⟩))
    ∧ (∀ (d : String) (raw : SynchronizeBlacklistIps.RawJobConfiguration)
        (cfg : SynchronizeBlacklistIps.JobConfiguration) (rows : List String),
      strToLower d = "install" → d ≠ "install" →
      SynchronizeBlacklistIps.validateConfiguration raw = .ok cfg →
      SynchronizeBlacklistIps.execute d raw rows =
        (.ok ⟨[{ type := "ipset", value := "flush block_net" }]⟩,
         SynchronizeBlacklistIps.fetchNetworksState rows)) := by
  refine ⟨?_, ?_, ?_, ?_⟩
  · intro d g raw cfg hlow hne hval
    simp only [PrepareNetfilterJob.execute]
    rw [if_pos (Or.inl hlow)]
    rw [hval]
    simp [hlow, hne, selectTranscript, PrepareNetfilterJob.runSteps_installOrder]
  · intro d cjn raw cfg hlow hne hval
    have hc : (["install", "uninstall"].contains (strToLower d)) = true := by simp [hlow]
    simp only [GenericServiceJob.execute]
    rw [if_neg (by simp [hlow])]
    rw [hval]
    simp [hlow, hne, runSteps, selectTranscript]
  · intro d raw cfg hlow hne hval
    have hc : (["install", "uninstall"].contains (strToLower d)) = true := by simp [hlow]
    simp only [DockerDnsServiceJob.execute]
    rw [if_neg (by simp [hlow])]
    rw [hval]
    simp [hlow, hne, runSteps, selectTranscript]
  · intro d raw cfg rows hlow hne hval
    simp only [SynchronizeBlacklistIps.execute]
    rw [if_pos (Or.inl hlow)]
    rw [hval]
    simp [hne, selectTranscript, SynchronizeBlacklistIps.fetchNetworksState]

theorem claim10_case_mismatch_witness :
    PrepareNetfilterJob.execute "INSTALL" [] claim2PrepareRaw =
      (.ok ⟨PrepareNetfilterJob.unInstallForward claim2PrepareCfg⟩,
       ⟨PrepareNetfilterJob.installTranscript [] claim2PrepareCfg,
        PrepareNetfilterJob.unInstallForward claim2PrepareCfg⟩)
    ∧ GenericServiceJob.execute "INSTALL" none claim2GenericRaw =
      (.ok ⟨GenericServiceJob.generateRulesUnInstall none⟩,
       ⟨GenericServiceJob.generateRulesInstall none claim2GenericCfg,
        GenericServiceJob.generateRulesUnInstall none⟩)
    ∧ DockerDnsServiceJob.execute "INSTALL" claim2DockerRaw =
      (.ok ⟨DockerDnsServiceJob.generateRulesUnInstall claim2DockerCfg⟩,
       ⟨DockerDnsServiceJob.generateRulesInstall claim2DockerCfg,
        DockerDnsServiceJob.generateRulesUnInstall claim2DockerCfg⟩)
    ∧ SynchronizeBlacklistIps.execute "INSTALL" claim2BlacklistRaw ["10.0.0.0/8"] =
      (.ok ⟨[{ type := "ipset", value := "flush block_net" }]⟩,
       SynchronizeBlacklistIps.fetchNetworksState ["10.0.0.0/8"]) :=
  ⟨claim10_case_mismatch.1 "INSTALL" [] claim2PrepareRaw claim2PrepareCfg
      (by decide) (by decide) (by decide),
   claim10_case_mismatch.2.1 "INSTALL" none claim2GenericRaw claim2GenericCfg
      (by decide) (by decide) (by decide),
   claim10_case_mismatch.2.2.1 "INSTALL" claim2DockerRaw claim2DockerCfg
      (by decide) (by decide) (by decide),
   claim10_case_mismatch.2.2.2 "INSTALL" claim2BlacklistRaw claim2BlacklistCfg ["10.0.0.0/8"]
      (by decide) (by decide) (by decide)⟩

theorem filter_ptwise {α : Type} (l : List α) (p q : α → Bool)
    (h : ∀ a, p a = q a) : l.filter p = l.filter q := by
  congr 1
  funext a
  exact h a

theorem filter_const_true {α : Type} (l : List α) :
    l.filter (fun _ => true) = l := by
  induction l with
  | nil => rfl
  | cons a as ih => simp [List.filter_cons, ih]

/-- A command is a `trusted_net` set-add command. -/
def isTrustedAddCommand (c : SecurityCommand) : Bool :=
  c.type == "ipset" && chPfx "-! add trusted_net ".data c.value.data

theorem filter_flatMap {α β : Type} (p : β → Bool) (g : α → List β) (l : List α) :
    (l.flatMap g).filter p = l.flatMap (fun a => (g a).filter p) := by
  induction l with
  | nil => rfl
  | cons a as ih => simp [List.flatMap_cons, List.filter_append, ih]

/-- C5: in the netfilter-preparation install transcript the `trusted_net`
set-add commands are exactly the global trusted networks followed by the
job-local trusted networks, each group in its own order. -/
theorem claim5_trusted_order (g : List PrepareNetfilterJob.NetworkItem)
    (raw : PrepareNetfilterJob.RawJobConfiguration) (cfg : PrepareNetfilterJob.JobConfiguration)
    (rI : JobResult) (stI : CommandsState)
    (hval : PrepareNetfilterJob.validateConfiguration raw = .ok cfg)
    (hI : PrepareNetfilterJob.execute "install" g raw = (.ok rI, stI)) :
    rI.securityCommands.filter isTrustedAddCommand
      = (g ++ cfg.network.trustedItems.getD []).map
          (fun network => asIpSetCommand ("-! add trusted_net " ++ network.value)) := by
  rw [PrepareNetfilterJob.prep_execute_install_eq g raw cfg hval] at hI
  simp only [Prod.mk.injEq, Except.ok.injEq] at hI
  obtain ⟨hI1, -⟩ := hI
  subst hI1
  show (PrepareNetfilterJob.installTranscript g cfg).filter isTrustedAddCommand = _
  have hadds : List.filter isTrustedAddCommand
      ((g ++ cfg.network.trustedItems.getD []).map
        (fun network => asIpSetCommand ("-! add trusted_net " ++ network.value)))
      = (g ++ cfg.network.trustedItems.getD []).map
          (fun network => asIpSetCommand ("-! add trusted_net " ++ network.value)) := by
    rw [List.filter_map]
    rw [filter_ptwise _ _ (fun _ => true)
      (by intro a; simp [Function.comp, isTrustedAddCommand, asIpSetCommand, chPfx])]
    rw [filter_const_true]
  simp only [PrepareNetfilterJob.installTranscript,
    PrepareNetfilterJob.generateTrustedNetworkChainInstall, List.append_assoc,
    List.filter_append, hadds]
  simp [PrepareNetfilterJob.generateVitalAccessChainInstall,
    PrepareNetfilterJob.generateBlockNetworkChainInstall,
    PrepareNetfilterJob.generateServiceAccessChainInstall,
    PrepareNetfilterJob.generateRootAccessChainsInstall,
    isTrustedAddCommand, asIptables4Command, asIpSetCommand, chPfx,
    List.filter_append, filter_flatMap, flatMap_const_nil, List.filter_map, Function.comp]

/-- Globals `[A, B]` for the C5 witness. -/
def claim5Globals : List PrepareNetfilterJob.NetworkItem :=
  [⟨"10.1.0.0/16", none⟩, ⟨"10.2.0.0/16", none⟩]

/-- Job-local trusted `[C]` for the C5 witness. -/
def claim5Raw : PrepareNetfilterJob.RawJobConfiguration :=
  ⟨some ⟨some [⟨some "10.3.0.0/16", none⟩], some []⟩⟩

/-- Validated form of `claim5Raw`. -/
def claim5Cfg : PrepareNetfilterJob.JobConfiguration :=
  ⟨⟨some [⟨"10.3.0.0/16", none⟩], []⟩⟩

theorem claim5_trusted_order_witness :
    (PrepareNetfilterJob.installTranscript claim5Globals claim5Cfg).filter isTrustedAddCommand
      = [asIpSetCommand "-! add trusted_net 10.1.0.0/16",
         asIpSetCommand "-! add trusted_net 10.2.0.0/16",
         asIpSetCommand "-! add trusted_net 10.3.0.0/16"] :=
  (claim5_trusted_order claim5Globals claim5Raw claim5Cfg
    ⟨PrepareNetfilterJob.installTranscript claim5Globals claim5Cfg⟩
    ⟨PrepareNetfilterJob.installTranscript claim5Globals claim5Cfg,
     PrepareNetfilterJob.unInstallForward claim5Cfg⟩
    (by decide) (by decide)).trans (by decide)

/-- The C6 scenario policy: one item with port 443, protocol tcp and two
source networks. -/
def claim6Raw : GenericServiceJob.RawJobConfiguration :=
  ⟨none, some ⟨some [⟨some 443, some ["10.0.0.0/8", "10.1.0.0/16"], some "tcp", none⟩]⟩⟩

/-- Validated form of `claim6Raw`. -/
def claim6Cfg : GenericServiceJob.JobConfiguration :=
  ⟨none, ⟨[⟨443, some ["10.0.0.0/8", "10.1.0.0/16"], "tcp", none⟩]⟩⟩

/-- C6: the generic service job's install transcript has the fixed structural
order chain-create, then per-item content (one ACCEPT per source network, or
a single source-agnostic ACCEPT when the source list is absent or empty),
then the terminal RETURNs, then the activations at head position (priority 1)
of the shared services-access chain; at the concrete scenario policy the
returned transcript is exactly the listed eight commands. -/
theorem claim6_service_scenario :
    (∀ (cjn : Option String) (raw : GenericServiceJob.RawJobConfiguration)
       (cfg : GenericServiceJob.JobConfiguration) (rI : JobResult) (stI : CommandsState),
      GenericServiceJob.validateConfiguration raw = .ok cfg →
      GenericServiceJob.execute "install" cjn raw = (.ok rI, stI) →
      (rI.securityCommands =
        [asIptables4Command ("-N IN_" ++ jsStringOr cjn GenericServiceJob.getServiceChainName),
         asIptables4Command ("-N OUT_" ++ jsStringOr cjn GenericServiceJob.getServiceChainName)]
        ++ cfg.network.items.flatMap
            (GenericServiceJob.itemAcceptCommands (jsStringOr cjn GenericServiceJob.getServiceChainName))
        ++ [asIptables4Command ("-A IN_" ++ jsStringOr cjn GenericServiceJob.getServiceChainName ++ " -j RETURN"),
            asIptables4Command ("-A OUT_" ++ jsStringOr cjn GenericServiceJob.getServiceChainName ++ " -j RETURN"),
            asIptables4Command ("-I IN_services_access_0 1 -j IN_" ++ jsStringOr cjn GenericServiceJob.getServiceChainName),
            asIptables4Command ("-I OUT_services_access_0 1 -j OUT_" ++ jsStringOr cjn GenericServiceJob.getServiceChainName)]
       ∧ ∀ item : GenericServiceJob.ServiceItem,
          (GenericServiceJob.itemAcceptCommands (jsStringOr cjn GenericServiceJob.getServiceChainName) item).length
            = if item.sourceNetworks.getD [] = [] then 1 else (item.sourceNetworks.getD []).length))
    ∧ GenericServiceJob.execute "install" none claim6Raw =
        (.ok ⟨[asIptables4Command "-N IN_genericServiceName",
               asIptables4Command "-N OUT_genericServiceName",
               asIptables4Command "-A IN_genericServiceName -s 10.0.0.0/8  -p tcp --sport 1024:65535 --dport 443 -j ACCEPT",
               asIptables4Command "-A IN_genericServiceName -s 10.1.0.0/16  -p tcp --sport 1024:65535 --dport 443 -j ACCEPT",
               asIptables4Command "-A IN_genericServiceName -j RETURN",
               asIptables4Command "-A OUT_genericServiceName -j RETURN",
               asIptables4Command "-I IN_services_access_0 1 -j IN_genericServiceName",
               asIptables4Command "-I OUT_services_access_0 1 -j OUT_genericServiceName"]⟩,
         ⟨[asIptables4Command "-N IN_genericServiceName",
           asIptables4Command "-N OUT_genericServiceName",
           asIptables4Command "-A IN_genericServiceName -s 10.0.0.0/8  -p tcp --sport 1024:65535 --dport 443 -j ACCEPT",
           asIptables4Command "-A IN_genericServiceName -s 10.1.0.0/16  -p tcp --sport 1024:65535 --dport 443 -j ACCEPT",
           asIptables4Command "-A IN_genericServiceName -j RETURN",
           asIptables4Command "-A OUT_genericServiceName -j RETURN",
           asIptables4Command "-I IN_services_access_0 1 -j IN_genericServiceName",
           asIptables4Command "-I OUT_services_access_0 1 -j OUT_genericServiceName"],
          [asIptables4Command "-D IN_services_access_0 -j IN_genericServiceName",
           asIptables4Command "-D OUT_services_access_0 -j OUT_genericServiceName",
           asIptables4Command "-F IN_genericServiceName",
           asIptables4Command "-X IN_genericServiceName",
           asIptables4Command "-F OUT_genericServiceName",
           asIptables4Command "-X OUT_genericServiceName"]⟩) := by
  constructor
  · intro cjn raw cfg rI stI hval hI
    rw [GenericServiceJob.gen_execute_install_eq cjn raw cfg hval] at hI
    simp only [Prod.mk.injEq, Except.ok.injEq] at hI
    obtain ⟨hI1, -⟩ := hI
    subst hI1
    constructor
    · show GenericServiceJob.generateRulesInstall cjn cfg = _
      simp [GenericServiceJob.generateRulesInstall]
    · intro item
      by_cases hsrc : item.sourceNetworks.getD [] = []
      · simp [GenericServiceJob.itemAcceptCommands, hsrc]
      · have hlen : (item.sourceNetworks.getD []).length ≠ 0 := by
          simpa [List.length_eq_zero] using hsrc
        simp [GenericServiceJob.itemAcceptCommands, hsrc, hlen]
  · decide

/-- The transcript the C6 scenario produces. -/
def claim6Result : JobResult :=
  ⟨[asIptables4Command "-N IN_genericServiceName",
    asIptables4Command "-N OUT_genericServiceName",
    asIptables4Command "-A IN_genericServiceName -s 10.0.0.0/8  -p tcp --sport 1024:65535 --dport 443 -j ACCEPT",
    asIptables4Command "-A IN_genericServiceName -s 10.1.0.0/16  -p tcp --sport 1024:65535 --dport 443 -j ACCEPT",
    asIptables4Command "-A IN_genericServiceName -j RETURN",
    asIptables4Command "-A OUT_genericServiceName -j RETURN",
    asIptables4Command "-I IN_services_access_0 1 -j IN_genericServiceName",
    asIptables4Command "-I OUT_services_access_0 1 -j OUT_genericServiceName"]⟩

/-- The context state the C6 scenario leaves behind. -/
def claim6State : CommandsState :=
  ⟨claim6Result.securityCommands,
   [asIptables4Command "-D IN_services_access_0 -j IN_genericServiceName",
    asIptables4Command "-D OUT_services_access_0 -j OUT_genericServiceName",
    asIptables4Command "-F IN_genericServiceName",
    asIptables4Command "-X IN_genericServiceName",
    asIptables4Command "-F OUT_genericServiceName",
    asIptables4Command "-X OUT_genericServiceName"]⟩

/-- The single configured item of the C6 scenario. -/
def claim6Item : GenericServiceJob.ServiceItem :=
  ⟨443, some ["10.0.0.0/8", "10.1.0.0/16"], "tcp", none⟩

/-- Witness for C6 at the concrete 443/tcp/two-source policy. -/
theorem claim6_service_scenario_witness :
    GenericServiceJob.validateConfiguration claim6Raw = .ok claim6Cfg ∧
    GenericServiceJob.execute "install" none claim6Raw = (.ok claim6Result, claim6State) ∧
    claim6Result.securityCommands =
      [asIptables4Command ("-N IN_" ++ jsStringOr none GenericServiceJob.getServiceChainName),
       asIptables4Command ("-N OUT_" ++ jsStringOr none GenericServiceJob.getServiceChainName)]
      ++ claim6Cfg.network.items.flatMap
          (GenericServiceJob.itemAcceptCommands (jsStringOr none GenericServiceJob.getServiceChainName))
      ++ [asIptables4Command ("-A IN_" ++ jsStringOr none GenericServiceJob.getServiceChainName ++ " -j RETURN"),
          asIptables4Command ("-A OUT_" ++ jsStringOr none GenericServiceJob.getServiceChainName ++ " -j RETURN"),
          asIptables4Command ("-I IN_services_access_0 1 -j IN_" ++ jsStringOr none GenericServiceJob.getServiceChainName),
          asIptables4Command ("-I OUT_services_access_0 1 -j OUT_" ++ jsStringOr none GenericServiceJob.getServiceChainName)] ∧
    (GenericServiceJob.itemAcceptCommands (jsStringOr none GenericServiceJob.getServiceChainName) claim6Item).length
      = if claim6Item.sourceNetworks.getD [] = [] then 1 else (claim6Item.sourceNetworks.getD []).length := by
  have hI : GenericServiceJob.execute "install" none claim6Raw = (.ok claim6Result, claim6State) := by
    decide
  have h := claim6_service_scenario.1 none claim6Raw claim6Cfg claim6Result claim6State (by decide) hI
  exact ⟨by decide, hI, h.1, h.2 claim6Item⟩

/-- C7: for the docker DNS job, each configured mapping contributes exactly
six install commands in the fixed order NAT-redirect TCP, NAT-redirect UDP,
FORWARD-accept TCP, FORWARD-accept UDP, DNS-chain-accept TCP,
DNS-chain-accept UDP, placed in the transcript between the chain creations
and the terminal/activation block; and validation gives a mapping that omits
`sourcePortNumber` the default 53 before any command is generated. -/
theorem claim7_docker_six_per_mapping :
    (∀ (raw : DockerDnsServiceJob.RawJobConfiguration)
       (cfg : DockerDnsServiceJob.JobConfiguration) (rI : JobResult) (stI : CommandsState),
      DockerDnsServiceJob.validateConfiguration raw = .ok cfg →
      DockerDnsServiceJob.execute "install" raw = (.ok rI, stI) →
      (rI.securityCommands =
        [asIptables4Command ("-N IN_dns_" ++ jsStringOr cfg.chainName DockerDnsServiceJob.getServiceChainName),
         asIptables4Command ("-N OUT_dns_" ++ jsStringOr cfg.chainName DockerDnsServiceJob.getServiceChainName)]
        ++ cfg.network.items.flatMap
            (DockerDnsServiceJob.itemInstallCommands (jsStringOr cfg.chainName DockerDnsServiceJob.getServiceChainName))
        ++ [asIptables4Command ("-A IN_dns_" ++ jsStringOr cfg.chainName DockerDnsServiceJob.getServiceChainName ++ " -j RETURN"),
            asIptables4Command ("-A OUT_dns_" ++ jsStringOr cfg.chainName DockerDnsServiceJob.getServiceChainName ++ " -j RETURN"),
            asIptables4Command ("-I IN_services_access_0 1 -j IN_dns_" ++ jsStringOr cfg.chainName DockerDnsServiceJob.getServiceChainName),
            asIptables4Command ("-I OUT_services_access_0 1 -j OUT_dns_" ++ jsStringOr cfg.chainName DockerDnsServiceJob.getServiceChainName)]
       ∧ ∀ item : DockerDnsServiceJob.DnsItem,
          DockerDnsServiceJob.itemInstallCommands
              (jsStringOr cfg.chainName DockerDnsServiceJob.getServiceChainName) item =
            [asIptables4Command ("-I PREROUTING 1 -t nat -i " ++ item.sourceLinkName ++ " -p tcp -d " ++ item.sourceIpAddress ++ " --dport " ++ toString item.sourcePortNumber ++ " -j DNAT --to " ++ DockerDnsServiceJob.jsInterpolate item.destinationIpAddress ++ ":" ++ toString item.destinationPortNumber),
             asIptables4Command ("-I PREROUTING 1 -t nat -i " ++ item.sourceLinkName ++ " -p udp -d " ++ item.sourceIpAddress ++ " --dport " ++ toString item.sourcePortNumber ++ " -j DNAT --to " ++ DockerDnsServiceJob.jsInterpolate item.destinationIpAddress ++ ":" ++ toString item.destinationPortNumber),
             asIptables4Command ("-I FORWARD 1 -p tcp -d " ++ DockerDnsServiceJob.jsInterpolate item.destinationIpAddress ++ " --dport " ++ toString item.destinationPortNumber ++ " -j ACCEPT"),
             asIptables4Command ("-I FORWARD 1 -p udp -d " ++ DockerDnsServiceJob.jsInterpolate item.destinationIpAddress ++ " --dport " ++ toString item.destinationPortNumber ++ " -j ACCEPT"),
             asIptables4Command ("-A IN_dns_" ++ jsStringOr cfg.chainName DockerDnsServiceJob.getServiceChainName ++ " -p tcp -d " ++ item.sourceIpAddress ++ " --dport " ++ toString item.sourcePortNumber ++ " -j ACCEPT"),
             asIptables4Command ("-A IN_dns_" ++ jsStringOr cfg.chainName DockerDnsServiceJob.getServiceChainName ++ " -p udp -d " ++ item.sourceIpAddress ++ " --dport " ++ toString item.sourcePortNumber ++ " -j ACCEPT")]))
    ∧ (∀ (it : DockerDnsServiceJob.RawDnsItem) (v : DockerDnsServiceJob.DnsItem),
        DockerDnsServiceJob.validateDnsItem it = .ok v →
        v.sourcePortNumber = it.sourcePortNumber.getD 53) := by
  constructor
  · intro raw cfg rI stI hval hI
    rw [DockerDnsServiceJob.dock_execute_install_eq raw cfg hval] at hI
    simp only [Prod.mk.injEq, Except.ok.injEq] at hI
    obtain ⟨hI1, -⟩ := hI
    subst hI1
    refine ⟨?_, fun item => rfl⟩
    show DockerDnsServiceJob.generateRulesInstall cfg = _
    simp [DockerDnsServiceJob.generateRulesInstall]
  · intro it v h
    rw [DockerDnsServiceJob.validateDnsItem] at h
    split at h
    · simp at h
    · split at h
      · simp at h
      · split at h
        · simp at h
        · have h2 := Except.ok.inj h
          subst h2
          rfl

/-- The C7 raw mapping: `sourcePortNumber` omitted. -/
def claim7RawItem : DockerDnsServiceJob.RawDnsItem :=
  ⟨none, some "docker0", some "172.17.0.1", some 5353, some "10.0.0.2"⟩

/-- The C7 validated mapping: `sourcePortNumber` defaulted to 53. -/
def claim7Item : DockerDnsServiceJob.DnsItem :=
  ⟨53, "docker0", "172.17.0.1", 5353, some "10.0.0.2"⟩

/-- The C7 raw policy: one mapping, explicit chain name `d0`. -/
def claim7Raw : DockerDnsServiceJob.RawJobConfiguration :=
  ⟨some "d0", some ⟨some [claim7RawItem]⟩⟩

/-- Validated form of `claim7Raw`. -/
def claim7Cfg : DockerDnsServiceJob.JobConfiguration :=
  ⟨some "d0", ⟨[claim7Item]⟩⟩

/-- The transcript the C7 scenario produces on install. -/
def claim7Result : JobResult :=
  ⟨[asIptables4Command "-N IN_dns_d0",
    asIptables4Command "-N OUT_dns_d0",
    asIptables4Command "-I PREROUTING 1 -t nat -i docker0 -p tcp -d 172.17.0.1 --dport 53 -j DNAT --to 10.0.0.2:5353",
    asIptables4Command "-I PREROUTING 1 -t nat -i docker0 -p udp -d 172.17.0.1 --dport 53 -j DNAT --to 10.0.0.2:5353",
    asIptables4Command "-I FORWARD 1 -p tcp -d 10.0.0.2 --dport 5353 -j ACCEPT",
    asIptables4Command "-I FORWARD 1 -p udp -d 10.0.0.2 --dport 5353 -j ACCEPT",
    asIptables4Command "-A IN_dns_d0 -p tcp -d 172.17.0.1 --dport 53 -j ACCEPT",
    asIptables4Command "-A IN_dns_d0 -p udp -d 172.17.0.1 --dport 53 -j ACCEPT",
    asIptables4Command "-A IN_dns_d0 -j RETURN",
    asIptables4Command "-A OUT_dns_d0 -j RETURN",
    asIptables4Command "-I IN_services_access_0 1 -j IN_dns_d0",
    asIptables4Command "-I OUT_services_access_0 1 -j OUT_dns_d0"]⟩

/-- The context state the C7 scenario leaves behind. -/
def claim7State : CommandsState :=
  ⟨claim7Result.securityCommands,
   [asIptables4Command "-D IN_services_access_0 -j IN_dns_d0",
    asIptables4Command "-D OUT_services_access_0 -j OUT_dns_d0",
    asIptables4Command "-F IN_dns_d0",
    asIptables4Command "-X IN_dns_d0",
    asIptables4Command "-F OUT_dns_d0",
    asIptables4Command "-X OUT_dns_d0",
    asIptables4Command "-D PREROUTING -t nat -i docker0 -p tcp -d 172.17.0.1 --dport 53 -j DNAT --to 10.0.0.2:5353",
    asIptables4Command "-D PREROUTING -t nat -i docker0 -p udp -d 172.17.0.1 --dport 53 -j DNAT --to 10.0.0.2:5353",
    asIptables4Command "-D FORWARD -p tcp -d 10.0.0.2 --dport 5353 -j ACCEPT",
    asIptables4Command "-D FORWARD -p udp -d 10.0.0.2 --dport 5353 -j ACCEPT"]⟩

/-- Witness for C7 at a one-mapping policy omitting the source port. -/
theorem claim7_docker_six_per_mapping_witness :
    DockerDnsServiceJob.validateConfiguration claim7Raw = .ok claim7Cfg ∧
    DockerDnsServiceJob.execute "install" claim7Raw = (.ok claim7Result, claim7State) ∧
    claim7Result.securityCommands =
      [asIptables4Command ("-N IN_dns_" ++ jsStringOr claim7Cfg.chainName DockerDnsServiceJob.getServiceChainName),
       asIptables4Command ("-N OUT_dns_" ++ jsStringOr claim7Cfg.chainName DockerDnsServiceJob.getServiceChainName)]
      ++ claim7Cfg.network.items.flatMap
          (DockerDnsServiceJob.itemInstallCommands (jsStringOr claim7Cfg.chainName DockerDnsServiceJob.getServiceChainName))
      ++ [asIptables4Command ("-A IN_dns_" ++ jsStringOr claim7Cfg.chainName DockerDnsServiceJob.getServiceChainName ++ " -j RETURN"),
          asIptables4Command ("-A OUT_dns_" ++ jsStringOr claim7Cfg.chainName DockerDnsServiceJob.getServiceChainName ++ " -j RETURN"),
          asIptables4Command ("-I IN_services_access_0 1 -j IN_dns_" ++ jsStringOr claim7Cfg.chainName DockerDnsServiceJob.getServiceChainName),
          asIptables4Command ("-I OUT_services_access_0 1 -j OUT_dns_" ++ jsStringOr claim7Cfg.chainName DockerDnsServiceJob.getServiceChainName)] ∧
    (DockerDnsServiceJob.itemInstallCommands
        (jsStringOr claim7Cfg.chainName DockerDnsServiceJob.getServiceChainName) claim7Item).length = 6 ∧
    DockerDnsServiceJob.validateDnsItem claim7RawItem = .ok claim7Item ∧
    claim7Item.sourcePortNumber = 53 := by
  have hI : DockerDnsServiceJob.execute "install" claim7Raw = (.ok claim7Result, claim7State) := by
    decide
  have h := claim7_docker_six_per_mapping.1 claim7Raw claim7Cfg claim7Result claim7State (by decide) hI
  have hd := claim7_docker_six_per_mapping.2 claim7RawItem claim7Item (by decide)
  exact ⟨by decide, hI, h.1, by rw [h.2 claim7Item]; rfl, by decide, hd.trans (by decide)⟩

/-- C8: the blacklist-sync job, for every valid policy and every data-source
result, emits on install exactly one set-add command per returned row, in row
order; on uninstall exactly one set-flush command for the block set; and two
runs over identical data-source results return identical install
transcripts. -/
theorem claim8_blacklist_rows :
    ∀ (raw : SynchronizeBlacklistIps.RawJobConfiguration)
      (cfg : SynchronizeBlacklistIps.JobConfiguration) (rows : List String),
      SynchronizeBlacklistIps.validateConfiguration raw = .ok cfg →
      ((SynchronizeBlacklistIps.execute "install" raw rows).1 =
          .ok ⟨rows.map (fun v => { type := "ipset", value := "-! add block_net " ++ v })⟩
       ∧ (SynchronizeBlacklistIps.execute "uninstall" raw rows).1 =
          .ok ⟨[{ type := "ipset", value := "flush block_net" }]⟩
       ∧ ∀ (raw2 : SynchronizeBlacklistIps.RawJobConfiguration)
           (cfg2 : SynchronizeBlacklistIps.JobConfiguration),
           SynchronizeBlacklistIps.validateConfiguration raw2 = .ok cfg2 →
           (SynchronizeBlacklistIps.execute "install" raw rows).1 =
             (SynchronizeBlacklistIps.execute "install" raw2 rows).1) := by
  intro raw cfg rows hval
  refine ⟨?_, ?_, ?_⟩
  · rw [SynchronizeBlacklistIps.sync_execute_install_eq raw cfg rows hval]
  · rw [SynchronizeBlacklistIps.sync_execute_uninstall_eq raw cfg rows hval]
  · intro raw2 cfg2 hval2
    rw [SynchronizeBlacklistIps.sync_execute_install_eq raw cfg rows hval,
        SynchronizeBlacklistIps.sync_execute_install_eq raw2 cfg2 rows hval2]

/-- The C8 raw policy (database connection string present). -/
def claim8Raw : SynchronizeBlacklistIps.RawJobConfiguration :=
  ⟨some ⟨some "postgres://netfilter"⟩⟩

/-- Validated form of `claim8Raw`. -/
def claim8Cfg : SynchronizeBlacklistIps.JobConfiguration :=
  ⟨⟨"postgres://netfilter"⟩⟩

/-- Witness for C8 at a two-row data-source result. -/
theorem claim8_blacklist_rows_witness :
    SynchronizeBlacklistIps.validateConfiguration claim8Raw = .ok claim8Cfg ∧
    (SynchronizeBlacklistIps.execute "install" claim8Raw ["203.0.113.0/24", "198.51.100.7"]).1 =
      .ok ⟨[{ type := "ipset", value := "-! add block_net 203.0.113.0/24" },
            { type := "ipset", value := "-! add block_net 198.51.100.7" }]⟩ ∧
    (SynchronizeBlacklistIps.execute "uninstall" claim8Raw ["203.0.113.0/24", "198.51.100.7"]).1 =
      .ok ⟨[{ type := "ipset", value := "flush block_net" }]⟩ ∧
    (SynchronizeBlacklistIps.execute "install" claim8Raw ["203.0.113.0/24", "198.51.100.7"]).1 =
      (SynchronizeBlacklistIps.execute "install" claim8Raw ["203.0.113.0/24", "198.51.100.7"]).1 := by
  have h := claim8_blacklist_rows claim8Raw claim8Cfg ["203.0.113.0/24", "198.51.100.7"] (by decide)
  exact ⟨by decide, h.1.trans (by decide), h.2.1, h.2.2 claim8Raw claim8Cfg (by decide)⟩

/-- Spec-side definition for C9 (from the spec's words, for comparison): the
chain identifier the claim predicts — the explicit `chainName` of the job's
validated policy subtree when one is given, else the job's fixed default. -/
def specPredictedChainName (cfg : GenericServiceJob.JobConfiguration) : String :=
  jsStringOr cfg.chainName GenericServiceJob.getServiceChainName

/-- The C9 generic-service policy: the policy subtree sets
`chainName = "customChain"`; the raw job entry of the main configuration file
carries no `chainName` (the execute argument `none`). -/
def claim9Raw : GenericServiceJob.RawJobConfiguration :=
  ⟨some "customChain", some ⟨some []⟩⟩

/-- Validated form of `claim9Raw`: the subtree chain name survives
validation. -/
def claim9Cfg : GenericServiceJob.JobConfiguration :=
  ⟨some "customChain", ⟨[]⟩⟩

/-- The C9 docker policy with the same explicit chain name. -/
def claim9DockerRaw : DockerDnsServiceJob.RawJobConfiguration :=
  ⟨some "customChain", some ⟨some []⟩⟩

/-- Validated form of `claim9DockerRaw`. -/
def claim9DockerCfg : DockerDnsServiceJob.JobConfiguration :=
  ⟨some "customChain", ⟨[]⟩⟩

/-- C9, divergence: the generic service job does not derive its chain name
from the validated policy subtree.  With `chainName = "customChain"` in the
policy (and no chain name on the raw job entry), every emitted command
references `IN_genericServiceName`/`OUT_genericServiceName` — the default —
and the transcript differs from the one the claim predicts; the docker DNS
job, by contrast, honors the validated policy's chain name. -/
theorem claim9_chain_name_source_bug :
    GenericServiceJob.validateConfiguration claim9Raw = .ok claim9Cfg ∧
    specPredictedChainName claim9Cfg = "customChain" ∧
    (GenericServiceJob.execute "install" none claim9Raw).1 =
      .ok ⟨[asIptables4Command "-N IN_genericServiceName",
            asIptables4Command "-N OUT_genericServiceName",
            asIptables4Command "-A IN_genericServiceName -j RETURN",
            asIptables4Command "-A OUT_genericServiceName -j RETURN",
            asIptables4Command "-I IN_services_access_0 1 -j IN_genericServiceName",
            asIptables4Command "-I OUT_services_access_0 1 -j OUT_genericServiceName"]⟩ ∧
    (GenericServiceJob.execute "install" none claim9Raw).1 ≠
      .ok ⟨GenericServiceJob.generateRulesInstall (some (specPredictedChainName claim9Cfg)) claim9Cfg⟩ ∧
    DockerDnsServiceJob.validateConfiguration claim9DockerRaw = .ok claim9DockerCfg ∧
    jsStringOr claim9DockerCfg.chainName DockerDnsServiceJob.getServiceChainName = "customChain" ∧
    (DockerDnsServiceJob.execute "install" claim9DockerRaw).1 =
      .ok ⟨[asIptables4Command "-N IN_dns_customChain",
            asIptables4Command "-N OUT_dns_customChain",
            asIptables4Command "-A IN_dns_customChain -j RETURN",
            asIptables4Command "-A OUT_dns_customChain -j RETURN",
            asIptables4Command "-I IN_services_access_0 1 -j IN_dns_customChain",
            asIptables4Command "-I OUT_services_access_0 1 -j OUT_dns_customChain"]⟩ := by
  refine ⟨by decide, by decide, by decide, by decide, by decide, by decide, by decide⟩
